import Mathlib

/-! Capacity accounting and expiry reconciliation of the Kafka manager worker.

A shallow embedding of `internal/kafka/internal/workers/kafka_mgrs/kafkas_mgr.go`, with
the fleet configuration of `internal/kafka/internal/config` it reads and the scaling of
compute nodes of `pkg/ocm/client.go`.

Numbers.  Go's `int32` and `int` (64 bit) values are integers of `Int`; `int32`
arithmetic wraps around (`wrapInt32`), and so does the addition of `int` the cluster
service client performs (`wrapInt64`).  Every `float64` the worker computes is the
conversion of an integer or the difference, minimum or maximum of such values, so it
is integer valued and is represented by that integer: `float64OfInt` is the
conversion (round to nearest, ties to even, 53 bit significand) and `float64Sub` the
correctly rounded subtraction.  The conversion `int32(f)` of a `float64` is exact
when the value fits and is left to the implementation by the language otherwise;
`Arch.cvtOutOfRange` stands for that choice.

Effects.  What the worker does to the outside, the publications to the metrics sink and
the calls to its collaborators, is returned as a list, in order, next to the errors.  A
collaborator is a record of functions and answers a call by its arguments.  The instances
of a pass are reached through pointers: the backfill writes the billing model tags in
place, so its embedding returns the instances as it leaves them and the later steps work
on those.  Errors are rendered by their messages.
-/

namespace KafkaMgrs

/-! ## Machine numbers -/

/-- Smallest `int32`. -/
def minInt32 : Int := -2147483648

/-- Largest `int32`. -/
def maxInt32 : Int := 2147483647

/-- Value of `math.MaxInt64`. -/
def maxInt64 : Int := 9223372036854775807

/-- Membership in the range of Go's `int32`. -/
def IsInt32 (x : Int) : Prop := minInt32 ≤ x ∧ x ≤ maxInt32

instance (x : Int) : Decidable (IsInt32 x) := by
  unfold IsInt32; infer_instance

/-- Result of an `int32` operation whose mathematical value is `x`: Go wraps around. -/
def wrapInt32 (x : Int) : Int := (x + 2147483648) % 4294967296 - 2147483648

/-- Number of low bits a natural number loses when it is stored in a 53 bit significand.
The fuel bounds the binary exponent. -/
def f64Shift : Nat → Nat → Nat
  | 0, _ => 0
  | fuel + 1, n => if n < 9007199254740992 then 0 else f64Shift fuel (n / 2) + 1

/-- Nearest natural number with a 53 bit significand, ties to even. -/
def roundNatF64 (n : Nat) : Nat :=
  let e := f64Shift 1024 n
  let q := n / 2 ^ e
  let r := n % 2 ^ e
  if 2 * r < 2 ^ e then q * 2 ^ e
  else if 2 ^ e < 2 * r then (q + 1) * 2 ^ e
  else if q % 2 = 0 then q * 2 ^ e else (q + 1) * 2 ^ e

/-- Go's `float64(x)` for an integer `x`, as the integer the resulting float denotes. -/
def float64OfInt (x : Int) : Int :=
  if 0 ≤ x then (roundNatF64 x.toNat : Int) else -(roundNatF64 (-x).toNat : Int)

/-- Go's `a - b` on integer valued `float64`s: the exact difference, rounded. -/
def float64Sub (a b : Int) : Int := float64OfInt (a - b)

/-- The part of the target the compiled worker depends on: the `int32` a conversion
from `float64` yields when the value does not fit (the language leaves it to the
implementation). -/
structure Arch where
  cvtOutOfRange : Int → Int

/-- Go's `int32(f)` for an integer valued `float64`. -/
def int32OfFloat64 (arch : Arch) (f : Int) : Int :=
  if minInt32 ≤ f ∧ f ≤ maxInt32 then f else wrapInt32 (arch.cvtOutOfRange f)

/-- The amd64 target: `CVTTSD2SL` yields the integer indefinite value. -/
def amd64 : Arch := ⟨fun _ => -2147483648⟩

/-! ## Data model -/

deriving instance DecidableEq for Except

/-- Modelled from the spec: the usage snapshot row `services.KafkaStreamingUnitCountPerCluster`,
declared outside the sources at hand; the fields are those the worker reads and writes,
`Count` and `MaxUnits` being `int32`. -/
structure KafkaStreamingUnitCountPerCluster where
  Region : String
  InstanceType : String
  ClusterId : String
  Count : Int
  CloudProvider : String
  MaxUnits : Int
  Status : String
  ClusterType : String
deriving DecidableEq, Repr

/-- Modelled from the spec: the manual fleet descriptor `config.ManualCluster`, with the
fields the worker reads and those the test tables of the configuration spell out;
`KafkaInstanceLimit` is an `int`, `Status` and `ProviderType` are string types. -/
structure ManualCluster where
  ClusterId : String
  Region : String
  CloudProvider : String
  Schedulable : Bool
  KafkaInstanceLimit : Int
  SupportedInstanceType : String
  Name : String
  MultiAZ : Bool
  ClusterDNS : String
  Status : String
  ProviderType : String
deriving DecidableEq, Repr

/-- Modelled from the spec: `api.ClusterAccepted.String()`, the accepted placeholder status. -/
def ClusterAccepted : String := "cluster_accepted"

/-- Modelled from the spec: `api.EnterpriseDataPlaneClusterType.String()`, the tag of
enterprise clusters. -/
def EnterpriseDataPlaneClusterType : String := "enterprise"

/-- Modelled from the spec: the value of `constants.KafkaRequestStatusAccepted`. -/
def KafkaRequestStatusAccepted : String := "accepted"

/-- Modelled from the spec: the value of `constants.KafkaRequestStatusPreparing`. -/
def KafkaRequestStatusPreparing : String := "preparing"

/-- Modelled from the spec: the value of `constants.KafkaRequestStatusProvisioning`. -/
def KafkaRequestStatusProvisioning : String := "provisioning"

/-- Modelled from the spec: the value of `constants.KafkaRequestStatusReady`. -/
def KafkaRequestStatusReady : String := "ready"

/-- Modelled from the spec: the value of `constants.KafkaRequestStatusDeprovision`. -/
def KafkaRequestStatusDeprovision : String := "deprovision"

/-- Modelled from the spec: the value of `constants.KafkaRequestStatusDeleting`. -/
def KafkaRequestStatusDeleting : String := "deleting"

/-- Modelled from the spec: the value of `constants.KafkaRequestStatusFailed`. -/
def KafkaRequestStatusFailed : String := "failed"

/-- Modelled from the spec: the value of `constants.KafkaRequestStatusSuspended`. -/
def KafkaRequestStatusSuspended : String := "suspended"

/-- Modelled from the spec: the value of `constants.KafkaRequestStatusSuspending`. -/
def KafkaRequestStatusSuspending : String := "suspending"

/-- Modelled from the spec: the value of `constants.KafkaRequestStatusResuming`. -/
def KafkaRequestStatusResuming : String := "resuming"

/-- Go's `sql.NullTime` over `time.Time`; an instant is the number of seconds since the
Unix epoch. -/
structure NullTime where
  Time : Int
  Valid : Bool
deriving DecidableEq, Repr

/-- The zero `time.Time` (January 1, year 1, 00:00 UTC). -/
def zeroTime : Int := -62135596800

/-- Modelled from the spec: the instance request `dbapi.KafkaRequest`, restricted to the
fields the worker reads and writes. -/
structure KafkaRequest where
  ID : String
  ClusterID : String
  OrganisationId : String
  SubscriptionId : String
  InstanceType : String
  SizeId : String
  Status : String
  ActualKafkaBillingModel : String
  DesiredKafkaBillingModel : String
  ExpiresAt : NullTime
deriving DecidableEq, Repr

/-- Modelled from the spec: the billing model descriptor `config.KafkaBillingModel`,
restricted to its grace period. -/
structure KafkaBillingModel where
  GracePeriodDays : Int
deriving DecidableEq, Repr

/-- The collaborator `cloudProviders`: `GetInstanceLimit` returns a `*int` and an error. -/
structure ProviderConfig where
  GetInstanceLimit : String → String → String → Except String (Option Int)

/-- The collaborator `dataplaneClusterConfig`: the results of
`IsDataPlaneAutoScalingEnabled`, of `IsDataPlaneManualScalingEnabled` and of
`ClusterConfig.GetManualClusters`. -/
structure DataplaneClusterConfig where
  IsDataPlaneAutoScalingEnabled : Bool
  IsDataPlaneManualScalingEnabled : Bool
  GetManualClusters : List ManualCluster

/-- Modelled from the spec: the instance size descriptor `config.KafkaInstanceSize`,
restricted to its optional fixed lifespan (`LifespanSeconds` is a `*int`). -/
structure KafkaInstanceSize where
  LifespanSeconds : Option Int
deriving DecidableEq, Repr

/-- Modelled from the spec: a row of the answer of `CountByStatus`, a status and the number
of instances in it. -/
structure KafkaStatusCount where
  Status : String
  Count : Int
deriving DecidableEq, Repr

/-- The collaborator `kafkaConfig`: the two catalogue lookups and the configured quota type
(`Quota.Type`). -/
structure KafkaConfig where
  GetBillingModelByID : String → String → Except String KafkaBillingModel
  GetKafkaInstanceSize : String → String → Except String KafkaInstanceSize
  QuotaType : String

/-- The collaborator `kafkaService`: every operation answers a call by its arguments.
`Updates`, `Update`, `DeprovisionExpiredKafkas` and `DeprovisionKafkaForUsers` answer with
an error or with none; `ListAll` and `UpdateStatus` answer with a value and an error, which
Go lets a callee return together; no operation writes to the record it is handed. -/
structure KafkaService where
  Updates : KafkaRequest → List (String × NullTime) → Option String
  ListAll : List KafkaRequest × Option String
  CountByStatus : List String → Except String (List KafkaStatusCount)
  UpdateStatus : String → String → Bool × Option String
  Update : KafkaRequest → Option String
  DeprovisionExpiredKafkas : Option String
  DeprovisionKafkaForUsers : List String → Option String
  IsQuotaEntitlementActive : KafkaRequest → Except String Bool

/-- The collaborator `clusterService`: the answer of
`FindStreamingUnitCountByClusterAndInstanceType`. -/
structure ClusterService where
  FindStreamingUnitCountByClusterAndInstanceType :
    Except String (List KafkaStreamingUnitCountPerCluster)

/-- The standard library calls of the worker: `time.Now()` and `Time.AddDate`. -/
structure Clock where
  Now : Int
  AddDate : Int → Int → Int → Int → Int

/-- The optional capability `quota.AMSQuotaService` of a quota service:
`GetSubscriptionByID` answers with an error, with no subscription, or with a subscription,
of which the worker reads `string(subscription.ClusterBillingModel())` only. -/
structure AMSQuotaService where
  GetSubscriptionByID : String → Except String (Option String)

/-- A quota service as the worker uses it: the outcome of the type assertion
`quotaService.(quota.AMSQuotaService)`. -/
structure QuotaService where
  AMSQuotaService : Option AMSQuotaService

/-- The collaborator `quotaServiceFactory`. -/
structure QuotaServiceFactory where
  GetQuotaService : String → Except String QuotaService

/-- The collaborator `accessControlListConfig`, restricted to the deny list. -/
structure AccessControlListConfig where
  EnableDenyList : Bool
  DenyList : List String

/-- The remaining lifespan `IsExpired` answers with, of which the worker calls
`LessThanOrEqual` only; the argument is an integer valued `float64`. -/
structure RemainingLifespan where
  LessThanOrEqual : Int → Bool

/-- Code of the repository that the worker calls and that is declared outside the sources at
hand, taken as parameters: the methods `CanBeAutomaticallySuspended` and `IsExpired` of
`dbapi.KafkaRequest` and the list `constants.GetDeletingStatuses()`. -/
structure Declarations where
  CanBeAutomaticallySuspended : KafkaRequest → Bool
  IsExpired : KafkaRequest → Bool × RemainingLifespan
  GetDeletingStatuses : List String

/-- The Kafka manager: the target it is compiled for and its collaborators. -/
structure KafkaManager where
  arch : Arch
  clock : Clock
  kafkaService : KafkaService
  clusterService : ClusterService
  kafkaConfig : KafkaConfig
  dataplaneClusterConfig : DataplaneClusterConfig
  cloudProviders : ProviderConfig
  quotaServiceFactory : QuotaServiceFactory
  accessControlListConfig : AccessControlListConfig
  declarations : Declarations

/-! ## Capacity accountant -/

/-- Embeds `getRegionInstanceTypeLimit`: the configured ceiling, `math.MaxInt64` when there
is none, converted to `float64`; a lookup error is wrapped and returned. -/
def getRegionInstanceTypeLimit (k : KafkaManager) (region cloudProvider instanceType : String) :
    Except String Int :=
  match k.cloudProviders.GetInstanceLimit region cloudProvider instanceType with
  | .error err =>
    .error ("failed to get instance limit for " ++ region ++ " on " ++ cloudProvider ++
      " and instance type " ++ instanceType ++ ": " ++ err)
  | .ok instanceTypeLimit =>
    let limit := instanceTypeLimit.getD maxInt64
    .ok (float64OfInt limit)

/-- Embeds `calculateAvailableAndMadCapacityForEnterpriseClusters`. -/
def calculateAvailableAndMadCapacityForEnterpriseClusters
    (streamingUnitsByRegion : List KafkaStreamingUnitCountPerCluster) :
    List KafkaStreamingUnitCountPerCluster :=
  match streamingUnitsByRegion with
  | [] => []
  | cluster :: rest =>
    if cluster.ClusterType = EnterpriseDataPlaneClusterType then
      { Region := cluster.Region
        InstanceType := cluster.InstanceType
        ClusterId := cluster.ClusterId
        Count := wrapInt32 (cluster.MaxUnits - cluster.Count)
        CloudProvider := cluster.CloudProvider
        MaxUnits := cluster.MaxUnits
        Status := ""
        ClusterType := "" } :: calculateAvailableAndMadCapacityForEnterpriseClusters rest
    else calculateAvailableAndMadCapacityForEnterpriseClusters rest

/-- Embeds `calculateAvailableAndMaxCapacityForDynamicScaling`. -/
def calculateAvailableAndMaxCapacityForDynamicScaling (k : KafkaManager)
    (streamingUnitsByRegion : KafkaStreamingUnitCountPerCluster) :
    Except String KafkaStreamingUnitCountPerCluster :=
  match getRegionInstanceTypeLimit k streamingUnitsByRegion.Region
      streamingUnitsByRegion.CloudProvider streamingUnitsByRegion.InstanceType with
  | .error err => .error err
  | .ok limit =>
    let maxAvailable := min (float64OfInt streamingUnitsByRegion.MaxUnits) limit
    let available := max 0 (float64Sub maxAvailable (float64OfInt streamingUnitsByRegion.Count))
    .ok { Region := streamingUnitsByRegion.Region
          InstanceType := streamingUnitsByRegion.InstanceType
          ClusterId := streamingUnitsByRegion.ClusterId
          Count := int32OfFloat64 k.arch available
          CloudProvider := streamingUnitsByRegion.CloudProvider
          MaxUnits := int32OfFloat64 k.arch maxAvailable
          Status := ""
          ClusterType := "" }

/-- Embeds the helper `findUsedCapacityForCluster` of the manual calculator: the `int32`
sums of the counts on a cluster, over all instance types and over one instance type. -/
def findUsedCapacityForCluster (streamingUnitsByRegion : List KafkaStreamingUnitCountPerCluster)
    (clusterId instanceType : String) : Int × Int :=
  streamingUnitsByRegion.foldl
    (fun used kafkaInRegion =>
      if kafkaInRegion.ClusterId = clusterId then
        if kafkaInRegion.InstanceType = instanceType then
          (wrapInt32 (used.1 + kafkaInRegion.Count), wrapInt32 (used.2 + kafkaInRegion.Count))
        else (wrapInt32 (used.1 + kafkaInRegion.Count), used.2)
      else used)
    (0, 0)

/-- Splits a list of characters at every occurrence of a separator. -/
def splitChars (sep : Char) : List Char → List (List Char)
  | [] => [[]]
  | c :: cs =>
    if c = sep then [] :: splitChars sep cs
    else
      match splitChars sep cs with
      | [] => [[c]]
      | w :: ws => (c :: w) :: ws

/-- Go's `strings.Split(s, ",")`. -/
def stringsSplitComma (s : String) : List String :=
  (splitChars ',' s.data).map String.mk

/-- The body of the inner loop of `calculateCapacityByRegionAndInstanceTypeForManualClusters`
once the regional limit has been read: the row appended for a cluster and an instance type. -/
def manualClusterCapacity (k : KafkaManager)
    (streamingUnitsByRegion : List KafkaStreamingUnitCountPerCluster)
    (cluster : ManualCluster) (instanceType : String) (limit : Int) :
    KafkaStreamingUnitCountPerCluster :=
  let maxAvailable := min (float64OfInt cluster.KafkaInstanceLimit) limit
  let used := findUsedCapacityForCluster streamingUnitsByRegion cluster.ClusterId instanceType
  let totalUsed := used.1
  let instanceTypeUsed := used.2
  let availableByInstanceType :=
    min (float64Sub maxAvailable (float64OfInt instanceTypeUsed))
      (float64Sub (float64OfInt cluster.KafkaInstanceLimit) (float64OfInt totalUsed))
  let availableByInstanceType := if availableByInstanceType < 0 then 0 else availableByInstanceType
  { Region := cluster.Region
    InstanceType := instanceType
    ClusterId := cluster.ClusterId
    Count := int32OfFloat64 k.arch availableByInstanceType
    CloudProvider := cluster.CloudProvider
    MaxUnits := int32OfFloat64 k.arch maxAvailable
    Status := ""
    ClusterType := "" }

/-- The inner loop of `calculateCapacityByRegionAndInstanceTypeForManualClusters`, over the
supported instance types of one cluster; a failed lookup aborts the calculation. -/
def manualCapacityForInstanceTypes (k : KafkaManager)
    (streamingUnitsByRegion : List KafkaStreamingUnitCountPerCluster) (cluster : ManualCluster) :
    List String → Except String (List KafkaStreamingUnitCountPerCluster)
  | [] => .ok []
  | instanceType :: rest =>
    if instanceType = "" then manualCapacityForInstanceTypes k streamingUnitsByRegion cluster rest
    else
      match getRegionInstanceTypeLimit k cluster.Region cluster.CloudProvider instanceType with
      | .error err => .error err
      | .ok limit =>
        match manualCapacityForInstanceTypes k streamingUnitsByRegion cluster rest with
        | .error err => .error err
        | .ok result =>
          .ok (manualClusterCapacity k streamingUnitsByRegion cluster instanceType limit :: result)

/-- The outer loop of `calculateCapacityByRegionAndInstanceTypeForManualClusters`, over the
manual clusters. -/
def manualCapacityForClusters (k : KafkaManager)
    (streamingUnitsByRegion : List KafkaStreamingUnitCountPerCluster) :
    List ManualCluster → Except String (List KafkaStreamingUnitCountPerCluster)
  | [] => .ok []
  | cluster :: rest =>
    if !cluster.Schedulable then manualCapacityForClusters k streamingUnitsByRegion rest
    else
      match manualCapacityForInstanceTypes k streamingUnitsByRegion cluster
          (stringsSplitComma cluster.SupportedInstanceType) with
      | .error err => .error err
      | .ok rows =>
        match manualCapacityForClusters k streamingUnitsByRegion rest with
        | .error err => .error err
        | .ok result => .ok (rows ++ result)

/-- Embeds `calculateCapacityByRegionAndInstanceTypeForManualClusters`. -/
def calculateCapacityByRegionAndInstanceTypeForManualClusters (k : KafkaManager)
    (streamingUnitsByRegion : List KafkaStreamingUnitCountPerCluster) :
    Except String (List KafkaStreamingUnitCountPerCluster) :=
  manualCapacityForClusters k streamingUnitsByRegion k.dataplaneClusterConfig.GetManualClusters

/-! ## Metrics emission -/

/-- A publication to the metrics sink: a gauge of the capacity step, with its labels (cloud
provider, region, instance type, cluster id) and its value; the status gauge of an instance,
with its labels (status, instance id, cluster id) and its value; the counter of a status. -/
inductive Metric where
  | ClusterStatusCapacityUsedCount (cloudProvider region instanceType clusterId : String)
      (value : Int)
  | ClusterStatusCapacityAvailableCount (cloudProvider region instanceType clusterId : String)
      (value : Int)
  | ClusterStatusCapacityMaxCount (cloudProvider region instanceType clusterId : String)
      (value : Int)
  | KafkaRequestsCurrentStatusInfo (status id clusterId : String) (value : Int)
  | KafkaRequestsStatusCount (status : String) (count : Int)
deriving DecidableEq, Repr

/-- Embeds `updateClusterStatusCapacityAvailableMetric`. -/
def updateClusterStatusCapacityAvailableMetric (c : KafkaStreamingUnitCountPerCluster) : Metric :=
  .ClusterStatusCapacityAvailableCount c.CloudProvider c.Region c.InstanceType c.ClusterId
    (float64OfInt c.Count)

/-- Embeds `updateClusterStatusCapacityMaxMetric`. -/
def updateClusterStatusCapacityMaxMetric (c : KafkaStreamingUnitCountPerCluster) : Metric :=
  .ClusterStatusCapacityMaxCount c.CloudProvider c.Region c.InstanceType c.ClusterId
    (float64OfInt c.MaxUnits)

/-- The first loop of `updateClusterStatusCapacityMetrics`: the used capacity gauges. -/
def publishUsedCapacity : List KafkaStreamingUnitCountPerCluster → List Metric
  | [] => []
  | usedStreamingUnitCount :: rest =>
    if usedStreamingUnitCount.Status ≠ ClusterAccepted then
      .ClusterStatusCapacityUsedCount usedStreamingUnitCount.CloudProvider
        usedStreamingUnitCount.Region usedStreamingUnitCount.InstanceType
        usedStreamingUnitCount.ClusterId (float64OfInt usedStreamingUnitCount.Count)
        :: publishUsedCapacity rest
    else publishUsedCapacity rest

/-- The loop of `updateClusterStatusCapacityMetrics` under auto scaling: the gauges published
and the error that ended the loop, if any. -/
def publishDynamicCapacity (k : KafkaManager) :
    List KafkaStreamingUnitCountPerCluster → List Metric × Option String
  | [] => ([], none)
  | usedStreamingUnitCount :: rest =>
    if usedStreamingUnitCount.Status ≠ ClusterAccepted ∧
        usedStreamingUnitCount.ClusterType ≠ EnterpriseDataPlaneClusterType then
      match calculateAvailableAndMaxCapacityForDynamicScaling k usedStreamingUnitCount with
      | .error err => ([], some err)
      | .ok availableAndMaxCapacityCounts =>
        let later := publishDynamicCapacity k rest
        (updateClusterStatusCapacityAvailableMetric availableAndMaxCapacityCounts ::
          updateClusterStatusCapacityMaxMetric availableAndMaxCapacityCounts :: later.1, later.2)
    else publishDynamicCapacity k rest

/-- The loops of `updateClusterStatusCapacityMetrics` over calculated rows: under manual
scaling the rows with the accepted status are left out, for enterprise rows none is. -/
def publishCapacity (skipAccepted : Bool) : List KafkaStreamingUnitCountPerCluster → List Metric
  | [] => []
  | availableAndMaxCapacityCounts :: rest =>
    if skipAccepted && decide (availableAndMaxCapacityCounts.Status = ClusterAccepted) then
      publishCapacity skipAccepted rest
    else
      updateClusterStatusCapacityAvailableMetric availableAndMaxCapacityCounts ::
        updateClusterStatusCapacityMaxMetric availableAndMaxCapacityCounts ::
        publishCapacity skipAccepted rest

/-- The body of `updateClusterStatusCapacityMetrics` once the usage snapshot has been read:
the gauges published, in order, and the error returned, if any. -/
def publishCapacityMetrics (k : KafkaManager)
    (usedStreamingUnitsCountByRegion : List KafkaStreamingUnitCountPerCluster) :
    List Metric × Option String :=
  let used := publishUsedCapacity usedStreamingUnitsCountByRegion
  let dynamic :=
    if k.dataplaneClusterConfig.IsDataPlaneAutoScalingEnabled then
      publishDynamicCapacity k usedStreamingUnitsCountByRegion
    else ([], none)
  match dynamic.2 with
  | some err => (used ++ dynamic.1, some err)
  | none =>
    let manual : Except String (List Metric) :=
      if k.dataplaneClusterConfig.IsDataPlaneManualScalingEnabled then
        match calculateCapacityByRegionAndInstanceTypeForManualClusters k
            usedStreamingUnitsCountByRegion with
        | .error err => .error err
        | .ok availableAndMaxCapacitiesCounts =>
          .ok (publishCapacity true availableAndMaxCapacitiesCounts)
      else .ok []
    match manual with
    | .error err => (used ++ dynamic.1, some err)
    | .ok published =>
      (used ++ dynamic.1 ++ published ++
        publishCapacity false
          (calculateAvailableAndMadCapacityForEnterpriseClusters usedStreamingUnitsCountByRegion),
        none)

/-- Embeds `updateClusterStatusCapacityMetrics`: the gauges published, in order, and the
error returned, if any. -/
def updateClusterStatusCapacityMetrics (k : KafkaManager) : List Metric × Option String :=
  match k.clusterService.FindStreamingUnitCountByClusterAndInstanceType with
  | .error err => ([], some ("failed to count Kafkas by region: " ++ err))
  | .ok usedStreamingUnitsCountByRegion =>
    publishCapacityMetrics k usedStreamingUnitsCountByRegion

/-! ## Expiry reconciliation -/

/-- A call the worker issues to `kafkaService`, to `clusterService`, to
`quotaServiceFactory` or to the quota service, with its arguments. -/
inductive ServiceCall where
  | Updates (kafka : KafkaRequest) (fields : List (String × NullTime))
  | ListAll
  | CountByStatus (statuses : List String)
  | FindStreamingUnitCountByClusterAndInstanceType
  | DeprovisionKafkaForUsers (users : List String)
  | GetQuotaService (quotaType : String)
  | GetSubscriptionByID (id : String)
  | Update (kafka : KafkaRequest)
  | IsQuotaEntitlementActive (kafka : KafkaRequest)
  | UpdateStatus (id status : String)
  | DeprovisionExpiredKafkas
deriving DecidableEq, Repr

/-- Embeds `updateKafkaExpirationDate`: the call issued and the error returned, if any. -/
def updateKafkaExpirationDate (k : KafkaManager) (kafka : KafkaRequest)
    (expiresAtTime : Option Int) : List ServiceCall × Option String :=
  let expiresAt : NullTime :=
    match expiresAtTime with
    | some t => { Time := t, Valid := true }
    | none => { Time := zeroTime, Valid := false }
  ([.Updates kafka [("expires_at", expiresAt)]],
    k.kafkaService.Updates kafka [("expires_at", expiresAt)])

/-- Embeds `updateExpiresAtBasedOnQuotaEntitlement`: the calls issued and the error
returned, if any. -/
def updateExpiresAtBasedOnQuotaEntitlement (k : KafkaManager) (kafka : KafkaRequest)
    (isQuotaEntitlementActive : Bool) : List ServiceCall × Option String :=
  if isQuotaEntitlementActive && kafka.ExpiresAt.Valid then
    updateKafkaExpirationDate k kafka none
  else if !isQuotaEntitlementActive && !kafka.ExpiresAt.Valid then
    match k.kafkaConfig.GetBillingModelByID kafka.InstanceType kafka.ActualKafkaBillingModel with
    | .error err => ([], some err)
    | .ok billingModel =>
      let expiresAtTime := k.clock.AddDate k.clock.Now 0 0 billingModel.GracePeriodDays
      updateKafkaExpirationDate k kafka (some expiresAtTime)
  else ([], none)

/-- Go's `%q` for a string without double quote, backslash or unprintable character, as
identifiers are: the string between double quotes. -/
def quoted (s : String) : String :=
  String.singleton (Char.ofNat 34) ++ s ++ String.singleton (Char.ofNat 34)

/-- Go's `errors.Wrap(err, message)`, rendered: the message, a colon and the cause. -/
def wrap (err message : String) : String := message ++ ": " ++ err

/-- What the body of the loop of `reconcileKafkaExpiresAt` leaves behind for one instance:
the calls issued, the errors appended to `svcErrors`, and the entitlement cache
`subscriptionStatusByOrgAndBillingModel`, a map kept as the list of its entries, latest
first. -/
structure ExpiresAtStep where
  calls : List ServiceCall
  svcErrors : List String
  cache : List (String × Bool)

/-- The body of the loop of `reconcileKafkaExpiresAt` for one instance, from the entitlement
cache the earlier instances left. -/
def reconcileKafkaExpiresAtStep (k : KafkaManager) (cache : List (String × Bool))
    (kafka : KafkaRequest) : ExpiresAtStep :=
  if kafka.Status ∈ k.declarations.GetDeletingStatuses then
    { calls := [], svcErrors := [], cache := cache }
  else
    match k.kafkaConfig.GetKafkaInstanceSize kafka.InstanceType kafka.SizeId with
    | .error err =>
      { calls := []
        svcErrors :=
          [wrap err ("failed to get kafka instance size for " ++ quoted kafka.ID ++
            " with instance type " ++ quoted kafka.InstanceType ++ " and size id " ++
            quoted kafka.SizeId)]
        cache := cache }
    | .ok instanceSize =>
      if instanceSize.LifespanSeconds = none then
        let orgBillingModelID := kafka.OrganisationId ++ "-" ++ kafka.ActualKafkaBillingModel
        match cache.lookup orgBillingModelID with
        | some active =>
          let updated := updateExpiresAtBasedOnQuotaEntitlement k kafka active
          { calls := updated.1
            svcErrors :=
              match updated.2 with
              | some err =>
                [wrap err ("failed to update expires_at value based on quota entitlement " ++
                  "for kafka instance " ++ quoted kafka.ID)]
              | none => []
            cache := cache }
        | none =>
          match k.kafkaService.IsQuotaEntitlementActive kafka with
          | .error err =>
            { calls := [.IsQuotaEntitlementActive kafka]
              svcErrors :=
                [wrap err ("failed to get quota entitlement status of kafka instance " ++
                  quoted kafka.ID)]
              cache := cache }
          | .ok isActive =>
            let updated := updateExpiresAtBasedOnQuotaEntitlement k kafka isActive
            { calls := .IsQuotaEntitlementActive kafka :: updated.1
              svcErrors :=
                match updated.2 with
                | some err =>
                  [wrap err ("failed to update expires_at value based on quota entitlement " ++
                    "for kafka instance " ++ quoted kafka.ID)]
                | none => []
              cache := (orgBillingModelID, isActive) :: cache }
      else { calls := [], svcErrors := [], cache := cache }

/-- The loop of `reconcileKafkaExpiresAt` from a state of the entitlement cache: the calls
issued, in order, and the errors appended to `svcErrors`. -/
def reconcileKafkaExpiresAtFrom (k : KafkaManager) :
    List (String × Bool) → List KafkaRequest → List ServiceCall × List String
  | _, [] => ([], [])
  | cache, kafka :: rest =>
    let step := reconcileKafkaExpiresAtStep k cache kafka
    let later := reconcileKafkaExpiresAtFrom k step.cache rest
    (step.calls ++ later.1, step.svcErrors ++ later.2)

/-- Embeds `reconcileKafkaExpiresAt`: the calls issued, in order, and the error list
returned; the entitlement cache starts empty. -/
def reconcileKafkaExpiresAt (k : KafkaManager) (kafkas : List KafkaRequest) :
    List ServiceCall × List String :=
  reconcileKafkaExpiresAtFrom k [] kafkas

/-! ## Billing model backfill -/

/-- What `tempMigrateEmptyBillingModels` leaves behind: the calls issued, in order, the
error list returned, and the instances of the list it was handed, which it reaches through
pointers and whose billing model tags it overwrites in place. -/
structure Migration where
  calls : List ServiceCall
  svcErrors : List String
  kafkas : List KafkaRequest

/-- The body of the loop of `tempMigrateEmptyBillingModels` for one instance: the calls
issued, the errors appended to `svcErrors`, and the instance as the loop leaves it. -/
def migrateEmptyBillingModel (k : KafkaManager) (amsQuotaService : AMSQuotaService)
    (kafka : KafkaRequest) : List ServiceCall × List String × KafkaRequest :=
  if kafka.ActualKafkaBillingModel ≠ "" then ([], [], kafka)
  else
    match amsQuotaService.GetSubscriptionByID kafka.SubscriptionId with
    | .error err =>
      ([.GetSubscriptionByID kafka.SubscriptionId],
        [wrap err ("unable to find a subscription with ID " ++ quoted kafka.SubscriptionId ++
          " for cluster with ID " ++ quoted kafka.ClusterID)],
        kafka)
    | .ok none =>
      ([.GetSubscriptionByID kafka.SubscriptionId],
        ["subscription with ID " ++ quoted kafka.SubscriptionId ++ " for cluster with ID " ++
          quoted kafka.ClusterID ++ " not found"],
        kafka)
    | .ok (some clusterBillingModel) =>
      let migrated :=
        { kafka with
          ActualKafkaBillingModel := clusterBillingModel
          DesiredKafkaBillingModel := clusterBillingModel }
      ([.GetSubscriptionByID kafka.SubscriptionId, .Update migrated],
        match k.kafkaService.Update migrated with
        | some err => [wrap err "unable to update the kafka request"]
        | none => [],
        migrated)

/-- The loop of `tempMigrateEmptyBillingModels` over the instances. -/
def migrateEmptyBillingModels (k : KafkaManager) (amsQuotaService : AMSQuotaService) :
    List KafkaRequest → Migration
  | [] => { calls := [], svcErrors := [], kafkas := [] }
  | kafka :: rest =>
    let step := migrateEmptyBillingModel k amsQuotaService kafka
    let later := migrateEmptyBillingModels k amsQuotaService rest
    { calls := step.1 ++ later.calls
      svcErrors := step.2.1 ++ later.svcErrors
      kafkas := step.2.2 :: later.kafkas }

/-- Embeds `tempMigrateEmptyBillingModels`. -/
def tempMigrateEmptyBillingModels (k : KafkaManager) (kafkas : List KafkaRequest) : Migration :=
  match k.quotaServiceFactory.GetQuotaService k.kafkaConfig.QuotaType with
  | .error factoryErr =>
    { calls := [.GetQuotaService k.kafkaConfig.QuotaType]
      svcErrors := [wrap factoryErr "unable to get the quota service"]
      kafkas := kafkas }
  | .ok quotaService =>
    match quotaService.AMSQuotaService with
    | none =>
      { calls := [.GetQuotaService k.kafkaConfig.QuotaType], svcErrors := [], kafkas := kafkas }
    | some amsQuotaService =>
      let migration := migrateEmptyBillingModels k amsQuotaService kafkas
      { migration with calls := .GetQuotaService k.kafkaConfig.QuotaType :: migration.calls }

/-! ## Lifecycle reconciler -/

/-- Embeds `kafkaMetricsStatuses`: the tracked statuses, in the order of the source. -/
def kafkaMetricsStatuses : List String :=
  [KafkaRequestStatusAccepted, KafkaRequestStatusPreparing, KafkaRequestStatusProvisioning,
    KafkaRequestStatusReady, KafkaRequestStatusDeprovision, KafkaRequestStatusDeleting,
    KafkaRequestStatusFailed, KafkaRequestStatusSuspended, KafkaRequestStatusSuspending,
    KafkaRequestStatusResuming]

/-- What a pass does to the outside, in order: a publication to the metrics sink or a call
to a collaborator. -/
inductive Effect where
  | publish (metric : Metric)
  | call (serviceCall : ServiceCall)
deriving DecidableEq, Repr

/-- An element of the list `Reconcile` returns: an error, rendered by its message, or the
error list of a step (`serviceErr.ErrorList`) wrapped with a message, the list being kept
as the list of the messages of its elements. -/
inductive ReconcileError where
  | error (message : String)
  | wrapErrorList (list : List String) (message : String)
deriving DecidableEq, Repr

/-- The body of the first loop of `Reconcile` for one instance: a status gauge for every
tracked status. -/
def updateKafkaRequestsCurrentStatusInfo (kafka : KafkaRequest) : List Metric :=
  kafkaMetricsStatuses.map (fun s =>
    if kafka.Status = s then
      .KafkaRequestsCurrentStatusInfo kafka.Status kafka.ID kafka.ClusterID 1
    else .KafkaRequestsCurrentStatusInfo s kafka.ID kafka.ClusterID 0)

/-- Embeds `setKafkaStatusCountMetric`: the effects, in order, and the errors returned. -/
def setKafkaStatusCountMetric (k : KafkaManager) : List Effect × List String :=
  match k.kafkaService.CountByStatus kafkaMetricsStatuses with
  | .error err =>
    ([.call (.CountByStatus kafkaMetricsStatuses)], [wrap err "failed to count Kafkas by status"])
  | .ok counters =>
    (.call (.CountByStatus kafkaMetricsStatuses) ::
      counters.map (fun c => .publish (.KafkaRequestsStatusCount c.Status c.Count)), [])

/-- Embeds `reconcileDeniedKafkaOwners`: the calls issued and the error returned, if any. -/
def reconcileDeniedKafkaOwners (k : KafkaManager) (deniedUsers : List String) :
    List ServiceCall × Option String :=
  if deniedUsers.length < 1 then ([], none)
  else
    ([.DeprovisionKafkaForUsers deniedUsers], k.kafkaService.DeprovisionKafkaForUsers deniedUsers)

/-- The body of the last loop of `Reconcile` for one instance: the calls issued and the
errors appended to `encounteredErrors`. -/
def suspendInGracePeriod (k : KafkaManager) (kafka : KafkaRequest) :
    List ServiceCall × List ReconcileError :=
  if !k.declarations.CanBeAutomaticallySuspended kafka then ([], [])
  else
    let expired := (k.declarations.IsExpired kafka).1
    let remainingLifespan := (k.declarations.IsExpired kafka).2
    if expired then ([], [])
    else
      match k.kafkaConfig.GetBillingModelByID kafka.InstanceType kafka.ActualKafkaBillingModel with
      | .error err => ([], [.error (wrap err "failed to suspend expired Kafka instances")])
      | .ok bm =>
        if remainingLifespan.LessThanOrEqual (float64OfInt bm.GracePeriodDays) then
          ([.UpdateStatus kafka.ID KafkaRequestStatusSuspending],
            match (k.kafkaService.UpdateStatus kafka.ID KafkaRequestStatusSuspending).2 with
            | some err => [.error (wrap err "failed to suspend expired Kafka instances")]
            | none => [])
        else ([], [])

/-- The last loop of `Reconcile` over the instances. -/
def suspendAllInGracePeriod (k : KafkaManager) :
    List KafkaRequest → List ServiceCall × List ReconcileError
  | [] => ([], [])
  | kafka :: rest =>
    let step := suspendInGracePeriod k kafka
    let later := suspendAllInGracePeriod k rest
    (step.1 ++ later.1, step.2 ++ later.2)

/-- Go's `%s` for a slice of strings: the elements between brackets, separated by spaces. -/
def sliceString (l : List String) : String := "[" ++ " ".intercalate l ++ "]"

/-- Embeds `Reconcile`: the effects of the pass, in order, and the list of errors returned.
The usage snapshot is read by `updateClusterStatusCapacityMetrics`, whose embedding returns
the gauges only, so the call is recorded here; the instances are reached through pointers,
so the later steps see the billing model tags the backfill wrote. -/
def Reconcile (k : KafkaManager) : List Effect × List ReconcileError :=
  let kafkas := k.kafkaService.ListAll.1
  let listed : List ReconcileError :=
    match k.kafkaService.ListAll.2 with
    | some err => [.error err]
    | none => []
  let statusInfo :=
    kafkas.flatMap (fun kafka => (updateKafkaRequestsCurrentStatusInfo kafka).map .publish)
  let statusCount := setKafkaStatusCountMetric k
  let capacity := updateClusterStatusCapacityMetrics k
  let capacityError : List ReconcileError :=
    match capacity.2 with
    | some capacityError => [.error capacityError]
    | none => []
  let denied : List ServiceCall × List ReconcileError :=
    if k.accessControlListConfig.EnableDenyList then
      let deprovisioned := reconcileDeniedKafkaOwners k k.accessControlListConfig.DenyList
      (deprovisioned.1,
        match deprovisioned.2 with
        | some err =>
          [.error (wrap err ("failed to deprovision kafka for denied owners " ++
            sliceString k.accessControlListConfig.DenyList))]
        | none => [])
    else ([], [])
  let migration := tempMigrateEmptyBillingModels k kafkas
  let migrationErrors : List ReconcileError :=
    if migration.svcErrors ≠ [] then
      [.wrapErrorList migration.svcErrors
        "failed to reconcile billing models for kafka instances"]
    else []
  let expiresAt := reconcileKafkaExpiresAt k migration.kafkas
  let expiresAtErrors : List ReconcileError :=
    if expiresAt.2 ≠ [] then
      [.wrapErrorList expiresAt.2 "failed to update expires_at for kafka instances"]
    else []
  let suspended := suspendAllInGracePeriod k migration.kafkas
  let expiredKafkasError : List ReconcileError :=
    match k.kafkaService.DeprovisionExpiredKafkas with
    | some err => [.error (wrap err "failed to deprovision expired Kafka instances")]
    | none => []
  (.call .ListAll :: statusInfo ++ statusCount.1 ++
      .call .FindStreamingUnitCountByClusterAndInstanceType :: capacity.1.map .publish ++
      denied.1.map .call ++ migration.calls.map .call ++ expiresAt.1.map .call ++
      suspended.1.map .call ++ [.call .DeprovisionExpiredKafkas],
    listed ++ statusCount.2.map .error ++ capacityError ++ denied.2 ++ migrationErrors ++
      expiresAtErrors ++ suspended.2 ++ expiredKafkasError)

/-! ## The words of the specification -/

/-- The effective maximum as the specification words it: the minimum of a local ceiling and
the regional limit, the local ceiling alone when no regional limit is configured. -/
def specMaxAvailable (localCeiling : Int) : Option Int → Int
  | none => localCeiling
  | some limit => min localCeiling limit

/-- The mathematical sum of `Count` over the usage rows of a cluster. -/
def specTotalUsed (rows : List KafkaStreamingUnitCountPerCluster) (clusterId : String) : Int :=
  ((rows.filter (fun r => r.ClusterId = clusterId)).map (fun r => r.Count)).sum

/-- The mathematical sum of `Count` over the usage rows of a cluster and an instance type. -/
def specTypeUsed (rows : List KafkaStreamingUnitCountPerCluster)
    (clusterId instanceType : String) : Int :=
  ((rows.filter (fun r => r.ClusterId = clusterId ∧ r.InstanceType = instanceType)).map
    (fun r => r.Count)).sum

/-- Well-formedness of a usage row: `Count` counts instances and `MaxUnits` is a ceiling, so
both are non-negative, and both are `int32` values. -/
def KafkaStreamingUnitCountPerCluster.WellFormed (r : KafkaStreamingUnitCountPerCluster) :
    Prop :=
  0 ≤ r.Count ∧ r.Count ≤ maxInt32 ∧ 0 ≤ r.MaxUnits ∧ r.MaxUnits ≤ maxInt32

instance (r : KafkaStreamingUnitCountPerCluster) : Decidable r.WellFormed := by
  unfold KafkaStreamingUnitCountPerCluster.WellFormed; infer_instance

/-- The row the enterprise calculator derives from a usage row, with the mathematical
difference as available capacity. -/
def specEnterpriseRow (r : KafkaStreamingUnitCountPerCluster) :
    KafkaStreamingUnitCountPerCluster :=
  { Region := r.Region
    InstanceType := r.InstanceType
    ClusterId := r.ClusterId
    Count := r.MaxUnits - r.Count
    CloudProvider := r.CloudProvider
    MaxUnits := r.MaxUnits
    Status := ""
    ClusterType := "" }

/-- No `int32` overflow in the usage sums of a cluster: its counts are non-negative and add
up to at most the largest `int32`. -/
def NoOverflow (rows : List KafkaStreamingUnitCountPerCluster) (clusterId : String) : Prop :=
  (∀ r ∈ rows, r.ClusterId = clusterId → 0 ≤ r.Count) ∧ specTotalUsed rows clusterId ≤ maxInt32

instance (rows : List KafkaStreamingUnitCountPerCluster) (clusterId : String) :
    Decidable (NoOverflow rows clusterId) := by
  unfold NoOverflow; infer_instance

/-- The regional limit of the specification: the configured ceiling, if the lookup
succeeds and there is one. -/
def regionalLimit (k : KafkaManager) (region cloudProvider instanceType : String) : Option Int :=
  match k.cloudProviders.GetInstanceLimit region cloudProvider instanceType with
  | .ok limit => limit
  | .error _ => none

/-- The available capacity of an instance type on a manual cluster as the specification
words it: the minimum of what is left under the effective maximum of the type and of what
is left under the limit of the cluster, floored at zero. -/
def specAvailableByType (rows : List KafkaStreamingUnitCountPerCluster) (c : ManualCluster)
    (instanceType : String) (limit : Option Int) : Int :=
  max 0 (min (specMaxAvailable c.KafkaInstanceLimit limit -
      specTypeUsed rows c.ClusterId instanceType)
    (c.KafkaInstanceLimit - specTotalUsed rows c.ClusterId))

/-- The row of the manual calculator for a cluster and an instance type as the specification
words it. -/
def specManualRow (rows : List KafkaStreamingUnitCountPerCluster) (c : ManualCluster)
    (instanceType : String) (limit : Option Int) : KafkaStreamingUnitCountPerCluster :=
  { Region := c.Region
    InstanceType := instanceType
    ClusterId := c.ClusterId
    Count := specAvailableByType rows c instanceType limit
    CloudProvider := c.CloudProvider
    MaxUnits := specMaxAvailable c.KafkaInstanceLimit limit
    Status := ""
    ClusterType := "" }

/-- The supported instance types the manual calculator visits for a cluster: the non-empty
entries of the comma-separated list. -/
def supportedInstanceTypes (c : ManualCluster) : List String :=
  (stringsSplitComma c.SupportedInstanceType).filter (fun t => t ≠ "")

/-- The rows the manual calculator appends when every lookup succeeds: one for every
schedulable cluster and every supported instance type of it, in configuration order. -/
def manualRows (k : KafkaManager) (rows : List KafkaStreamingUnitCountPerCluster)
    (clusters : List ManualCluster) : List KafkaStreamingUnitCountPerCluster :=
  (clusters.filter (fun c => c.Schedulable)).flatMap (fun c =>
    (supportedInstanceTypes c).map (fun t =>
      manualClusterCapacity k rows c t
        (float64OfInt ((regionalLimit k c.Region c.CloudProvider t).getD maxInt64))))

/-- Every regional limit lookup the manual calculator makes for a fleet succeeds. -/
def LookupsSucceed (k : KafkaManager) (clusters : List ManualCluster) : Prop :=
  ∀ c ∈ clusters, c.Schedulable = true → ∀ t ∈ supportedInstanceTypes c,
    ∃ limit, k.cloudProviders.GetInstanceLimit c.Region c.CloudProvider t = .ok limit

/-- Recognises the used capacity gauges among the published gauges. -/
def Metric.isUsedCount : Metric → Bool
  | .ClusterStatusCapacityUsedCount _ _ _ _ _ => true
  | _ => false

/-- The used capacity gauge of a usage row, as the specification words it: the labels of the
row and its `Count`. -/
def specUsedGauge (r : KafkaStreamingUnitCountPerCluster) : Metric :=
  .ClusterStatusCapacityUsedCount r.CloudProvider r.Region r.InstanceType r.ClusterId r.Count

/-- A usage row the dynamic calculation leaves out because of its placeholder status: the
status is accepted and the cluster is not an enterprise cluster. -/
def isAcceptedPlaceholder (r : KafkaStreamingUnitCountPerCluster) : Bool :=
  decide (r.Status = ClusterAccepted) && !decide (r.ClusterType = EnterpriseDataPlaneClusterType)

/-! ## Concrete collaborators for the worked scenarios -/

/-- A manager compiled for amd64 with the given regional limit lookup, manual fleet, scaling
mode flags and usage snapshot; billing models have a grace period of seven days, updates
succeed, and `AddDate` adds whole days of 86400 seconds.  There are no instances, no size
has a fixed lifespan, every entitlement is active, the quota service has no subscription
lookup, the deny list is off, and no instance can be suspended. -/
def scenarioManager (limit : String → String → String → Except String (Option Int))
    (clusters : List ManualCluster) (auto manual : Bool)
    (usage : List KafkaStreamingUnitCountPerCluster) : KafkaManager :=
  { arch := amd64
    clock := { Now := 1700000000, AddDate := fun t _ _ d => t + 86400 * d }
    kafkaService :=
      { Updates := fun _ _ => none
        ListAll := ([], none)
        CountByStatus := fun _ => .ok []
        UpdateStatus := fun _ _ => (true, none)
        Update := fun _ => none
        DeprovisionExpiredKafkas := none
        DeprovisionKafkaForUsers := fun _ => none
        IsQuotaEntitlementActive := fun _ => .ok true }
    clusterService := { FindStreamingUnitCountByClusterAndInstanceType := .ok usage }
    kafkaConfig :=
      { GetBillingModelByID := fun _ _ => .ok { GracePeriodDays := 7 }
        GetKafkaInstanceSize := fun _ _ => .ok { LifespanSeconds := none }
        QuotaType := "ams" }
    dataplaneClusterConfig :=
      { IsDataPlaneAutoScalingEnabled := auto
        IsDataPlaneManualScalingEnabled := manual
        GetManualClusters := clusters }
    cloudProviders := { GetInstanceLimit := limit }
    quotaServiceFactory := { GetQuotaService := fun _ => .ok { AMSQuotaService := none } }
    accessControlListConfig := { EnableDenyList := false, DenyList := [] }
    declarations :=
      { CanBeAutomaticallySuspended := fun _ => false
        IsExpired := fun _ => (false, { LessThanOrEqual := fun _ => false })
        GetDeletingStatuses := ["deprovision", "deleting"] } }

/-- A usage row of a managed cluster in the ready state. -/
def scenarioRow (clusterId instanceType : String) (count maxUnits : Int) :
    KafkaStreamingUnitCountPerCluster :=
  { Region := "us-east-1"
    InstanceType := instanceType
    ClusterId := clusterId
    Count := count
    CloudProvider := "aws"
    MaxUnits := maxUnits
    Status := "ready"
    ClusterType := "managed" }

/-- A schedulable manual cluster with the given limit and supported instance types. -/
def scenarioCluster (clusterId : String) (limit : Int) (types : String) : ManualCluster :=
  { ClusterId := clusterId
    Region := "us-east-1"
    CloudProvider := "aws"
    Schedulable := true
    KafkaInstanceLimit := limit
    SupportedInstanceType := types
    Name := clusterId
    MultiAZ := true
    ClusterDNS := ""
    Status := "ready"
    ProviderType := "ocm" }

/-- The manual mode scenario of the specification: a cluster with limit `5` supporting the
type standard, whose regional limit is `3`. -/
def scenarioManualManager : KafkaManager :=
  scenarioManager (fun _ _ t => .ok (if t = "standard" then some 3 else none))
    [scenarioCluster "c1" 5 "standard"] false true []

/-- The usage of the manual mode scenario: two standard and one premium instance. -/
def scenarioManualUsage : List KafkaStreamingUnitCountPerCluster :=
  [scenarioRow "c1" "standard" 2 0, scenarioRow "c1" "premium" 1 0]

/-- A fleet of one cluster without regional limits. -/
def unboundedManager (limit : Int) (types : String) : KafkaManager :=
  scenarioManager (fun _ _ _ => .ok none) [scenarioCluster "c1" limit types] false true []

/-- Two usage rows whose counts add up to `2^31`, one more than the largest `int32`. -/
def overflowingUsage : List KafkaStreamingUnitCountPerCluster :=
  [scenarioRow "c1" "premium" 1073741824 0, scenarioRow "c1" "premium" 1073741824 0]

/-- A usage row of a managed cluster with the accepted placeholder status. -/
def acceptedRow (clusterId instanceType : String) (count maxUnits : Int) :
    KafkaStreamingUnitCountPerCluster :=
  { scenarioRow clusterId instanceType count maxUnits with Status := ClusterAccepted }

/-- A standard instance of organisation `org-1` on cluster `c1` that has no expiry date. -/
def scenarioKafka : KafkaRequest :=
  { ID := "kafka-1"
    ClusterID := "c1"
    OrganisationId := "org-1"
    SubscriptionId := "sub-1"
    InstanceType := "standard"
    SizeId := "x1"
    Status := "ready"
    ActualKafkaBillingModel := "standard"
    DesiredKafkaBillingModel := "standard"
    ExpiresAt := { Time := zeroTime, Valid := false } }

/-! ## The words of the specification: the lifecycle reconciler -/

/-- Recognises the status gauges of the instances among the effects of a pass. -/
def Effect.isCurrentStatusInfo : Effect → Bool
  | .publish (.KafkaRequestsCurrentStatusInfo _ _ _ _) => true
  | _ => false

/-- The value a publication carries. -/
def Metric.value : Metric → Int
  | .ClusterStatusCapacityUsedCount _ _ _ _ v => v
  | .ClusterStatusCapacityAvailableCount _ _ _ _ v => v
  | .ClusterStatusCapacityMaxCount _ _ _ _ v => v
  | .KafkaRequestsCurrentStatusInfo _ _ _ v => v
  | .KafkaRequestsStatusCount _ v => v

/-- The status gauges of an instance as the specification words them: one for every tracked
status, with value `1` for the status of the instance and `0` for every other one. -/
def specStatusGauges (kafka : KafkaRequest) : List Metric :=
  kafkaMetricsStatuses.map (fun s =>
    .KafkaRequestsCurrentStatusInfo s kafka.ID kafka.ClusterID (if kafka.Status = s then 1 else 0))

/-- Recognises the gauges of the capacity step among the publications. -/
def Metric.isCapacity : Metric → Bool
  | .ClusterStatusCapacityUsedCount _ _ _ _ _ => true
  | .ClusterStatusCapacityAvailableCount _ _ _ _ _ => true
  | .ClusterStatusCapacityMaxCount _ _ _ _ _ => true
  | _ => false

/-- The record a call hands to `Update`, if the call is one. -/
def ServiceCall.updated? : ServiceCall → Option KafkaRequest
  | .Update kafka => some kafka
  | _ => none

/-- The subscription a call looks up, if the call is a subscription lookup. -/
def ServiceCall.subscription? : ServiceCall → Option String
  | .GetSubscriptionByID id => some id
  | _ => none

/-- The backfill of an instance as the specification words it: an instance whose billing
model tag is empty and whose subscription is found is persisted with both tags set to the
billing model of the subscription; no other instance is persisted. -/
def specBackfilled (ams : AMSQuotaService) (kafka : KafkaRequest) : Option KafkaRequest :=
  if kafka.ActualKafkaBillingModel = "" then
    match ams.GetSubscriptionByID kafka.SubscriptionId with
    | .ok (some clusterBillingModel) =>
      some { kafka with
        ActualKafkaBillingModel := clusterBillingModel
        DesiredKafkaBillingModel := clusterBillingModel }
    | _ => none
  else none

/-! ## Concrete collaborators for the lifecycle scenarios -/

/-- A quota service with subscription lookup: subscription `sub-1` is found with billing
model `marketplace`, `sub-2` is not found, and the lookup of any other fails. -/
def scenarioAMS : AMSQuotaService :=
  { GetSubscriptionByID := fun id =>
      if id = "sub-1" then .ok (some "marketplace")
      else if id = "sub-2" then .ok none
      else .error "subscription lookup failed" }

/-- An instance like `scenarioKafka` with the given identifier, organisation, subscription,
billing model tags and expiry date. -/
def scenarioInstance (id organisationId subscriptionId billingModel : String)
    (expiresAt : NullTime) : KafkaRequest :=
  { scenarioKafka with
    ID := id
    OrganisationId := organisationId
    SubscriptionId := subscriptionId
    ActualKafkaBillingModel := billingModel
    DesiredKafkaBillingModel := billingModel
    ExpiresAt := expiresAt }

/-- No expiry date: the zero `sql.NullTime`. -/
def noExpiry : NullTime := { Time := zeroTime, Valid := false }

/-- A manager for the lifecycle scenarios, at time `1700000000`: `ListAll` answers with the
given instances; the entitlement of organisation `org-1` is active, that of `org-2` is not,
and the lookup fails for any other; every write succeeds; the quota service is
`scenarioAMS`; billing models have a grace period of seven days and no instance size has a
fixed lifespan; an instance can be suspended when it is ready, none is expired, and the
remaining lifespan of an instance with an expiry date is the time left until that date, in
days of 86400 seconds, that of an instance without one being unbounded. -/
def lifecycleManager (kafkas : List KafkaRequest) : KafkaManager :=
  { arch := amd64
    clock := { Now := 1700000000, AddDate := fun t _ _ d => t + 86400 * d }
    kafkaService :=
      { Updates := fun _ _ => none
        ListAll := (kafkas, none)
        CountByStatus := fun _ => .ok []
        UpdateStatus := fun _ _ => (true, none)
        Update := fun _ => none
        DeprovisionExpiredKafkas := none
        DeprovisionKafkaForUsers := fun _ => none
        IsQuotaEntitlementActive := fun kafka =>
          if kafka.OrganisationId = "org-1" then .ok true
          else if kafka.OrganisationId = "org-2" then .ok false
          else .error "entitlement lookup failed" }
    clusterService := { FindStreamingUnitCountByClusterAndInstanceType := .ok [] }
    kafkaConfig :=
      { GetBillingModelByID := fun _ _ => .ok { GracePeriodDays := 7 }
        GetKafkaInstanceSize := fun _ _ => .ok { LifespanSeconds := none }
        QuotaType := "ams" }
    dataplaneClusterConfig :=
      { IsDataPlaneAutoScalingEnabled := true
        IsDataPlaneManualScalingEnabled := false
        GetManualClusters := [] }
    cloudProviders := { GetInstanceLimit := fun _ _ _ => .ok none }
    quotaServiceFactory :=
      { GetQuotaService := fun _ => .ok { AMSQuotaService := some scenarioAMS } }
    accessControlListConfig := { EnableDenyList := false, DenyList := [] }
    declarations :=
      { CanBeAutomaticallySuspended := fun kafka => kafka.Status = "ready"
        IsExpired := fun kafka =>
          (false,
            { LessThanOrEqual := fun days =>
                kafka.ExpiresAt.Valid && decide (kafka.ExpiresAt.Time - 1700000000 ≤ 86400 * days) })
        GetDeletingStatuses := ["deprovision", "deleting"] } }

/-- Three instances: `kafka-1` of `org-1` with an empty billing model tag and subscription
`sub-1`, without expiry date; `kafka-2` of `org-2`, without expiry date; `kafka-3` of
`org-2`, expiring three days after `1700000000`. -/
def scenarioKafkas : List KafkaRequest :=
  [scenarioInstance "kafka-1" "org-1" "sub-1" "" noExpiry,
    scenarioInstance "kafka-2" "org-2" "sub-9" "standard" noExpiry,
    scenarioInstance "kafka-3" "org-2" "sub-9" "standard" { Time := 1700259200, Valid := true }]

/-- The instance and the status a call hands to `UpdateStatus`, if the call is one. -/
def ServiceCall.statusUpdate? : ServiceCall → Option (String × String)
  | .UpdateStatus id status => some (id, status)
  | _ => none

/-- The call an effect is, if it is one. -/
def Effect.call? : Effect → Option ServiceCall
  | .call serviceCall => some serviceCall
  | .publish _ => none

/-- The calls of a pass, in order. -/
def callsOf (effects : List Effect) : List ServiceCall := effects.filterMap Effect.call?

/-- The instances a pass works on once the backfill has run: those `ListAll` answered with,
carrying the billing model tags the backfill wrote. -/
def backfilledKafkas (k : KafkaManager) : List KafkaRequest :=
  (tempMigrateEmptyBillingModels k k.kafkaService.ListAll.1).kafkas

/-- The condition of the suspension step as the specification words it: the instance can be
suspended automatically, it is not expired, its billing model is found, and its remaining
lifespan is at most the grace period of that billing model. -/
def specEntersGracePeriod (k : KafkaManager) (kafka : KafkaRequest) : Bool :=
  k.declarations.CanBeAutomaticallySuspended kafka && !(k.declarations.IsExpired kafka).1 &&
    match k.kafkaConfig.GetBillingModelByID kafka.InstanceType kafka.ActualKafkaBillingModel with
    | .ok bm => (k.declarations.IsExpired kafka).2.LessThanOrEqual bm.GracePeriodDays
    | .error _ => false

/-- The relation between an instance as `ListAll` answered it and the instance as the
backfill leaves it: they are the same, or the billing model tag was empty and both tags
have been set to one billing model. -/
def Backfilled (fetched migrated : KafkaRequest) : Prop :=
  migrated = fetched ∨
    (fetched.ActualKafkaBillingModel = "" ∧
      ∃ billingModel, migrated =
        { fetched with
          ActualKafkaBillingModel := billingModel
          DesiredKafkaBillingModel := billingModel })

/-- A manager like `lifecycleManager` three of whose collaborator calls fail: `ListAll`
answers with the instances and an error, every status update is refused, and the
deprovisioning of the expired instances fails. -/
def failingManager (kafkas : List KafkaRequest) : KafkaManager :=
  { lifecycleManager kafkas with
    kafkaService :=
      { (lifecycleManager kafkas).kafkaService with
        ListAll := (kafkas, some "list failed")
        UpdateStatus := fun _ _ => (false, some "update refused")
        DeprovisionExpiredKafkas := some "deprovisioning failed" } }

/-- A manager under auto scaling whose regional limit lookup fails for the region
`eu-west-1` and finds no ceiling elsewhere, with the given usage snapshot. -/
def unknownRegionManager (usage : List KafkaStreamingUnitCountPerCluster) : KafkaManager :=
  scenarioManager
    (fun region _ _ => if region = "eu-west-1" then .error "unknown region" else .ok none)
    [] true false usage

/-- A usage snapshot of three rows: one of cluster `c1` in the region `eu-west-1`, one of
cluster `c2`, and one of the enterprise cluster `c3`. -/
def unknownRegionUsage : List KafkaStreamingUnitCountPerCluster :=
  [{ scenarioRow "c1" "standard" 1 10 with Region := "eu-west-1" },
    scenarioRow "c2" "standard" 2 10,
    { scenarioRow "c3" "standard" 1 5 with ClusterType := EnterpriseDataPlaneClusterType }]

/-- A manager like `lifecycleManager` for which the entitlement of the organisation
`13640203-marketplace` is active and that of any other organisation is not. -/
def collidingManager : KafkaManager :=
  { lifecycleManager [] with
    kafkaService :=
      { (lifecycleManager []).kafkaService with
        IsQuotaEntitlementActive := fun kafka =>
          .ok (kafka.OrganisationId = "13640203-marketplace") } }

/-- Recognises the partial updates among the calls. -/
def ServiceCall.isUpdates : ServiceCall → Bool
  | .Updates _ _ => true
  | _ => false

/-- The instance once a call has been applied to it: an `Updates` call for the instance,
which the identifier tells, sets the expiry date to the value of the key `expires_at`; any
other call leaves the instance as it is. -/
def applyCall (kafka : KafkaRequest) : ServiceCall → KafkaRequest
  | .Updates target fields =>
    if target.ID = kafka.ID then
      match fields.lookup "expires_at" with
      | some expiresAt => { kafka with ExpiresAt := expiresAt }
      | none => kafka
    else kafka
  | _ => kafka

/-- The instance once the updates of a list of calls have been applied to it, in order. -/
def applyUpdates (calls : List ServiceCall) (kafka : KafkaRequest) : KafkaRequest :=
  calls.foldl applyCall kafka

/-- The entitlement status the loop of `reconcileKafkaExpiresAt` resolves for an instance,
from the cache the earlier instances left: none for an instance in a deleting status, of
a size that is not found, with a fixed lifespan, or whose lookup fails; else the cached
status of its key, or without one the answer of the lookup. -/
def resolvedEntitlement (k : KafkaManager) (cache : List (String × Bool))
    (kafka : KafkaRequest) : Option Bool :=
  if kafka.Status ∈ k.declarations.GetDeletingStatuses then none
  else
    match k.kafkaConfig.GetKafkaInstanceSize kafka.InstanceType kafka.SizeId with
    | .error _ => none
    | .ok instanceSize =>
      if instanceSize.LifespanSeconds = none then
        match cache.lookup (kafka.OrganisationId ++ "-" ++ kafka.ActualKafkaBillingModel) with
        | some active => some active
        | none =>
          match k.kafkaService.IsQuotaEntitlementActive kafka with
          | .ok isActive => some isActive
          | .error _ => none
      else none

/-- Two instances for the idempotence scenario: `kafka-1` of `org-1`, whose entitlement is
active, with an expiry date, and `kafka-2` of `org-2`, whose entitlement is not, without. -/
def expiringKafkas : List KafkaRequest :=
  [scenarioInstance "kafka-1" "org-1" "sub-1" "standard" { Time := 1700259200, Valid := true },
    scenarioInstance "kafka-2" "org-2" "sub-9" "standard" noExpiry]

/-- The entitlement cache the loop of `reconcileKafkaExpiresAt` holds once it has gone
through a list of instances. -/
def cacheAfter (k : KafkaManager) : List (String × Bool) → List KafkaRequest → List (String × Bool)
  | cache, [] => cache
  | cache, kafka :: rest => cacheAfter k (reconcileKafkaExpiresAtStep k cache kafka).cache rest

/-- The entitlement cache after an instance as the specification words it, cached per
organisation and billing model pair for the duration of the pass: the status resolved for
the instance is added under its key unless the key is cached already; nothing is added when
no status is resolved.  The outcome of the update of the instance plays no part. -/
def specCacheAfter (k : KafkaManager) (cache : List (String × Bool)) (kafka : KafkaRequest) :
    List (String × Bool) :=
  match cache.lookup (kafka.OrganisationId ++ "-" ++ kafka.ActualKafkaBillingModel) with
  | some _ => cache
  | none =>
    match resolvedEntitlement k cache kafka with
    | some active => (kafka.OrganisationId ++ "-" ++ kafka.ActualKafkaBillingModel, active) :: cache
    | none => cache

/-- The identifier of the instance a call is made for, if it is made for one. -/
def ServiceCall.instance? : ServiceCall → Option String
  | .Updates kafka _ => some kafka.ID
  | .Update kafka => some kafka.ID
  | .IsQuotaEntitlementActive kafka => some kafka.ID
  | .UpdateStatus id _ => some id
  | _ => none

/-- The calls made for an instance, among the calls of a step. -/
def callsFor (id : String) (calls : List ServiceCall) : List ServiceCall :=
  calls.filter (fun c => c.instance? = some id)

/-- A manager like `lifecycleManager` in which the entitlement lookup of the instance
`kafka-a` has the given answer and that of any other instance says inactive, and in which
the partial update of `kafka-a` has the given answer and that of any other succeeds. -/
def interferenceManager (lookup : Except String Bool) (updates : Option String) : KafkaManager :=
  { lifecycleManager [] with
    kafkaService :=
      { (lifecycleManager []).kafkaService with
        IsQuotaEntitlementActive := fun kafka => if kafka.ID = "kafka-a" then lookup else .ok false
        Updates := fun kafka _ => if kafka.ID = "kafka-a" then updates else none } }

/-- Two instances of one organisation and one billing model: `kafka-a`, with an expiry
date, and `kafka-b`, without. -/
def interferingKafkas : List KafkaRequest :=
  [scenarioInstance "kafka-a" "org-3" "sub-9" "standard" { Time := 1700259200, Valid := true },
    scenarioInstance "kafka-b" "org-3" "sub-9" "standard" noExpiry]

/-! ## The words of the specification: the deny list -/

/-- The owners a call asks to deprovision the instances of, if the call is such a request. -/
def ServiceCall.deniedUsers? : ServiceCall → Option (List String)
  | .DeprovisionKafkaForUsers users => some users
  | _ => none

/-- A manager like `lifecycleManager` with the given deny list configuration, for which the
deprovisioning of the instances of denied owners fails. -/
def denyListManager (enableDenyList : Bool) (denyList : List String) : KafkaManager :=
  { lifecycleManager [] with
    kafkaService :=
      { (lifecycleManager []).kafkaService with
        DeprovisionKafkaForUsers := fun _ => some "deprovisioning refused" }
    accessControlListConfig := { EnableDenyList := enableDenyList, DenyList := denyList } }

/-- A fleet of three clusters under manual scaling without regional limits: `c1` supports
the types standard and developer, `c2` is not schedulable, and the list of `c3` has an empty
entry. -/
def threeClusterManager : KafkaManager :=
  scenarioManager (fun _ _ _ => .ok none)
    [scenarioCluster "c1" 5 "standard,developer",
      { scenarioCluster "c2" 5 "standard" with Schedulable := false },
      scenarioCluster "c3" 2 "standard,"]
    false true []

/-- Three usage rows of standard instances on the cluster `c1`, each count a non-negative
`int32`, whose sum `2^32 - 1` is `-1` as an `int32`. -/
def wrappingUsage : List KafkaStreamingUnitCountPerCluster :=
  [scenarioRow "c1" "standard" 1073741824 0, scenarioRow "c1" "standard" 1073741824 0,
    scenarioRow "c1" "standard" 2147483647 0]

/-- A fleet of one cluster `c1` with limit `5` supporting the type standard, whose regional
limit is `5`, under manual scaling. -/
def boundedManager : KafkaManager :=
  scenarioManager (fun _ _ _ => .ok (some 5)) [scenarioCluster "c1" 5 "standard"] false true []

/-- The relation between a usage row and the same row with its count raised: every field
but `Count` is the same, and `Count` is at least what it was. -/
def Raised (r raised : KafkaStreamingUnitCountPerCluster) : Prop :=
  raised = { r with Count := raised.Count } ∧ r.Count ≤ raised.Count

/-- The relation between a row of the calculator and the row computed from raised usage,
as the specification words it: the same key and effective maximum, and an available
capacity that has not grown. -/
def NotGrown (row later : KafkaStreamingUnitCountPerCluster) : Prop :=
  later.Count ≤ row.Count ∧ later.MaxUnits = row.MaxUnits ∧ later.Region = row.Region ∧
    later.CloudProvider = row.CloudProvider ∧ later.ClusterId = row.ClusterId ∧
    later.InstanceType = row.InstanceType

/-! ## Cluster fleet model -/

/-- Modelled from the spec: the fleet model `config.ClusterConfig`, of which the sources at
hand hold the tests only: the configured descriptors, in the order of the configuration. -/
structure ClusterConfig where
  clusterList : List ManualCluster
deriving DecidableEq, Repr

/-- Modelled from the spec: `NewClusterConfig`, which builds the fleet model from a list of
descriptors. -/
def NewClusterConfig (clusters : List ManualCluster) : ClusterConfig :=
  { clusterList := clusters }

/-- Modelled from the spec: the lookup `FindByID(id)`, the descriptor and whether it was
found. -/
def ClusterConfig.FindByID (conf : ClusterConfig) (clusterId : String) : Option ManualCluster :=
  conf.clusterList.find? (fun c => c.ClusterId = clusterId)

/-- Modelled from the spec: `IsNumberOfKafkaWithinClusterLimit`, true if the identifier is
absent from the fleet or the count is at most the instance limit of the descriptor. -/
def ClusterConfig.IsNumberOfKafkaWithinClusterLimit (conf : ClusterConfig) (clusterId : String)
    (count : Int) : Bool :=
  match conf.FindByID clusterId with
  | some c => decide (count ≤ c.KafkaInstanceLimit)
  | none => true

/-- Modelled from the spec: `IsClusterSchedulable`, true if the identifier is absent from
the fleet or the descriptor is schedulable. -/
def ClusterConfig.IsClusterSchedulable (conf : ClusterConfig) (clusterId : String) : Bool :=
  match conf.FindByID clusterId with
  | some c => c.Schedulable
  | none => true

/-- Modelled from the spec: a persisted cluster record `api.Cluster`, of which the tests
set the identifier. -/
structure api.Cluster where
  ClusterID : String
deriving DecidableEq, Repr

/-- Modelled from the spec: `MissingClusters`, the descriptors configured but not present
among the persisted clusters, a Go map kept as the list of its entries. -/
def ClusterConfig.MissingClusters (conf : ClusterConfig)
    (clusterMap : List (String × api.Cluster)) : List ManualCluster :=
  conf.clusterList.filter (fun c => c.ClusterId ∉ clusterMap.map Prod.fst)

/-- Modelled from the spec: `ExcessClusters`, the persisted identifiers absent from the
configured list, in the order the map is gone through. -/
def ClusterConfig.ExcessClusters (conf : ClusterConfig)
    (clusterMap : List (String × api.Cluster)) : List String :=
  (clusterMap.map Prod.fst).filter
    (fun clusterId => clusterId ∉ conf.clusterList.map (fun c => c.ClusterId))

/-- The descriptor of the test tables of the fleet model: a cluster with the given
identifier, instance limit and schedulable flag, every other field being zero. -/
def testCluster (clusterId : String) (limit : Int) (schedulable : Bool) : ManualCluster :=
  { ClusterId := clusterId
    Region := ""
    CloudProvider := ""
    Schedulable := schedulable
    KafkaInstanceLimit := limit
    SupportedInstanceType := ""
    Name := ""
    MultiAZ := false
    ClusterDNS := ""
    Status := ""
    ProviderType := "" }

/-- The descriptor of the test table of `MissingClusters`: the cluster `test02` in the region
`us-east` of `aws`, over several availability zones. -/
def testMissingCluster : ManualCluster :=
  { testCluster "test02" 0 false with Region := "us-east", MultiAZ := true, CloudProvider := "aws" }

/-! ## Loading a cluster descriptor -/

/-- Modelled from the spec: a descriptor as the configuration file spells it, each key
being present or left out. -/
structure ManualClusterYAML where
  name : Option String
  cluster_id : Option String
  cloud_provider : Option String
  cluster_dns : Option String
  region : Option String
  multi_az : Option Bool
  schedulable : Option Bool
  kafka_instance_limit : Option Int
  status : Option String
  provider_type : Option String
  supported_instance_type : Option String
deriving DecidableEq, Repr

/-- Modelled from the spec: the closed enumerations of package `api` the loader relies on,
declared outside the sources at hand and taken as parameters: the recognised status
strings and provider kinds, the provisioning status, the primary managed provider kind,
the standalone provider kind, and the value that stands for all instance types. -/
structure ClusterEnumerations where
  statuses : List String
  providerTypes : List String
  ClusterProvisioning : String
  ClusterProviderOCM : String
  ClusterProviderStandalone : String
  AllInstanceTypeSupport : String
deriving DecidableEq, Repr

/-- The zero value of `ManualCluster`, which a receiver holds before anything is loaded. -/
def zeroManualCluster : ManualCluster :=
  { ClusterId := ""
    Region := ""
    CloudProvider := ""
    Schedulable := false
    KafkaInstanceLimit := 0
    SupportedInstanceType := ""
    Name := ""
    MultiAZ := false
    ClusterDNS := ""
    Status := ""
    ProviderType := "" }

/-- Modelled from the spec: the descriptor a load fills in, with the defaults of the
specification for the keys left out: the provisioning status, the primary managed provider
kind, and all instance types, the last also for an empty value. -/
def loadedManualCluster (enums : ClusterEnumerations) (input : ManualClusterYAML) :
    ManualCluster :=
  { ClusterId := input.cluster_id.getD ""
    Region := input.region.getD ""
    CloudProvider := input.cloud_provider.getD ""
    Schedulable := input.schedulable.getD false
    KafkaInstanceLimit := input.kafka_instance_limit.getD 0
    SupportedInstanceType :=
      if input.supported_instance_type.getD "" = "" then enums.AllInstanceTypeSupport
      else input.supported_instance_type.getD ""
    Name := input.name.getD ""
    MultiAZ := input.multi_az.getD false
    ClusterDNS := input.cluster_dns.getD ""
    Status := input.status.getD enums.ClusterProvisioning
    ProviderType := input.provider_type.getD enums.ClusterProviderOCM }

/-- Modelled from the spec: whether a string of the input stands for a member of a closed
enumeration; a key left out does not fail the load. -/
def recognised (values : List String) : Option String → Bool
  | none => true
  | some v => decide (v ∈ values)

/-- Modelled from the spec: `ManualCluster.UnmarshalYAML`, of which the sources at hand hold
the test table only: the value the receiver holds afterwards and the error returned, if
any.  A status or provider kind that is not recognised fails the load and leaves the
receiver untouched, as the test table has it; a descriptor without identifier, or of the
standalone kind without DNS name, fails the load with the descriptor filled in.  The test
table expects an error for one more descriptor, of the standalone kind with identifier and
DNS name: it differs from the descriptors that load in leaving out the name, by which a
standalone cluster is found in the kubeconfig, and so a descriptor of the standalone kind
without name fails the load as well. -/
def UnmarshalYAML (enums : ClusterEnumerations) (input : ManualClusterYAML) :
    ManualCluster × Option String :=
  if recognised enums.statuses input.status = false then
    (zeroManualCluster, some "invalid cluster status")
  else if recognised enums.providerTypes input.provider_type = false then
    (zeroManualCluster, some "invalid cluster provider type")
  else
    let c := loadedManualCluster enums input
    if c.ClusterId = "" then (c, some "cluster_id is empty")
    else if c.ProviderType = enums.ClusterProviderStandalone ∧ c.ClusterDNS = "" then
      (c, some "standalone cluster without cluster_dns")
    else if c.ProviderType = enums.ClusterProviderStandalone ∧ c.Name = "" then
      (c, some "standalone cluster without name")
    else (c, none)

/-- The enumerations of the test table: the statuses and provider kinds as strings. -/
def testEnumerations : ClusterEnumerations :=
  { statuses :=
      ["cluster_accepted", "cluster_provisioning", "cluster_provisioned", "ready", "failed",
        "full", "deprovisioning", "cleanup"]
    providerTypes := ["ocm", "aws_eks", "standalone"]
    ClusterProvisioning := "cluster_provisioning"
    ClusterProviderOCM := "ocm"
    ClusterProviderStandalone := "standalone"
    AllInstanceTypeSupport := "standard,developer" }

/-- The first input of the test table of `UnmarshalYAML`: name, identifier, cloud provider,
region, availability zones, schedulable flag and instance limit, nothing else. -/
def testYAML : ManualClusterYAML :=
  { name := some "test"
    cluster_id := some "test"
    cloud_provider := some "aws"
    cluster_dns := none
    region := some "east-1"
    multi_az := some true
    schedulable := some true
    kafka_instance_limit := some 1
    status := none
    provider_type := none
    supported_instance_type := none }

/-- The sixth input of the test table of `UnmarshalYAML`: a descriptor of the standalone
kind with identifier, DNS name, status and supported instance type, without name. -/
def testStandaloneYAML : ManualClusterYAML :=
  { name := none
    cluster_id := some "test"
    cloud_provider := some "aws"
    cluster_dns := some "test"
    region := some "east-1"
    multi_az := some true
    schedulable := some true
    kafka_instance_limit := some 1
    status := some "ready"
    provider_type := some "standalone"
    supported_instance_type := some "developer" }

/-- The first output of the test table of `UnmarshalYAML`: the descriptor of `testYAML` with
the defaults set. -/
def testOutput : ManualCluster :=
  { ClusterId := "test"
    Region := "east-1"
    CloudProvider := "aws"
    Schedulable := true
    KafkaInstanceLimit := 1
    SupportedInstanceType := "standard,developer"
    Name := "test"
    MultiAZ := true
    ClusterDNS := ""
    Status := "cluster_provisioning"
    ProviderType := "ocm" }

/-! ## Cluster service client: scaling the compute nodes

A shallow embedding of `ScaleUpComputeNodes`, `ScaleDownComputeNodes` and
`scaleComputeNodes` of `pkg/ocm/client.go`.  The connection of the SDK is a collaborator
outside the repository: it answers a request from the state of the cluster service and
leaves that state changed or not.  The requests sent are returned as a list, in order,
next to the result and the state the service is left in. -/

/-- Smallest `int` of the 64 bit targets. -/
def minInt64 : Int := -9223372036854775808

/-- Membership in the range of Go's `int` on the 64 bit targets. -/
def IsInt64 (x : Int) : Prop := minInt64 ≤ x ∧ x ≤ maxInt64

instance (x : Int) : Decidable (IsInt64 x) := by
  unfold IsInt64; infer_instance

/-- Result of an `int` operation whose mathematical value is `x`: Go wraps around. -/
def wrapInt64 (x : Int) : Int :=
  (x + 9223372036854775808) % 18446744073709551616 - 9223372036854775808

/-- The part of `clustersmgmtv1.Cluster` the client reads and writes: `Nodes().Compute()`,
the number of compute nodes. -/
structure clustersmgmtv1.Cluster where
  Compute : Int
deriving DecidableEq, Repr

/-- A request the client sends for a cluster: `Get().Send()` or
`Update().Body(patch).Send()` on `Clusters().Cluster(clusterID)`. -/
inductive ClusterRequest where
  | Get (clusterID : String)
  | Update (clusterID : String) (patch : clustersmgmtv1.Cluster)
deriving DecidableEq, Repr

/-- The connection `sdkClient.Connection`, as far as `scaleComputeNodes` uses it, over a
cluster service in a state of `σ`: the answers to the two requests, each with the state
the service is left in, and the error, if any, with which the builder of the SDK refuses
to build a cluster object of a given number of compute nodes. -/
structure Connection (σ : Type) where
  Get : String → σ → Except String clustersmgmtv1.Cluster × σ
  Update : String → clustersmgmtv1.Cluster → σ → Except String clustersmgmtv1.Cluster × σ
  buildError : Int → Option String

/-- The expression
`clustersmgmtv1.NewCluster().Nodes(clustersmgmtv1.NewClusterNodes().Compute(n)).Build()`:
the cluster object with the number of compute nodes set, or the builder's error. -/
def Connection.Build {σ : Type} (c : Connection σ) (n : Int) :
    Except String clustersmgmtv1.Cluster :=
  match c.buildError n with
  | some err => .error err
  | none => .ok { Compute := n }

/-- The method `scaleComputeNodes`: reads the cluster, builds a cluster object whose number
of compute nodes is the current number plus `numNodes`, an addition of `int`, and sends it
as an update.  Returns the requests sent, the result and the state of the service. -/
def scaleComputeNodes {σ : Type} (c : Connection σ) (clusterID : String) (numNodes : Int)
    (s : σ) : List ClusterRequest × Except String clustersmgmtv1.Cluster × σ :=
  match c.Get clusterID s with
  | (.error err, s1) => ([.Get clusterID], .error err, s1)
  | (.ok cluster, s1) =>
    let currentNumOfNodes := cluster.Compute
    match c.Build (wrapInt64 (currentNumOfNodes + numNodes)) with
    | .error err => ([.Get clusterID], .error err, s1)
    | .ok patch =>
      match c.Update clusterID patch s1 with
      | (.error err, s2) => ([.Get clusterID, .Update clusterID patch], .error err, s2)
      | (.ok resp, s2) => ([.Get clusterID, .Update clusterID patch], .ok resp, s2)

/-- The method `ScaleUpComputeNodes`; `ClusterNodeScaleIncrement` is the constant of
`pkg/constants`. -/
def ScaleUpComputeNodes {σ : Type} (c : Connection σ) (ClusterNodeScaleIncrement : Int)
    (clusterID : String) (s : σ) :
    List ClusterRequest × Except String clustersmgmtv1.Cluster × σ :=
  scaleComputeNodes c clusterID ClusterNodeScaleIncrement s

/-- The method `ScaleDownComputeNodes`; `ClusterNodeScaleIncrement` is the constant of
`pkg/constants`. -/
def ScaleDownComputeNodes {σ : Type} (c : Connection σ) (ClusterNodeScaleIncrement : Int)
    (clusterID : String) (s : σ) :
    List ClusterRequest × Except String clustersmgmtv1.Cluster × σ :=
  scaleComputeNodes c clusterID (-ClusterNodeScaleIncrement) s

/-- A cluster service applies each patch to the cluster `clusterID`: the builder builds
every cluster object, reading the cluster succeeds and leaves the service as it is, and an
update succeeds and leaves the service in a state in which the cluster reads as the
patch. -/
def AppliesPatches {σ : Type} (c : Connection σ) (clusterID : String) : Prop :=
  (∀ n, c.buildError n = none) ∧
    (∀ s, ∃ cluster, c.Get clusterID s = (.ok cluster, s)) ∧
    (∀ patch s, ∃ resp s2,
      c.Update clusterID patch s = (.ok resp, s2) ∧ c.Get clusterID s2 = (.ok patch, s2))

/-- A cluster service with one cluster, in the state of its number of compute nodes, that
applies each patch. -/
def patchingConnection : Connection Int :=
  { Get := fun _ s => (.ok { Compute := s }, s)
    Update := fun _ patch _ => (.ok patch, patch.Compute)
    buildError := fun _ => none }

/-- A cluster service that cannot be read. -/
def unreadableConnection : Connection Unit :=
  { Get := fun _ s => (.error "cluster not found", s)
    Update := fun _ patch s => (.ok patch, s)
    buildError := fun _ => none }

/-! ## Machine numbers: basic facts -/

theorem wrapInt32_of_isInt32 (x : Int) (h : IsInt32 x) : wrapInt32 x = x := by
  unfold IsInt32 minInt32 maxInt32 at h
  unfold wrapInt32
  omega

theorem isInt32_wrapInt32 (x : Int) : IsInt32 (wrapInt32 x) := by
  unfold IsInt32 minInt32 maxInt32 wrapInt32
  omega

theorem f64Shift_of_lt (fuel n : Nat) (h : n < 9007199254740992) : f64Shift fuel n = 0 := by
  cases fuel <;> simp [f64Shift, h]

theorem f64Shift_pos (fuel n : Nat) (h : 9007199254740992 ≤ n) :
    1 ≤ f64Shift (fuel + 1) n := by
  have h' : ¬ n < 9007199254740992 := by omega
  simp [f64Shift, h']

theorem le_div_two_pow_f64Shift (fuel : Nat) :
    ∀ n : Nat, 4503599627370496 ≤ n → 4503599627370496 ≤ n / 2 ^ f64Shift fuel n := by
  induction fuel with
  | zero => intro n h; simpa [f64Shift] using h
  | succ fuel ih =>
    intro n h
    by_cases hn : n < 9007199254740992
    · simpa [f64Shift, hn] using h
    · have h2 : 4503599627370496 ≤ n / 2 := by omega
      have := ih (n / 2) h2
      simp only [f64Shift, hn, if_false]
      rw [pow_succ, Nat.mul_comm, ← Nat.div_div_eq_div_mul]
      exact this

theorem roundNatF64_of_lt (n : Nat) (h : n < 9007199254740992) : roundNatF64 n = n := by
  unfold roundNatF64
  rw [f64Shift_of_lt _ _ h]
  simp [Nat.mod_one]

theorem roundNatF64_of_le (n : Nat) (h : n ≤ 9007199254740992) : roundNatF64 n = n := by
  rcases Nat.lt_or_ge n 9007199254740992 with h' | h'
  · exact roundNatF64_of_lt n h'
  · have : n = 9007199254740992 := by omega
    subst this
    decide

theorem le_roundNatF64 (n : Nat) (h : 9007199254740992 ≤ n) :
    9007199254740992 ≤ roundNatF64 n := by
  have he : 1 ≤ f64Shift 1024 n := f64Shift_pos 1023 n h
  have hq : 4503599627370496 ≤ n / 2 ^ f64Shift 1024 n :=
    le_div_two_pow_f64Shift 1024 n (by omega)
  have h2 : 2 ≤ 2 ^ f64Shift 1024 n := by
    calc 2 = 2 ^ 1 := by norm_num
      _ ≤ 2 ^ f64Shift 1024 n := Nat.pow_le_pow_right (by norm_num) he
  have hm : 9007199254740992 ≤ n / 2 ^ f64Shift 1024 n * 2 ^ f64Shift 1024 n := by
    calc 9007199254740992 = 4503599627370496 * 2 := by norm_num
      _ ≤ n / 2 ^ f64Shift 1024 n * 2 ^ f64Shift 1024 n := Nat.mul_le_mul hq h2
  have hm' : n / 2 ^ f64Shift 1024 n * 2 ^ f64Shift 1024 n ≤
      (n / 2 ^ f64Shift 1024 n + 1) * 2 ^ f64Shift 1024 n :=
    Nat.mul_le_mul_right _ (Nat.le_succ _)
  unfold roundNatF64
  simp only
  split_ifs <;> omega

theorem float64OfInt_of_abs_le (x : Int) (h1 : -9007199254740992 ≤ x)
    (h2 : x ≤ 9007199254740992) : float64OfInt x = x := by
  unfold float64OfInt
  split_ifs with h
  · rw [roundNatF64_of_le _ (by omega)]; omega
  · rw [roundNatF64_of_le _ (by omega)]; omega

theorem le_float64OfInt (x : Int) (h : 9007199254740992 ≤ x) :
    9007199254740992 ≤ float64OfInt x := by
  unfold float64OfInt
  have h0 : 0 ≤ x := by omega
  rw [if_pos h0]
  have := le_roundNatF64 x.toNat (by omega)
  omega

theorem float64OfInt_le (x : Int) (h : x ≤ -9007199254740992) :
    float64OfInt x ≤ -9007199254740992 := by
  unfold float64OfInt
  have h0 : ¬ 0 ≤ x := by omega
  rw [if_neg h0]
  have := le_roundNatF64 (-x).toNat (by omega)
  omega

/-- Rounding to `float64` keeps an integer on the same side of an exactly representable one. -/
theorem le_float64OfInt_of_le (a x : Int) (ha1 : -9007199254740992 ≤ a)
    (ha2 : a ≤ 9007199254740992) (h : a ≤ x) : a ≤ float64OfInt x := by
  by_cases hx : x ≤ 9007199254740992
  · rw [float64OfInt_of_abs_le x (by omega) hx]; exact h
  · have := le_float64OfInt x (by omega); omega

theorem float64OfInt_le_of_le (a x : Int) (ha1 : -9007199254740992 ≤ a)
    (ha2 : a ≤ 9007199254740992) (h : x ≤ a) : float64OfInt x ≤ a := by
  by_cases hx : -9007199254740992 ≤ x
  · rw [float64OfInt_of_abs_le x hx (by omega)]; exact h
  · have := float64OfInt_le x (by omega); omega

theorem int32OfFloat64_of_isInt32 (arch : Arch) (f : Int) (h : IsInt32 f) :
    int32OfFloat64 arch f = f := by
  unfold int32OfFloat64
  rw [if_pos (show minInt32 ≤ f ∧ f ≤ maxInt32 from h)]

theorem isInt32_int32OfFloat64 (arch : Arch) (f : Int) : IsInt32 (int32OfFloat64 arch f) := by
  unfold int32OfFloat64
  split_ifs with h
  · exact h
  · exact isInt32_wrapInt32 _

theorem min_float64OfInt (a b : Int) (h : IsInt32 (min a b)) :
    min (float64OfInt a) (float64OfInt b) = min a b := by
  unfold IsInt32 minInt32 maxInt32 at h
  rcases le_total a b with hab | hab
  · rw [min_eq_left hab] at h ⊢
    have ha : float64OfInt a = a := float64OfInt_of_abs_le a (by omega) (by omega)
    have hb : a ≤ float64OfInt b := le_float64OfInt_of_le a b (by omega) (by omega) hab
    rw [ha]; exact min_eq_left hb
  · rw [min_eq_right hab] at h ⊢
    have hb : float64OfInt b = b := float64OfInt_of_abs_le b (by omega) (by omega)
    have ha : b ≤ float64OfInt a := le_float64OfInt_of_le b a (by omega) (by omega) hab
    rw [hb]; exact min_eq_right ha

theorem float64OfInt_maxInt64 : float64OfInt maxInt64 = 9223372036854775808 := by decide

/-- The `float64` minimum of a local ceiling and the value `getRegionInstanceTypeLimit` reads
is the effective maximum of the specification whenever that maximum is an `int32`. -/
theorem min_float64OfInt_limit (localCeiling : Int) (limit : Option Int)
    (h : IsInt32 (specMaxAvailable localCeiling limit)) :
    min (float64OfInt localCeiling)
      (float64OfInt (limit.getD maxInt64)) =
      specMaxAvailable localCeiling limit := by
  cases limit with
  | none =>
    simp only [specMaxAvailable, Option.getD_none] at h ⊢
    have hm : min localCeiling maxInt64 = localCeiling := by
      unfold IsInt32 minInt32 maxInt32 at h
      unfold maxInt64
      omega
    rw [← hm] at h
    rw [min_float64OfInt _ _ h, hm]
  | some l =>
    simp only [specMaxAvailable, Option.getD_some] at h ⊢
    exact min_float64OfInt _ _ h

/-! ## The dynamic calculator -/

/-- The row of the dynamic calculator once the regional limit has been read, under the
weakest conditions on the ranges: the effective maximum and the floored difference fit in
an `int32`. -/
theorem dynamicScaling_of_fits (k : KafkaManager) (r : KafkaStreamingUnitCountPerCluster)
    (limit : Option Int)
    (hlookup : k.cloudProviders.GetInstanceLimit r.Region r.CloudProvider r.InstanceType =
      .ok limit)
    (hcount : IsInt32 r.Count)
    (hmax : IsInt32 (specMaxAvailable r.MaxUnits limit))
    (havail : specMaxAvailable r.MaxUnits limit - r.Count ≤ maxInt32) :
    calculateAvailableAndMaxCapacityForDynamicScaling k r =
      .ok { Region := r.Region
            InstanceType := r.InstanceType
            ClusterId := r.ClusterId
            Count := max 0 (specMaxAvailable r.MaxUnits limit - r.Count)
            CloudProvider := r.CloudProvider
            MaxUnits := specMaxAvailable r.MaxUnits limit
            Status := ""
            ClusterType := "" } := by
  have hm := min_float64OfInt_limit r.MaxUnits limit hmax
  have hc : float64OfInt r.Count = r.Count := by
    unfold IsInt32 minInt32 maxInt32 at hcount
    exact float64OfInt_of_abs_le _ (by omega) (by omega)
  have hsub : float64Sub (specMaxAvailable r.MaxUnits limit) r.Count =
      specMaxAvailable r.MaxUnits limit - r.Count := by
    unfold IsInt32 minInt32 maxInt32 at hcount hmax
    unfold float64Sub
    exact float64OfInt_of_abs_le _ (by omega) (by omega)
  have hav : IsInt32 (max 0 (specMaxAvailable r.MaxUnits limit - r.Count)) := by
    unfold IsInt32 minInt32 maxInt32 at *
    omega
  unfold calculateAvailableAndMaxCapacityForDynamicScaling getRegionInstanceTypeLimit
  rw [hlookup]
  simp only [hm, hc, hsub, int32OfFloat64_of_isInt32 _ _ hav, int32OfFloat64_of_isInt32 _ _ hmax]

/-- C1, amended: for every well-formed usage row (a non-negative `int32` count and ceiling)
and every regional-limit lookup result (none, or a ceiling of at least `-2^31`),
`calculateAvailableAndMaxCapacityForDynamicScaling` returns the row whose `MaxUnits` is the
minimum of the row's `MaxUnits` and the regional limit and whose `Count` is that minimum
minus the row's `Count`, floored at zero, with `Region`, `InstanceType`, `ClusterId` and
`CloudProvider` copied. -/
theorem dynamicScaling_maxUnits_count (k : KafkaManager) (r : KafkaStreamingUnitCountPerCluster)
    (limit : Option Int)
    (hlookup : k.cloudProviders.GetInstanceLimit r.Region r.CloudProvider r.InstanceType =
      .ok limit)
    (hrow : r.WellFormed)
    (hlimit : ∀ l, limit = some l → minInt32 ≤ l) :
    calculateAvailableAndMaxCapacityForDynamicScaling k r =
      .ok { Region := r.Region
            InstanceType := r.InstanceType
            ClusterId := r.ClusterId
            Count := max 0 (specMaxAvailable r.MaxUnits limit - r.Count)
            CloudProvider := r.CloudProvider
            MaxUnits := specMaxAvailable r.MaxUnits limit
            Status := ""
            ClusterType := "" } := by
  obtain ⟨hc0, hc1, hm0, hm1⟩ := hrow
  have hle : specMaxAvailable r.MaxUnits limit ≤ r.MaxUnits := by
    cases limit with
    | none => exact le_refl _
    | some l => exact min_le_left _ _
  have hge : minInt32 ≤ specMaxAvailable r.MaxUnits limit := by
    cases limit with
    | none => unfold minInt32; simp only [specMaxAvailable]; omega
    | some l =>
      have := hlimit l rfl
      unfold minInt32 at this ⊢
      simp only [specMaxAvailable]
      omega
  apply dynamicScaling_of_fits k r limit hlookup
  · unfold IsInt32 minInt32 maxInt32 at *; omega
  · unfold IsInt32 minInt32 maxInt32 at *; omega
  · unfold minInt32 maxInt32 at *; omega

/-- The scenario of C1, amended: `MaxUnits = 10`, `Count = 12`, regional limit `20` give
`MaxUnits = 10` and `Count = 0`. -/
theorem dynamicScaling_maxUnits_count_scenario :
    (scenarioManager (fun _ _ _ => .ok (some 20)) [] true false []).cloudProviders.GetInstanceLimit
        (scenarioRow "c1" "standard" 12 10).Region (scenarioRow "c1" "standard" 12 10).CloudProvider
        (scenarioRow "c1" "standard" 12 10).InstanceType = .ok (some 20) ∧
      (scenarioRow "c1" "standard" 12 10).WellFormed ∧
      (∀ l : Int, some (20 : Int) = some l → minInt32 ≤ l) ∧
      calculateAvailableAndMaxCapacityForDynamicScaling
          (scenarioManager (fun _ _ _ => .ok (some 20)) [] true false [])
          (scenarioRow "c1" "standard" 12 10) =
        .ok { Region := "us-east-1"
              InstanceType := "standard"
              ClusterId := "c1"
              Count := 0
              CloudProvider := "aws"
              MaxUnits := 10
              Status := ""
              ClusterType := "" } :=
  have h3 : ∀ l : Int, some (20 : Int) = some l → minInt32 ≤ l := by
    intro l hl
    cases hl
    decide
  ⟨rfl, by decide, h3,
    dynamicScaling_maxUnits_count
      (scenarioManager (fun _ _ _ => .ok (some 20)) [] true false [])
      (scenarioRow "c1" "standard" 12 10) (some 20) rfl (by decide) h3⟩

/-- C1 fails as stated: for a usage row with `Count = -1` and `MaxUnits = 2^31 - 1`,
without regional limit, the minimum minus the count is `2^31`, which no target returns as
`Count`, the field being an `int32`; on amd64 the row has `Count = -2^31`.  For a usage row
with `Count = 0` and `MaxUnits = 10` and the regional limit `-2^31 - 1` the minimum is that
limit, and on amd64 the row has `MaxUnits = -2^31`. -/
theorem dynamicScaling_maxUnits_count_out_of_range :
    (¬ ∃ arch : Arch, ∃ row,
        calculateAvailableAndMaxCapacityForDynamicScaling
            { scenarioManager (fun _ _ _ => .ok none) [] true false [] with arch := arch }
            (scenarioRow "c1" "standard" (-1) 2147483647) = .ok row ∧
          row.Count = 2147483648) ∧
      calculateAvailableAndMaxCapacityForDynamicScaling
          (scenarioManager (fun _ _ _ => .ok none) [] true false [])
          (scenarioRow "c1" "standard" (-1) 2147483647) =
        .ok { Region := "us-east-1"
              InstanceType := "standard"
              ClusterId := "c1"
              Count := -2147483648
              CloudProvider := "aws"
              MaxUnits := 2147483647
              Status := ""
              ClusterType := "" } ∧
      calculateAvailableAndMaxCapacityForDynamicScaling
          (scenarioManager (fun _ _ _ => .ok (some (-2147483649))) [] true false [])
          (scenarioRow "c1" "standard" 0 10) =
        .ok { Region := "us-east-1"
              InstanceType := "standard"
              ClusterId := "c1"
              Count := 0
              CloudProvider := "aws"
              MaxUnits := -2147483648
              Status := ""
              ClusterType := "" } := by
  refine ⟨?_, by decide, by decide⟩
  rintro ⟨arch, row, hrow, hcount⟩
  have hfit : IsInt32 row.Count := by
    unfold calculateAvailableAndMaxCapacityForDynamicScaling at hrow
    split at hrow
    · cases hrow
    · cases hrow
      exact isInt32_int32OfFloat64 _ _
  rw [hcount] at hfit
  exact absurd hfit (by decide)

/-! ## The enterprise calculator -/

theorem enterprise_eq_filter_map (rows : List KafkaStreamingUnitCountPerCluster)
    (h : ∀ r ∈ rows, r.ClusterType = EnterpriseDataPlaneClusterType →
      IsInt32 (r.MaxUnits - r.Count)) :
    calculateAvailableAndMadCapacityForEnterpriseClusters rows =
      (rows.filter (fun r => r.ClusterType = EnterpriseDataPlaneClusterType)).map
        specEnterpriseRow := by
  induction rows with
  | nil => rfl
  | cons r rest ih =>
    have ih' := ih (fun x hx => h x (List.mem_cons_of_mem _ hx))
    unfold calculateAvailableAndMadCapacityForEnterpriseClusters
    by_cases hr : r.ClusterType = EnterpriseDataPlaneClusterType
    · have hw := wrapInt32_of_isInt32 _ (h r (List.mem_cons_self _ _) hr)
      simp only [hr, if_true, List.filter_cons, decide_True, List.map_cons, ih', hw,
        specEnterpriseRow]
    · simp only [hr, if_false, List.filter_cons, decide_False, ih']
      rfl

/-- C3, amended: for every list of usage rows in which `MaxUnits - Count` of every enterprise
row is an `int32`, as it is when both are non-negative,
`calculateAvailableAndMadCapacityForEnterpriseClusters` returns one row per input row whose
`ClusterType` is enterprise, in input order, and none for the other rows; each returned row
has `Count = MaxUnits - Count` of the input row, not floored at zero and without a regional
ceiling, so it is negative when the usage exceeds `MaxUnits`, and `MaxUnits`, `Region`,
`InstanceType`, `ClusterId` and `CloudProvider` unchanged. -/
theorem enterprise_capacity (rows : List KafkaStreamingUnitCountPerCluster)
    (h : ∀ r ∈ rows, r.ClusterType = EnterpriseDataPlaneClusterType →
      IsInt32 (r.MaxUnits - r.Count)) :
    calculateAvailableAndMadCapacityForEnterpriseClusters rows =
        (rows.filter (fun r => r.ClusterType = EnterpriseDataPlaneClusterType)).map
          specEnterpriseRow ∧
      ∀ r ∈ rows, r.ClusterType = EnterpriseDataPlaneClusterType → r.MaxUnits < r.Count →
        specEnterpriseRow r ∈ calculateAvailableAndMadCapacityForEnterpriseClusters rows ∧
          (specEnterpriseRow r).Count < 0 := by
  have heq := enterprise_eq_filter_map rows h
  refine ⟨heq, ?_⟩
  intro r hr hent hlt
  constructor
  · rw [heq]
    exact List.mem_map_of_mem _ (List.mem_filter.mpr ⟨hr, by simpa using hent⟩)
  · show r.MaxUnits - r.Count < 0
    omega

/-- The scenario of C3, amended: an over-subscribed enterprise row among other rows, two
units allowed, three used. -/
theorem enterprise_capacity_scenario :
    (∀ r ∈ [scenarioRow "c1" "standard" 1 5,
        { scenarioRow "e1" "standard" 3 2 with ClusterType := EnterpriseDataPlaneClusterType }],
      r.ClusterType = EnterpriseDataPlaneClusterType → IsInt32 (r.MaxUnits - r.Count)) ∧
    calculateAvailableAndMadCapacityForEnterpriseClusters
      [scenarioRow "c1" "standard" 1 5,
        { scenarioRow "e1" "standard" 3 2 with ClusterType := EnterpriseDataPlaneClusterType }] =
      [{ Region := "us-east-1"
         InstanceType := "standard"
         ClusterId := "e1"
         Count := -1
         CloudProvider := "aws"
         MaxUnits := 2
         Status := ""
         ClusterType := "" }] :=
  ⟨by decide,
    (enterprise_capacity
      [scenarioRow "c1" "standard" 1 5,
        { scenarioRow "e1" "standard" 3 2 with ClusterType := EnterpriseDataPlaneClusterType }]
      (by decide)).1.trans (by decide)⟩

/-- C3 fails as stated: for an enterprise row with `MaxUnits = -2^31` and `Count = 1` the
`int32` subtraction wraps around and the row returned has `Count = 2^31 - 1`, not
`MaxUnits - Count`. -/
theorem enterprise_capacity_wraps_around :
    calculateAvailableAndMadCapacityForEnterpriseClusters
        [{ scenarioRow "e1" "standard" 1 (-2147483648) with
            ClusterType := EnterpriseDataPlaneClusterType }] =
      [{ Region := "us-east-1"
         InstanceType := "standard"
         ClusterId := "e1"
         Count := 2147483647
         CloudProvider := "aws"
         MaxUnits := -2147483648
         Status := ""
         ClusterType := "" }] ∧
      (2147483647 : Int) ≠ -2147483648 - 1 := by
  decide

/-! ## The manual calculator: usage sums -/

theorem specTotalUsed_cons (r : KafkaStreamingUnitCountPerCluster)
    (rest : List KafkaStreamingUnitCountPerCluster) (c : String) :
    specTotalUsed (r :: rest) c =
      (if r.ClusterId = c then r.Count else 0) + specTotalUsed rest c := by
  unfold specTotalUsed
  by_cases h : r.ClusterId = c <;> simp [List.filter_cons, h]

theorem specTypeUsed_cons (r : KafkaStreamingUnitCountPerCluster)
    (rest : List KafkaStreamingUnitCountPerCluster) (c t : String) :
    specTypeUsed (r :: rest) c t =
      (if r.ClusterId = c ∧ r.InstanceType = t then r.Count else 0) + specTypeUsed rest c t := by
  unfold specTypeUsed
  by_cases h : r.ClusterId = c ∧ r.InstanceType = t <;> simp [List.filter_cons, h]

theorem specTotalUsed_nonneg (rows : List KafkaStreamingUnitCountPerCluster) (c : String)
    (h : ∀ r ∈ rows, r.ClusterId = c → 0 ≤ r.Count) : 0 ≤ specTotalUsed rows c := by
  induction rows with
  | nil => simp [specTotalUsed]
  | cons r rest ih =>
    have ih' := ih (fun x hx => h x (List.mem_cons_of_mem _ hx))
    rw [specTotalUsed_cons]
    by_cases hr : r.ClusterId = c
    · have := h r (List.mem_cons_self _ _) hr
      simp only [hr, if_true]; omega
    · simp only [hr, if_false]; omega

theorem specTypeUsed_nonneg (rows : List KafkaStreamingUnitCountPerCluster) (c t : String)
    (h : ∀ r ∈ rows, r.ClusterId = c → 0 ≤ r.Count) : 0 ≤ specTypeUsed rows c t := by
  induction rows with
  | nil => simp [specTypeUsed]
  | cons r rest ih =>
    have ih' := ih (fun x hx => h x (List.mem_cons_of_mem _ hx))
    rw [specTypeUsed_cons]
    by_cases hr : r.ClusterId = c ∧ r.InstanceType = t
    · have := h r (List.mem_cons_self _ _) hr.1
      simp only [hr, and_self, if_true]; omega
    · simp only [hr, if_false]; omega

theorem specTypeUsed_le_specTotalUsed (rows : List KafkaStreamingUnitCountPerCluster)
    (c t : String) (h : ∀ r ∈ rows, r.ClusterId = c → 0 ≤ r.Count) :
    specTypeUsed rows c t ≤ specTotalUsed rows c := by
  induction rows with
  | nil => simp [specTypeUsed, specTotalUsed]
  | cons r rest ih =>
    have ih' := ih (fun x hx => h x (List.mem_cons_of_mem _ hx))
    rw [specTypeUsed_cons, specTotalUsed_cons]
    by_cases hr : r.ClusterId = c
    · have := h r (List.mem_cons_self _ _) hr
      by_cases ht : r.InstanceType = t
      · simp only [hr, ht, and_self, if_true]; omega
      · simp only [hr, ht, and_false, if_true, if_false]; omega
    · simp only [hr, false_and, if_false]; omega

theorem foldl_used (c t : String) :
    ∀ (rows : List KafkaStreamingUnitCountPerCluster) (a b : Int), 0 ≤ b → b ≤ a →
      (∀ r ∈ rows, r.ClusterId = c → 0 ≤ r.Count) → a + specTotalUsed rows c ≤ maxInt32 →
      rows.foldl
        (fun used kafkaInRegion =>
          if kafkaInRegion.ClusterId = c then
            if kafkaInRegion.InstanceType = t then
              (wrapInt32 (used.1 + kafkaInRegion.Count), wrapInt32 (used.2 + kafkaInRegion.Count))
            else (wrapInt32 (used.1 + kafkaInRegion.Count), used.2)
          else used)
        (a, b) = (a + specTotalUsed rows c, b + specTypeUsed rows c t) := by
  intro rows
  induction rows with
  | nil => intro a b _ _ _ _; simp [specTotalUsed, specTypeUsed]
  | cons r rest ih =>
    intro a b hb hab hnn htot
    have hnn' : ∀ x ∈ rest, x.ClusterId = c → 0 ≤ x.Count :=
      fun x hx => hnn x (List.mem_cons_of_mem _ hx)
    have hrest := specTotalUsed_nonneg rest c hnn'
    rw [specTotalUsed_cons] at htot
    rw [List.foldl_cons, specTotalUsed_cons, specTypeUsed_cons]
    by_cases hr : r.ClusterId = c
    · have hr0 := hnn r (List.mem_cons_self _ _) hr
      simp only [hr, if_true] at htot
      have hwa : wrapInt32 (a + r.Count) = a + r.Count :=
        wrapInt32_of_isInt32 _ (by unfold IsInt32 minInt32; unfold maxInt32 at *; omega)
      have hwb : wrapInt32 (b + r.Count) = b + r.Count :=
        wrapInt32_of_isInt32 _ (by unfold IsInt32 minInt32; unfold maxInt32 at *; omega)
      by_cases ht : r.InstanceType = t
      · simp only [hr, ht, and_self, if_true, hwa, hwb]
        rw [ih (a + r.Count) (b + r.Count) (by omega) (by omega) hnn' (by omega)]
        simp only [Prod.mk.injEq]; omega
      · simp only [hr, ht, and_false, if_true, if_false, hwa]
        rw [ih (a + r.Count) b hb (by omega) hnn' (by omega)]
        simp only [Prod.mk.injEq]; omega
    · simp only [hr, false_and, if_false] at htot ⊢
      rw [ih a b hb hab hnn' (by omega)]
      simp only [Prod.mk.injEq]; omega

/-- Without overflow the helper of the manual calculator returns the mathematical sums. -/
theorem findUsedCapacityForCluster_of_noOverflow
    (rows : List KafkaStreamingUnitCountPerCluster) (c t : String) (h : NoOverflow rows c) :
    findUsedCapacityForCluster rows c t = (specTotalUsed rows c, specTypeUsed rows c t) := by
  unfold findUsedCapacityForCluster
  rw [foldl_used c t rows 0 0 (le_refl _) (le_refl _) h.1 (by have := h.2; omega)]
  simp

/-! ## The manual calculator: one row -/

theorem min_float64Sub_limit (a l t : Int) (ha1 : -8589934592 ≤ a) (ha2 : a ≤ 8589934592)
    (hl : -2147483648 ≤ l) (ht1 : 0 ≤ t) (ht2 : t ≤ 2147483647) :
    min a (float64Sub (float64OfInt l) t) = min a (l - t) := by
  unfold float64Sub
  by_cases hL : l ≤ 9007199254740992
  · rw [float64OfInt_of_abs_le l (by omega) hL,
      float64OfInt_of_abs_le (l - t) (by omega) (by omega)]
  · have h1 := le_float64OfInt l (by omega)
    have h2 : a ≤ float64OfInt (float64OfInt l - t) :=
      le_float64OfInt_of_le a _ (by omega) (by omega) (by omega)
    rw [min_eq_left h2, min_eq_left (by omega)]

/-- The row of the manual calculator is the row of the specification when the effective
maximum is an `int32` and the usage sums do not overflow. -/
theorem manualClusterCapacity_eq_spec (k : KafkaManager)
    (rows : List KafkaStreamingUnitCountPerCluster) (c : ManualCluster) (t : String)
    (limit : Option Int)
    (hmax : IsInt32 (specMaxAvailable c.KafkaInstanceLimit limit))
    (hsum : NoOverflow rows c.ClusterId) :
    manualClusterCapacity k rows c t (float64OfInt (limit.getD maxInt64)) =
      specManualRow rows c t limit := by
  have hm := min_float64OfInt_limit c.KafkaInstanceLimit limit hmax
  have hused := findUsedCapacityForCluster_of_noOverflow rows c.ClusterId t hsum
  have hU0 := specTypeUsed_nonneg rows c.ClusterId t hsum.1
  have hUT := specTypeUsed_le_specTotalUsed rows c.ClusterId t hsum.1
  have hT := hsum.2
  have hle : specMaxAvailable c.KafkaInstanceLimit limit ≤ c.KafkaInstanceLimit := by
    cases limit with
    | none => exact le_refl _
    | some l => exact min_le_left _ _
  unfold IsInt32 minInt32 maxInt32 at hmax
  unfold maxInt32 at hT
  have hfU : float64OfInt (specTypeUsed rows c.ClusterId t) = specTypeUsed rows c.ClusterId t :=
    float64OfInt_of_abs_le _ (by omega) (by omega)
  have hfT : float64OfInt (specTotalUsed rows c.ClusterId) = specTotalUsed rows c.ClusterId :=
    float64OfInt_of_abs_le _ (by omega) (by omega)
  have ha1 : float64Sub (specMaxAvailable c.KafkaInstanceLimit limit)
      (specTypeUsed rows c.ClusterId t) =
      specMaxAvailable c.KafkaInstanceLimit limit - specTypeUsed rows c.ClusterId t := by
    unfold float64Sub
    exact float64OfInt_of_abs_le _ (by omega) (by omega)
  have hmin := min_float64Sub_limit
    (specMaxAvailable c.KafkaInstanceLimit limit - specTypeUsed rows c.ClusterId t)
    c.KafkaInstanceLimit (specTotalUsed rows c.ClusterId)
    (by omega) (by omega) (by omega) (by omega) (by omega)
  have hfloor : ∀ x : Int, (if x < 0 then 0 else x) = max 0 x := by
    intro x; split_ifs <;> omega
  have hav : IsInt32 (specAvailableByType rows c t limit) := by
    unfold specAvailableByType IsInt32 minInt32 maxInt32
    omega
  unfold manualClusterCapacity specManualRow
  simp only [hm, hused, hfU, hfT, ha1, hmin, hfloor]
  rw [int32OfFloat64_of_isInt32 _ _ (show IsInt32 (specMaxAvailable c.KafkaInstanceLimit limit)
    from ⟨by unfold minInt32; omega, by unfold maxInt32; omega⟩)]
  have hav' := int32OfFloat64_of_isInt32 k.arch _ hav
  unfold specAvailableByType at hav'
  rw [hav']
  rfl

/-! ## The manual calculator: the loops -/

theorem getRegionInstanceTypeLimit_of_ok (k : KafkaManager) (region cloudProvider t : String)
    (limit : Option Int)
    (h : k.cloudProviders.GetInstanceLimit region cloudProvider t = .ok limit) :
    getRegionInstanceTypeLimit k region cloudProvider t =
        .ok (float64OfInt (limit.getD maxInt64)) ∧
      regionalLimit k region cloudProvider t = limit := by
  unfold getRegionInstanceTypeLimit regionalLimit
  rw [h]
  exact ⟨rfl, rfl⟩

theorem manualCapacityForInstanceTypes_eq (k : KafkaManager)
    (rows : List KafkaStreamingUnitCountPerCluster) (c : ManualCluster) :
    ∀ ts : List String,
      (∀ t ∈ ts.filter (fun t => t ≠ ""),
        ∃ limit, k.cloudProviders.GetInstanceLimit c.Region c.CloudProvider t = .ok limit) →
      manualCapacityForInstanceTypes k rows c ts =
        .ok ((ts.filter (fun t => t ≠ "")).map (fun t =>
          manualClusterCapacity k rows c t
            (float64OfInt ((regionalLimit k c.Region c.CloudProvider t).getD maxInt64)))) := by
  intro ts
  induction ts with
  | nil => intro _; rfl
  | cons t rest ih =>
    intro h
    unfold manualCapacityForInstanceTypes
    by_cases ht : t = ""
    · have h' : ∀ x ∈ rest.filter (fun t => t ≠ ""),
          ∃ limit, k.cloudProviders.GetInstanceLimit c.Region c.CloudProvider x = .ok limit := by
        intro x hx
        have hx' := List.mem_filter.mp hx
        exact h x (List.mem_filter.mpr ⟨List.mem_cons_of_mem _ hx'.1, hx'.2⟩)
      simp only [ht, if_true]
      rw [ih h']
      simp [List.filter_cons]
    · have h' : ∀ x ∈ rest.filter (fun t => t ≠ ""),
          ∃ limit, k.cloudProviders.GetInstanceLimit c.Region c.CloudProvider x = .ok limit := by
        intro x hx
        have hx' := List.mem_filter.mp hx
        exact h x (List.mem_filter.mpr ⟨List.mem_cons_of_mem _ hx'.1, hx'.2⟩)
      obtain ⟨limit, hl⟩ := h t (by simp [List.filter_cons, ht])
      obtain ⟨h1, h2⟩ := getRegionInstanceTypeLimit_of_ok k c.Region c.CloudProvider t limit hl
      simp only [ht, if_false, h1]
      rw [ih h']
      simp [List.filter_cons, ht, h2]

theorem manualCapacityForClusters_eq (k : KafkaManager)
    (rows : List KafkaStreamingUnitCountPerCluster) :
    ∀ clusters : List ManualCluster, LookupsSucceed k clusters →
      manualCapacityForClusters k rows clusters = .ok (manualRows k rows clusters) := by
  intro clusters
  induction clusters with
  | nil => intro _; rfl
  | cons c rest ih =>
    intro h
    have h' : LookupsSucceed k rest := fun x hx => h x (List.mem_cons_of_mem _ hx)
    unfold manualCapacityForClusters
    rw [ih h']
    cases hs : c.Schedulable with
    | false => simp [manualRows, List.filter_cons, hs]
    | true =>
      have hc := manualCapacityForInstanceTypes_eq k rows c
        (stringsSplitComma c.SupportedInstanceType) (h c (List.mem_cons_self _ _) hs)
      simp only [Bool.not_true, Bool.false_eq_true, if_false, hc]
      simp [manualRows, List.filter_cons, hs, supportedInstanceTypes]

/-- When every lookup succeeds the manual calculator returns the rows of `manualRows`. -/
theorem calculateCapacity_eq_manualRows (k : KafkaManager)
    (rows : List KafkaStreamingUnitCountPerCluster)
    (h : LookupsSucceed k k.dataplaneClusterConfig.GetManualClusters) :
    calculateCapacityByRegionAndInstanceTypeForManualClusters k rows =
      .ok (manualRows k rows k.dataplaneClusterConfig.GetManualClusters) :=
  manualCapacityForClusters_eq k rows _ h

theorem mem_manualRows (k : KafkaManager) (rows : List KafkaStreamingUnitCountPerCluster)
    (clusters : List ManualCluster) (row : KafkaStreamingUnitCountPerCluster) :
    row ∈ manualRows k rows clusters ↔
      ∃ c ∈ clusters, c.Schedulable = true ∧ ∃ t ∈ supportedInstanceTypes c,
        row = manualClusterCapacity k rows c t
          (float64OfInt ((regionalLimit k c.Region c.CloudProvider t).getD maxInt64)) := by
  unfold manualRows
  simp only [List.mem_flatMap, List.mem_filter, List.mem_map]
  constructor
  · rintro ⟨c, ⟨hc, hs⟩, t, ht, rfl⟩
    exact ⟨c, hc, hs, t, ht, rfl⟩
  · rintro ⟨c, hc, hs, t, ht, rfl⟩
    exact ⟨c, ⟨hc, hs⟩, t, ht, rfl⟩

/-! ## The manual calculator: bounds on one row -/

theorem min_float64OfInt_limit_le (localCeiling : Int) (limit : Option Int)
    (h : specMaxAvailable localCeiling limit ≤ maxInt32) :
    min (float64OfInt localCeiling) (float64OfInt (limit.getD maxInt64)) ≤ maxInt32 := by
  unfold maxInt32 at *
  cases limit with
  | none =>
    simp only [specMaxAvailable] at h
    exact le_trans (min_le_left _ _)
      (float64OfInt_le_of_le 2147483647 localCeiling (by omega) (by omega) h)
  | some l =>
    simp only [specMaxAvailable, Option.getD_some] at h ⊢
    rcases min_le_iff.mp h with h1 | h1
    · exact le_trans (min_le_left _ _)
        (float64OfInt_le_of_le 2147483647 localCeiling (by omega) (by omega) h1)
    · exact le_trans (min_le_right _ _)
        (float64OfInt_le_of_le 2147483647 l (by omega) (by omega) h1)

theorem float64Sub_limit_le (l t : Int) (ht1 : 0 ≤ t) (ht2 : t ≤ 2147483647)
    (h : 0 ≤ float64Sub (float64OfInt l) t) : float64Sub (float64OfInt l) t ≤ l - t ∨
      2147483647 ≤ l - t := by
  unfold float64Sub at *
  by_cases h1 : l ≤ 9007199254740992
  · by_cases h2 : -9007199254740992 ≤ l
    · rw [float64OfInt_of_abs_le l h2 h1] at h ⊢
      by_cases h3 : -9007199254740992 ≤ l - t
      · left
        rw [float64OfInt_of_abs_le (l - t) h3 (by omega)]
      · have := float64OfInt_le (l - t) (by omega)
        omega
    · have h3 := float64OfInt_le l (by omega)
      have := float64OfInt_le (float64OfInt l - t) (by omega)
      omega
  · right
    omega

/-- The value the manual calculator converts to `Count` lies between zero and what is left
under the limit of the cluster, and fits in an `int32`, when the effective maximum does. -/
theorem floored_available_bounds (m u l t : Int) (hm : m ≤ 2147483647) (hu : 0 ≤ u)
    (ht1 : 0 ≤ t) (ht2 : t ≤ 2147483647) :
    0 ≤ (if min (float64Sub m u) (float64Sub (float64OfInt l) t) < 0 then 0
        else min (float64Sub m u) (float64Sub (float64OfInt l) t)) ∧
      (if min (float64Sub m u) (float64Sub (float64OfInt l) t) < 0 then 0
        else min (float64Sub m u) (float64Sub (float64OfInt l) t)) ≤ 2147483647 ∧
      (if min (float64Sub m u) (float64Sub (float64OfInt l) t) < 0 then 0
        else min (float64Sub m u) (float64Sub (float64OfInt l) t)) ≤ max 0 (l - t) := by
  have h1 : float64Sub m u ≤ 2147483647 := by
    unfold float64Sub
    exact float64OfInt_le_of_le 2147483647 (m - u) (by omega) (by omega) (by omega)
  split_ifs with hx
  · refine ⟨le_refl _, by omega, le_max_left _ _⟩
  · have hx' : 0 ≤ min (float64Sub m u) (float64Sub (float64OfInt l) t) := by omega
    have h2 : 0 ≤ float64Sub (float64OfInt l) t := le_trans hx' (min_le_right _ _)
    have h3 := min_le_left (float64Sub m u) (float64Sub (float64OfInt l) t)
    have h4 := min_le_right (float64Sub m u) (float64Sub (float64OfInt l) t)
    refine ⟨hx', by omega, ?_⟩
    rcases float64Sub_limit_le l t ht1 ht2 h2 with h5 | h5
    · exact le_trans (le_trans h4 h5) (le_max_right _ _)
    · exact le_trans (by omega) (le_max_right 0 (l - t))

theorem manualClusterCapacity_count_bounds (k : KafkaManager)
    (rows : List KafkaStreamingUnitCountPerCluster) (c : ManualCluster) (t : String)
    (limit : Option Int)
    (hfit : specMaxAvailable c.KafkaInstanceLimit limit ≤ maxInt32)
    (hsum : NoOverflow rows c.ClusterId) :
    0 ≤ (manualClusterCapacity k rows c t (float64OfInt (limit.getD maxInt64))).Count ∧
      (manualClusterCapacity k rows c t (float64OfInt (limit.getD maxInt64))).Count ≤
        max 0 (c.KafkaInstanceLimit - specTotalUsed rows c.ClusterId) := by
  have hm := min_float64OfInt_limit_le c.KafkaInstanceLimit limit hfit
  have hused := findUsedCapacityForCluster_of_noOverflow rows c.ClusterId t hsum
  have hU0 := specTypeUsed_nonneg rows c.ClusterId t hsum.1
  have hUT := specTypeUsed_le_specTotalUsed rows c.ClusterId t hsum.1
  have hT := hsum.2
  unfold maxInt32 at hT hm
  have hfU : float64OfInt (specTypeUsed rows c.ClusterId t) = specTypeUsed rows c.ClusterId t :=
    float64OfInt_of_abs_le _ (by omega) (by omega)
  have hfT : float64OfInt (specTotalUsed rows c.ClusterId) = specTotalUsed rows c.ClusterId :=
    float64OfInt_of_abs_le _ (by omega) (by omega)
  obtain ⟨b1, b2, b3⟩ := floored_available_bounds
    (min (float64OfInt c.KafkaInstanceLimit) (float64OfInt (limit.getD maxInt64)))
    (specTypeUsed rows c.ClusterId t) c.KafkaInstanceLimit (specTotalUsed rows c.ClusterId)
    hm hU0 (by omega) hT
  unfold manualClusterCapacity
  simp only [hused, hfU, hfT]
  rw [int32OfFloat64_of_isInt32 _ _ ⟨by unfold minInt32; omega, by unfold maxInt32; omega⟩]
  exact ⟨b1, b3⟩

theorem manualClusterCapacity_count_zero (k : KafkaManager)
    (rows : List KafkaStreamingUnitCountPerCluster) (c : ManualCluster) (t : String)
    (limit : Int) (hsum : NoOverflow rows c.ClusterId)
    (hfull : c.KafkaInstanceLimit ≤ specTotalUsed rows c.ClusterId) :
    (manualClusterCapacity k rows c t limit).Count = 0 := by
  have hused := findUsedCapacityForCluster_of_noOverflow rows c.ClusterId t hsum
  have hT0 := specTotalUsed_nonneg rows c.ClusterId hsum.1
  have hT := hsum.2
  unfold maxInt32 at hT
  have hfT : float64OfInt (specTotalUsed rows c.ClusterId) = specTotalUsed rows c.ClusterId :=
    float64OfInt_of_abs_le _ (by omega) (by omega)
  have h1 : float64OfInt c.KafkaInstanceLimit ≤ specTotalUsed rows c.ClusterId :=
    float64OfInt_le_of_le _ _ (by omega) (by omega) hfull
  have h2 : float64Sub (float64OfInt c.KafkaInstanceLimit) (specTotalUsed rows c.ClusterId) ≤ 0 := by
    unfold float64Sub
    exact float64OfInt_le_of_le 0 _ (by omega) (by omega) (by omega)
  have h3 : ∀ a : Int, (if min a (float64Sub (float64OfInt c.KafkaInstanceLimit)
      (specTotalUsed rows c.ClusterId)) < 0 then 0
      else min a (float64Sub (float64OfInt c.KafkaInstanceLimit)
        (specTotalUsed rows c.ClusterId))) = 0 := by
    intro a
    have := min_le_right a (float64Sub (float64OfInt c.KafkaInstanceLimit)
      (specTotalUsed rows c.ClusterId))
    split_ifs <;> omega
  unfold manualClusterCapacity
  simp only [hused, hfT, h3]
  exact int32OfFloat64_of_isInt32 _ _ (by decide)

theorem manualClusterCapacity_maxUnits_of_none (k : KafkaManager)
    (rows : List KafkaStreamingUnitCountPerCluster) (c : ManualCluster) (t : String)
    (h : IsInt32 c.KafkaInstanceLimit) :
    (manualClusterCapacity k rows c t (float64OfInt maxInt64)).MaxUnits =
      c.KafkaInstanceLimit := by
  have hm := min_float64OfInt_limit c.KafkaInstanceLimit none h
  simp only [Option.getD_none, specMaxAvailable] at hm
  unfold manualClusterCapacity
  simp only [hm]
  exact int32OfFloat64_of_isInt32 _ _ h

theorem lookupsSucceed_of_ok (k : KafkaManager) (clusters : List ManualCluster)
    (f : String → String → String → Option Int)
    (h : k.cloudProviders.GetInstanceLimit = fun r p t => .ok (f r p t)) :
    LookupsSucceed k clusters := by
  intro c _ _ t _
  exact ⟨f c.Region c.CloudProvider t, by rw [h]⟩

/-! ## The manual calculator: rows, bounds and the unbounded regional limit -/

/-- C2, amended: when every lookup succeeds the manual calculator returns one row for every
schedulable cluster `c` and supported instance type `t`, and that row has
`MaxUnits = min(c.KafkaInstanceLimit, regionalLimit)` and
`Count = max(0, min(MaxUnits - typeUsed, c.KafkaInstanceLimit - totalUsed))` with the
mathematical sums `totalUsed` and `typeUsed`, provided that minimum is an `int32` and the
usage counts of the cluster are non-negative and add up to at most `2^31 - 1`. -/
theorem manual_capacity_row (k : KafkaManager) (rows : List KafkaStreamingUnitCountPerCluster)
    (hall : LookupsSucceed k k.dataplaneClusterConfig.GetManualClusters) :
    calculateCapacityByRegionAndInstanceTypeForManualClusters k rows =
        .ok (manualRows k rows k.dataplaneClusterConfig.GetManualClusters) ∧
      ∀ c ∈ k.dataplaneClusterConfig.GetManualClusters, c.Schedulable = true →
        ∀ t ∈ supportedInstanceTypes c,
          IsInt32 (specMaxAvailable c.KafkaInstanceLimit
            (regionalLimit k c.Region c.CloudProvider t)) →
          NoOverflow rows c.ClusterId →
          manualClusterCapacity k rows c t
              (float64OfInt ((regionalLimit k c.Region c.CloudProvider t).getD maxInt64)) =
            specManualRow rows c t (regionalLimit k c.Region c.CloudProvider t) :=
  ⟨calculateCapacity_eq_manualRows k rows hall,
    fun c _ _ t _ hmax hsum => manualClusterCapacity_eq_spec k rows c t _ hmax hsum⟩

/-- The manual mode scenario of C2: limit `5`, regional limit `3` for standard, usage of two
standard and one premium instance give `MaxUnits = 3` and `Count = 1` for standard. -/
theorem manual_capacity_row_scenario :
    LookupsSucceed scenarioManualManager
        scenarioManualManager.dataplaneClusterConfig.GetManualClusters ∧
      IsInt32 (specMaxAvailable (scenarioCluster "c1" 5 "standard").KafkaInstanceLimit
        (regionalLimit scenarioManualManager "us-east-1" "aws" "standard")) ∧
      NoOverflow scenarioManualUsage "c1" ∧
      calculateCapacityByRegionAndInstanceTypeForManualClusters scenarioManualManager
          scenarioManualUsage =
        .ok [{ Region := "us-east-1"
               InstanceType := "standard"
               ClusterId := "c1"
               Count := 1
               CloudProvider := "aws"
               MaxUnits := 3
               Status := ""
               ClusterType := "" }] ∧
      manualClusterCapacity scenarioManualManager scenarioManualUsage
          (scenarioCluster "c1" 5 "standard") "standard" (float64OfInt 3) =
        specManualRow scenarioManualUsage (scenarioCluster "c1" 5 "standard") "standard"
          (some 3) :=
  have hall : LookupsSucceed scenarioManualManager
      scenarioManualManager.dataplaneClusterConfig.GetManualClusters :=
    lookupsSucceed_of_ok _ _ (fun _ _ t => if t = "standard" then some 3 else none) rfl
  ⟨hall, by decide, by decide,
    (manual_capacity_row scenarioManualManager scenarioManualUsage hall).1.trans (by decide),
    (manual_capacity_row scenarioManualManager scenarioManualUsage hall).2
      (scenarioCluster "c1" 5 "standard") (by decide) rfl "standard" (by decide) (by decide)
      (by decide)⟩

/-- C2 fails as stated: with two usage rows of `2^30` premium instances each on a cluster of
limit `5`, the `int32` sum of the calculator wraps around to `-2^31`, so the row for standard
has `Count = 5` where the formula of the claim gives `0`. -/
theorem manual_capacity_row_overflow :
    calculateCapacityByRegionAndInstanceTypeForManualClusters (unboundedManager 5 "standard")
        overflowingUsage =
      .ok [{ Region := "us-east-1"
             InstanceType := "standard"
             ClusterId := "c1"
             Count := 5
             CloudProvider := "aws"
             MaxUnits := 5
             Status := ""
             ClusterType := "" }] ∧
      specAvailableByType overflowingUsage (scenarioCluster "c1" 5 "standard") "standard"
        none = 0 := by
  decide

theorem dynamicScaling_count_nonneg (k : KafkaManager) (r : KafkaStreamingUnitCountPerCluster)
    (limit : Option Int)
    (hlookup : k.cloudProviders.GetInstanceLimit r.Region r.CloudProvider r.InstanceType =
      .ok limit)
    (hrow : r.WellFormed) :
    ∃ row, calculateAvailableAndMaxCapacityForDynamicScaling k r = .ok row ∧ 0 ≤ row.Count := by
  obtain ⟨hc0, hc1, hm0, hm1⟩ := hrow
  unfold maxInt32 at hc1 hm1
  have hfm : float64OfInt r.MaxUnits = r.MaxUnits :=
    float64OfInt_of_abs_le _ (by omega) (by omega)
  have hfc : float64OfInt r.Count = r.Count :=
    float64OfInt_of_abs_le _ (by omega) (by omega)
  have hmin := min_le_left r.MaxUnits (float64OfInt (limit.getD maxInt64))
  have hsub : float64Sub (min r.MaxUnits (float64OfInt (limit.getD maxInt64))) r.Count ≤
      2147483647 := by
    unfold float64Sub
    exact float64OfInt_le_of_le 2147483647 _ (by omega) (by omega) (by omega)
  have hav : IsInt32 (max 0
      (float64Sub (min r.MaxUnits (float64OfInt (limit.getD maxInt64))) r.Count)) := by
    unfold IsInt32 minInt32 maxInt32
    omega
  unfold calculateAvailableAndMaxCapacityForDynamicScaling getRegionInstanceTypeLimit
  rw [hlookup]
  simp only [hfm, hfc, int32OfFloat64_of_isInt32 _ _ hav]
  exact ⟨_, rfl, le_max_left _ _⟩

/-- C4, amended: the dynamic calculator returns `Count >= 0` for every well-formed usage
row and every regional limit, and every row the manual calculator returns has `Count >= 0`
provided the usage counts of each schedulable cluster are non-negative and add up to at
most `2^31 - 1` and its effective maxima are at most `2^31 - 1`; this includes limits
lowered below the number of instances already provisioned. -/
theorem capacity_count_nonneg (k : KafkaManager) :
    (∀ (r : KafkaStreamingUnitCountPerCluster) (limit : Option Int),
        k.cloudProviders.GetInstanceLimit r.Region r.CloudProvider r.InstanceType = .ok limit →
        r.WellFormed →
        ∃ row, calculateAvailableAndMaxCapacityForDynamicScaling k r = .ok row ∧
          0 ≤ row.Count) ∧
      ∀ rows : List KafkaStreamingUnitCountPerCluster,
        LookupsSucceed k k.dataplaneClusterConfig.GetManualClusters →
        (∀ c ∈ k.dataplaneClusterConfig.GetManualClusters, c.Schedulable = true →
          NoOverflow rows c.ClusterId ∧
            ∀ t ∈ supportedInstanceTypes c,
              specMaxAvailable c.KafkaInstanceLimit
                (regionalLimit k c.Region c.CloudProvider t) ≤ maxInt32) →
        ∃ result, calculateCapacityByRegionAndInstanceTypeForManualClusters k rows =
            .ok result ∧ ∀ row ∈ result, 0 ≤ row.Count := by
  refine ⟨fun r limit hl hr => dynamicScaling_count_nonneg k r limit hl hr, ?_⟩
  intro rows hall hfit
  refine ⟨_, calculateCapacity_eq_manualRows k rows hall, ?_⟩
  intro row hrow
  obtain ⟨c, hc, hs, t, ht, rfl⟩ := (mem_manualRows k rows _ row).mp hrow
  exact (manualClusterCapacity_count_bounds k rows c t _ ((hfit c hc hs).2 t ht)
    (hfit c hc hs).1).1

/-- A limit lowered below the usage: the dynamic row with `MaxUnits = 10` and `Count = 12`
and the manual cluster of limit `5` holding usage are both reported with `Count >= 0`. -/
theorem capacity_count_nonneg_scenario :
    (scenarioRow "c1" "standard" 12 10).WellFormed ∧
      (∃ row, calculateAvailableAndMaxCapacityForDynamicScaling scenarioManualManager
          (scenarioRow "c1" "standard" 12 10) = .ok row ∧ 0 ≤ row.Count) ∧
      (∀ c ∈ scenarioManualManager.dataplaneClusterConfig.GetManualClusters,
        c.Schedulable = true →
        NoOverflow scenarioManualUsage c.ClusterId ∧
          ∀ t ∈ supportedInstanceTypes c,
            specMaxAvailable c.KafkaInstanceLimit
              (regionalLimit scenarioManualManager c.Region c.CloudProvider t) ≤ maxInt32) ∧
      ∃ result, calculateCapacityByRegionAndInstanceTypeForManualClusters
          scenarioManualManager scenarioManualUsage = .ok result ∧
        ∀ row ∈ result, 0 ≤ row.Count :=
  have hfit : ∀ c ∈ scenarioManualManager.dataplaneClusterConfig.GetManualClusters,
      c.Schedulable = true →
      NoOverflow scenarioManualUsage c.ClusterId ∧
        ∀ t ∈ supportedInstanceTypes c,
          specMaxAvailable c.KafkaInstanceLimit
            (regionalLimit scenarioManualManager c.Region c.CloudProvider t) ≤ maxInt32 := by
    decide
  ⟨by decide,
    (capacity_count_nonneg scenarioManualManager).1 (scenarioRow "c1" "standard" 12 10)
      (some 3) rfl (by decide),
    hfit,
    (capacity_count_nonneg scenarioManualManager).2 scenarioManualUsage
      (lookupsSucceed_of_ok _ _ (fun _ _ t => if t = "standard" then some 3 else none) rfl)
      hfit⟩

/-- C4 fails as stated: on amd64 a manual cluster whose limit is `2^31`, without regional
limit and without usage, is reported with `Count = -2^31`. -/
theorem capacity_count_negative :
    calculateCapacityByRegionAndInstanceTypeForManualClusters
        (unboundedManager 2147483648 "standard") [] =
      .ok [{ Region := "us-east-1"
             InstanceType := "standard"
             ClusterId := "c1"
             Count := -2147483648
             CloudProvider := "aws"
             MaxUnits := -2147483648
             Status := ""
             ClusterType := "" }] ∧
      (-2147483648 : Int) < 0 := by
  decide

/-- C5, amended: when every lookup succeeds, each row the manual calculator returns for a
schedulable cluster has `Count` at most `max(0, L - totalUsed)`, where `L` is the limit of
the cluster and `totalUsed` its usage over all instance types, provided the usage counts of
the cluster are non-negative and add up to at most `2^31 - 1` and the effective maximum of
the type is at most `2^31 - 1`; the bound holds for each instance type, not for their sum. -/
theorem manual_count_le_remaining (k : KafkaManager)
    (rows : List KafkaStreamingUnitCountPerCluster)
    (hall : LookupsSucceed k k.dataplaneClusterConfig.GetManualClusters) :
    calculateCapacityByRegionAndInstanceTypeForManualClusters k rows =
        .ok (manualRows k rows k.dataplaneClusterConfig.GetManualClusters) ∧
      ∀ c ∈ k.dataplaneClusterConfig.GetManualClusters, c.Schedulable = true →
        ∀ t ∈ supportedInstanceTypes c,
          specMaxAvailable c.KafkaInstanceLimit
            (regionalLimit k c.Region c.CloudProvider t) ≤ maxInt32 →
          NoOverflow rows c.ClusterId →
          (manualClusterCapacity k rows c t
              (float64OfInt ((regionalLimit k c.Region c.CloudProvider t).getD maxInt64))).Count ≤
            max 0 (c.KafkaInstanceLimit - specTotalUsed rows c.ClusterId) :=
  ⟨calculateCapacity_eq_manualRows k rows hall,
    fun c _ _ t _ hfit hsum => (manualClusterCapacity_count_bounds k rows c t _ hfit hsum).2⟩

/-- A cluster of limit `5` with three standard instances and two supported types: each type
is reported with `Count = 2`, which is `L - totalUsed`. -/
theorem manual_count_le_remaining_scenario :
    LookupsSucceed (unboundedManager 5 "standard,developer")
        (unboundedManager 5 "standard,developer").dataplaneClusterConfig.GetManualClusters ∧
      specMaxAvailable (scenarioCluster "c1" 5 "standard,developer").KafkaInstanceLimit
        (regionalLimit (unboundedManager 5 "standard,developer") "us-east-1" "aws"
          "developer") ≤ maxInt32 ∧
      NoOverflow [scenarioRow "c1" "standard" 3 0] "c1" ∧
      (manualClusterCapacity (unboundedManager 5 "standard,developer")
          [scenarioRow "c1" "standard" 3 0] (scenarioCluster "c1" 5 "standard,developer")
          "developer" (float64OfInt maxInt64)).Count ≤
        max 0 (5 - specTotalUsed [scenarioRow "c1" "standard" 3 0] "c1") :=
  have hall : LookupsSucceed (unboundedManager 5 "standard,developer")
      (unboundedManager 5 "standard,developer").dataplaneClusterConfig.GetManualClusters :=
    lookupsSucceed_of_ok _ _ (fun _ _ _ => none) rfl
  ⟨hall, by decide, by decide,
    (manual_count_le_remaining (unboundedManager 5 "standard,developer")
      [scenarioRow "c1" "standard" 3 0] hall).2
      (scenarioCluster "c1" 5 "standard,developer") (by decide) rfl "developer" (by decide)
      (by decide) (by decide)⟩

/-- C5 fails as stated: a cluster of limit `5` with three standard instances and the
supported types standard and developer is reported with `Count = 2` for each type, so the
sum over the types is `4` while `L - totalUsed` is `2`. -/
theorem manual_count_sum_exceeds_remaining :
    calculateCapacityByRegionAndInstanceTypeForManualClusters
        (unboundedManager 5 "standard,developer") [scenarioRow "c1" "standard" 3 0] =
      .ok [{ Region := "us-east-1"
             InstanceType := "standard"
             ClusterId := "c1"
             Count := 2
             CloudProvider := "aws"
             MaxUnits := 5
             Status := ""
             ClusterType := "" },
           { Region := "us-east-1"
             InstanceType := "developer"
             ClusterId := "c1"
             Count := 2
             CloudProvider := "aws"
             MaxUnits := 5
             Status := ""
             ClusterType := "" }] ∧
      5 - specTotalUsed [scenarioRow "c1" "standard" 3 0] "c1" < 2 + 2 := by
  decide

/-- C6, amended: when every lookup succeeds and the usage counts of a schedulable cluster
are non-negative and add up to at most `2^31 - 1`, a total usage of at least the
`KafkaInstanceLimit` of the cluster gives `Count = 0` in the row of every supported type,
whatever the usage and the regional ceiling of that type. -/
theorem manual_count_zero_of_full (k : KafkaManager)
    (rows : List KafkaStreamingUnitCountPerCluster)
    (hall : LookupsSucceed k k.dataplaneClusterConfig.GetManualClusters) :
    calculateCapacityByRegionAndInstanceTypeForManualClusters k rows =
        .ok (manualRows k rows k.dataplaneClusterConfig.GetManualClusters) ∧
      ∀ c ∈ k.dataplaneClusterConfig.GetManualClusters, c.Schedulable = true →
        NoOverflow rows c.ClusterId →
        c.KafkaInstanceLimit ≤ specTotalUsed rows c.ClusterId →
        ∀ t ∈ supportedInstanceTypes c,
          (manualClusterCapacity k rows c t
            (float64OfInt ((regionalLimit k c.Region c.CloudProvider t).getD maxInt64))).Count =
              0 :=
  ⟨calculateCapacity_eq_manualRows k rows hall,
    fun c _ _ hsum hfull t _ => manualClusterCapacity_count_zero k rows c t _ hsum hfull⟩

/-- A cluster of limit `3` full of standard instances reports `Count = 0` for developer. -/
theorem manual_count_zero_of_full_scenario :
    LookupsSucceed (unboundedManager 3 "standard,developer")
        (unboundedManager 3 "standard,developer").dataplaneClusterConfig.GetManualClusters ∧
      NoOverflow [scenarioRow "c1" "standard" 3 0] "c1" ∧
      (scenarioCluster "c1" 3 "standard,developer").KafkaInstanceLimit ≤
        specTotalUsed [scenarioRow "c1" "standard" 3 0] "c1" ∧
      calculateCapacityByRegionAndInstanceTypeForManualClusters
          (unboundedManager 3 "standard,developer") [scenarioRow "c1" "standard" 3 0] =
        .ok [{ Region := "us-east-1"
               InstanceType := "standard"
               ClusterId := "c1"
               Count := 0
               CloudProvider := "aws"
               MaxUnits := 3
               Status := ""
               ClusterType := "" },
             { Region := "us-east-1"
               InstanceType := "developer"
               ClusterId := "c1"
               Count := 0
               CloudProvider := "aws"
               MaxUnits := 3
               Status := ""
               ClusterType := "" }] ∧
      (manualClusterCapacity (unboundedManager 3 "standard,developer")
        [scenarioRow "c1" "standard" 3 0] (scenarioCluster "c1" 3 "standard,developer")
        "developer" (float64OfInt maxInt64)).Count = 0 :=
  have hall : LookupsSucceed (unboundedManager 3 "standard,developer")
      (unboundedManager 3 "standard,developer").dataplaneClusterConfig.GetManualClusters :=
    lookupsSucceed_of_ok _ _ (fun _ _ _ => none) rfl
  ⟨hall, by decide, by decide,
    (manual_count_zero_of_full (unboundedManager 3 "standard,developer")
      [scenarioRow "c1" "standard" 3 0] hall).1.trans (by decide),
    (manual_count_zero_of_full (unboundedManager 3 "standard,developer")
      [scenarioRow "c1" "standard" 3 0] hall).2
      (scenarioCluster "c1" 3 "standard,developer") (by decide) rfl (by decide) (by decide)
      "developer" (by decide)⟩

/-- C6 fails as stated: two usage rows of `2^30` premium instances each put the total usage
of a cluster of limit `5` at `2^31`, far above the limit, yet the `int32` sum of the
calculator wraps around and the row for standard has `Count = 5`. -/
theorem manual_count_nonzero_of_full :
    (scenarioCluster "c1" 5 "standard").KafkaInstanceLimit ≤
        specTotalUsed overflowingUsage "c1" ∧
      findUsedCapacityForCluster overflowingUsage "c1" "standard" = (-2147483648, 0) ∧
      calculateCapacityByRegionAndInstanceTypeForManualClusters (unboundedManager 5 "standard")
          overflowingUsage =
        .ok [{ Region := "us-east-1"
               InstanceType := "standard"
               ClusterId := "c1"
               Count := 5
               CloudProvider := "aws"
               MaxUnits := 5
               Status := ""
               ClusterType := "" }] := by
  decide

theorem isInt32_manualClusterCapacity_maxUnits (k : KafkaManager)
    (rows : List KafkaStreamingUnitCountPerCluster) (c : ManualCluster) (t : String)
    (limit : Int) : IsInt32 (manualClusterCapacity k rows c t limit).MaxUnits := by
  unfold manualClusterCapacity
  exact isInt32_int32OfFloat64 _ _

theorem dynamicScaling_maxUnits_of_none (k : KafkaManager)
    (r : KafkaStreamingUnitCountPerCluster)
    (hlookup : k.cloudProviders.GetInstanceLimit r.Region r.CloudProvider r.InstanceType =
      .ok none)
    (h : IsInt32 r.MaxUnits) :
    ∃ row, calculateAvailableAndMaxCapacityForDynamicScaling k r = .ok row ∧
      row.MaxUnits = r.MaxUnits := by
  have hm := min_float64OfInt_limit r.MaxUnits none h
  simp only [Option.getD_none, specMaxAvailable] at hm
  unfold calculateAvailableAndMaxCapacityForDynamicScaling getRegionInstanceTypeLimit
  rw [hlookup]
  simp only [Option.getD_none, hm]
  exact ⟨_, rfl, int32OfFloat64_of_isInt32 _ _ h⟩

/-- C7, amended: when the catalogue has no ceiling for (region, cloud provider, instance
type), `getRegionInstanceTypeLimit` returns `math.MaxInt64` converted to `float64`, which is
`2^63`; the dynamic calculator then returns `MaxUnits` equal to the `MaxUnits` of the row,
and the manual calculator returns `MaxUnits` equal to the `KafkaInstanceLimit` of the
cluster whenever that limit is an `int32`. -/
theorem unbounded_regional_limit (k : KafkaManager) :
    (∀ region cloudProvider t : String,
        k.cloudProviders.GetInstanceLimit region cloudProvider t = .ok none →
        getRegionInstanceTypeLimit k region cloudProvider t = .ok 9223372036854775808) ∧
      (∀ r : KafkaStreamingUnitCountPerCluster,
        k.cloudProviders.GetInstanceLimit r.Region r.CloudProvider r.InstanceType = .ok none →
        IsInt32 r.MaxUnits →
        ∃ row, calculateAvailableAndMaxCapacityForDynamicScaling k r = .ok row ∧
          row.MaxUnits = r.MaxUnits) ∧
      ∀ rows : List KafkaStreamingUnitCountPerCluster,
        LookupsSucceed k k.dataplaneClusterConfig.GetManualClusters →
        calculateCapacityByRegionAndInstanceTypeForManualClusters k rows =
            .ok (manualRows k rows k.dataplaneClusterConfig.GetManualClusters) ∧
          ∀ c ∈ k.dataplaneClusterConfig.GetManualClusters, c.Schedulable = true →
            ∀ t ∈ supportedInstanceTypes c,
              k.cloudProviders.GetInstanceLimit c.Region c.CloudProvider t = .ok none →
              IsInt32 c.KafkaInstanceLimit →
              (manualClusterCapacity k rows c t
                (float64OfInt
                  ((regionalLimit k c.Region c.CloudProvider t).getD maxInt64))).MaxUnits =
                c.KafkaInstanceLimit := by
  refine ⟨?_, fun r hl h => dynamicScaling_maxUnits_of_none k r hl h, ?_⟩
  · intro region cloudProvider t hl
    rw [(getRegionInstanceTypeLimit_of_ok k region cloudProvider t none hl).1,
      Option.getD_none, float64OfInt_maxInt64]
  · intro rows hall
    refine ⟨calculateCapacity_eq_manualRows k rows hall, ?_⟩
    intro c _ _ t _ hl h
    rw [(getRegionInstanceTypeLimit_of_ok k c.Region c.CloudProvider t none hl).2,
      Option.getD_none]
    exact manualClusterCapacity_maxUnits_of_none k rows c t h

/-- Without regional ceilings a row with `MaxUnits = 10` keeps `MaxUnits = 10` and a cluster
of limit `5` is reported with `MaxUnits = 5`. -/
theorem unbounded_regional_limit_scenario :
    IsInt32 (scenarioRow "c1" "standard" 12 10).MaxUnits ∧
      (∃ row, calculateAvailableAndMaxCapacityForDynamicScaling (unboundedManager 5 "standard")
          (scenarioRow "c1" "standard" 12 10) = .ok row ∧ row.MaxUnits = 10) ∧
      LookupsSucceed (unboundedManager 5 "standard")
        (unboundedManager 5 "standard").dataplaneClusterConfig.GetManualClusters ∧
      IsInt32 (scenarioCluster "c1" 5 "standard").KafkaInstanceLimit ∧
      (manualClusterCapacity (unboundedManager 5 "standard") []
        (scenarioCluster "c1" 5 "standard") "standard" (float64OfInt maxInt64)).MaxUnits = 5 :=
  have hall : LookupsSucceed (unboundedManager 5 "standard")
      (unboundedManager 5 "standard").dataplaneClusterConfig.GetManualClusters :=
    lookupsSucceed_of_ok _ _ (fun _ _ _ => none) rfl
  ⟨by decide,
    (unbounded_regional_limit (unboundedManager 5 "standard")).2.1
      (scenarioRow "c1" "standard" 12 10) rfl (by decide),
    hall, by decide,
    ((unbounded_regional_limit (unboundedManager 5 "standard")).2.2 [] hall).2
      (scenarioCluster "c1" 5 "standard") (by decide) rfl "standard" (by decide) rfl
      (by decide)⟩

/-- C7 fails as stated: for a manual cluster whose limit is `2^31`, without regional
ceiling, no target returns `MaxUnits` equal to the limit, the field being an `int32`; on
amd64 the row has `MaxUnits = -2^31`. -/
theorem unbounded_regional_limit_maxUnits_differs :
    (¬ ∃ arch : Arch, ∃ result,
        calculateCapacityByRegionAndInstanceTypeForManualClusters
            { unboundedManager 2147483648 "standard" with arch := arch } [] = .ok result ∧
          ∃ row ∈ result, row.MaxUnits = 2147483648) ∧
      calculateCapacityByRegionAndInstanceTypeForManualClusters
          (unboundedManager 2147483648 "standard") [] =
        .ok [{ Region := "us-east-1"
               InstanceType := "standard"
               ClusterId := "c1"
               Count := -2147483648
               CloudProvider := "aws"
               MaxUnits := -2147483648
               Status := ""
               ClusterType := "" }] := by
  refine ⟨?_, by decide⟩
  rintro ⟨arch, result, hres, row, hrow, hmax⟩
  have hall : LookupsSucceed { unboundedManager 2147483648 "standard" with arch := arch }
      ({ unboundedManager 2147483648 "standard" with arch := arch } :
        KafkaManager).dataplaneClusterConfig.GetManualClusters :=
    lookupsSucceed_of_ok _ _ (fun _ _ _ => none) rfl
  rw [calculateCapacity_eq_manualRows _ _ hall] at hres
  cases hres
  obtain ⟨c, _, _, t, _, rfl⟩ := (mem_manualRows _ _ _ row).mp hrow
  have := isInt32_manualClusterCapacity_maxUnits
    { unboundedManager 2147483648 "standard" with arch := arch } [] c t
    (float64OfInt ((regionalLimit { unboundedManager 2147483648 "standard" with arch := arch }
      c.Region c.CloudProvider t).getD maxInt64))
  rw [hmax] at this
  exact absurd this (by decide)

/-! ## Metrics emission -/

theorem publishUsedCapacity_eq (rows : List KafkaStreamingUnitCountPerCluster)
    (h : ∀ r ∈ rows, IsInt32 r.Count) :
    publishUsedCapacity rows =
      (rows.filter (fun r => r.Status ≠ ClusterAccepted)).map specUsedGauge := by
  induction rows with
  | nil => rfl
  | cons r rest ih =>
    have ih' := ih (fun x hx => h x (List.mem_cons_of_mem _ hx))
    have hr := h r (List.mem_cons_self _ _)
    unfold IsInt32 minInt32 maxInt32 at hr
    have hf : float64OfInt r.Count = r.Count := float64OfInt_of_abs_le _ (by omega) (by omega)
    unfold publishUsedCapacity
    by_cases hs : r.Status = ClusterAccepted
    · simp [hs, ih', List.filter_cons]
    · simp [hs, ih', List.filter_cons, hf, specUsedGauge]

theorem filter_isUsedCount_publishUsedCapacity (rows : List KafkaStreamingUnitCountPerCluster) :
    (publishUsedCapacity rows).filter Metric.isUsedCount = publishUsedCapacity rows := by
  induction rows with
  | nil => rfl
  | cons r rest ih =>
    unfold publishUsedCapacity
    by_cases hs : r.Status = ClusterAccepted
    · simpa [hs] using ih
    · simp [hs, ih, List.filter_cons, Metric.isUsedCount]

theorem filter_isUsedCount_publishDynamicCapacity (k : KafkaManager)
    (rows : List KafkaStreamingUnitCountPerCluster) :
    (publishDynamicCapacity k rows).1.filter Metric.isUsedCount = [] := by
  induction rows with
  | nil => rfl
  | cons r rest ih =>
    unfold publishDynamicCapacity
    split_ifs with hs
    · cases hc : calculateAvailableAndMaxCapacityForDynamicScaling k r with
      | error e => rfl
      | ok c =>
        simp [List.filter_cons, Metric.isUsedCount, updateClusterStatusCapacityAvailableMetric,
          updateClusterStatusCapacityMaxMetric, ih]
    · exact ih

theorem filter_isUsedCount_publishCapacity (skip : Bool)
    (rows : List KafkaStreamingUnitCountPerCluster) :
    (publishCapacity skip rows).filter Metric.isUsedCount = [] := by
  induction rows with
  | nil => rfl
  | cons r rest ih =>
    unfold publishCapacity
    split_ifs
    · exact ih
    · simp [List.filter_cons, Metric.isUsedCount, updateClusterStatusCapacityAvailableMetric,
        updateClusterStatusCapacityMaxMetric, ih]

theorem filter_isUsedCount_publishCapacityMetrics (k : KafkaManager)
    (rows : List KafkaStreamingUnitCountPerCluster) :
    (publishCapacityMetrics k rows).1.filter Metric.isUsedCount = publishUsedCapacity rows := by
  have h1 := filter_isUsedCount_publishUsedCapacity rows
  have h2 := filter_isUsedCount_publishDynamicCapacity k rows
  unfold publishCapacityMetrics
  simp only
  split
  · split_ifs <;> simp [List.filter_append, h1, h2]
  · split
    · split_ifs <;> simp [List.filter_append, h1, h2]
    · rename_i published _
      have h3 : published.filter Metric.isUsedCount = [] := by
        rename_i hp
        split_ifs at hp
        · split at hp
          · cases hp
          · cases hp
            exact filter_isUsedCount_publishCapacity _ _
        · cases hp
          rfl
      split_ifs <;> simp [List.filter_append, h1, h2, h3, filter_isUsedCount_publishCapacity]

/-- C8, amended: whatever the scaling mode and the outcome of the later steps,
`updateClusterStatusCapacityMetrics` publishes the used capacity gauge, with the labels and
the `Count` of the row, for every usage row whose status is not the accepted placeholder, in
the order of the snapshot, and publishes no other used capacity gauge: rows with the
accepted status are left out. -/
theorem used_capacity_gauges (k : KafkaManager) (rows : List KafkaStreamingUnitCountPerCluster)
    (husage : k.clusterService.FindStreamingUnitCountByClusterAndInstanceType = .ok rows)
    (hint : ∀ r ∈ rows, IsInt32 r.Count) :
    (updateClusterStatusCapacityMetrics k).1.filter Metric.isUsedCount =
      (rows.filter (fun r => r.Status ≠ ClusterAccepted)).map specUsedGauge := by
  unfold updateClusterStatusCapacityMetrics
  rw [husage]
  simp only
  rw [filter_isUsedCount_publishCapacityMetrics, publishUsedCapacity_eq rows hint]

/-- Under auto scaling a snapshot with an accepted row of four instances and a ready row of
two publishes the used capacity gauge of the ready row only. -/
theorem used_capacity_gauges_scenario :
    (scenarioManager (fun _ _ _ => .ok none) [] true false
        [acceptedRow "c1" "standard" 4 10,
          scenarioRow "c2" "standard" 2 10]).clusterService.FindStreamingUnitCountByClusterAndInstanceType =
        .ok [acceptedRow "c1" "standard" 4 10, scenarioRow "c2" "standard" 2 10] ∧
      (∀ r ∈ [acceptedRow "c1" "standard" 4 10, scenarioRow "c2" "standard" 2 10],
        IsInt32 r.Count) ∧
      (updateClusterStatusCapacityMetrics
        (scenarioManager (fun _ _ _ => .ok none) [] true false
          [acceptedRow "c1" "standard" 4 10,
            scenarioRow "c2" "standard" 2 10])).1.filter Metric.isUsedCount =
        [.ClusterStatusCapacityUsedCount "aws" "us-east-1" "standard" "c2" 2] :=
  ⟨rfl, by decide,
    (used_capacity_gauges _ [acceptedRow "c1" "standard" 4 10, scenarioRow "c2" "standard" 2 10]
      rfl (by decide)).trans (by decide)⟩

/-- C8 fails as stated: for a snapshot with an accepted row of four instances and a ready
row of two, the gauges published under auto scaling are those of the ready row; the used
capacity gauge of the accepted row is not among them. -/
theorem used_capacity_gauge_missing :
    updateClusterStatusCapacityMetrics
        (scenarioManager (fun _ _ _ => .ok none) [] true false
          [acceptedRow "c1" "standard" 4 10, scenarioRow "c2" "standard" 2 10]) =
      ([.ClusterStatusCapacityUsedCount "aws" "us-east-1" "standard" "c2" 2,
        .ClusterStatusCapacityAvailableCount "aws" "us-east-1" "standard" "c2" 8,
        .ClusterStatusCapacityMaxCount "aws" "us-east-1" "standard" "c2" 10], none) ∧
      specUsedGauge (acceptedRow "c1" "standard" 4 10) ∉
        (updateClusterStatusCapacityMetrics
          (scenarioManager (fun _ _ _ => .ok none) [] true false
            [acceptedRow "c1" "standard" 4 10, scenarioRow "c2" "standard" 2 10])).1 := by
  decide

theorem publishUsedCapacity_filter (rows : List KafkaStreamingUnitCountPerCluster) :
    publishUsedCapacity (rows.filter (fun r => !isAcceptedPlaceholder r)) =
      publishUsedCapacity rows := by
  induction rows with
  | nil => rfl
  | cons r rest ih =>
    by_cases hs : r.Status = ClusterAccepted
    · by_cases he : r.ClusterType = EnterpriseDataPlaneClusterType
      · have hp : isAcceptedPlaceholder r = false := by simp [isAcceptedPlaceholder, hs, he]
        simp [List.filter_cons, hp, hs, he, publishUsedCapacity, ih]
      · have hp : isAcceptedPlaceholder r = true := by simp [isAcceptedPlaceholder, hs, he]
        simp [List.filter_cons, hp, hs, he, publishUsedCapacity, ih]
    · have hp : isAcceptedPlaceholder r = false := by simp [isAcceptedPlaceholder, hs]
      simp [List.filter_cons, hp, hs, publishUsedCapacity, ih]

theorem publishDynamicCapacity_filter (k : KafkaManager)
    (rows : List KafkaStreamingUnitCountPerCluster) :
    publishDynamicCapacity k (rows.filter (fun r => !isAcceptedPlaceholder r)) =
      publishDynamicCapacity k rows := by
  induction rows with
  | nil => rfl
  | cons r rest ih =>
    by_cases hs : r.Status = ClusterAccepted
    · by_cases he : r.ClusterType = EnterpriseDataPlaneClusterType
      · have hp : isAcceptedPlaceholder r = false := by simp [isAcceptedPlaceholder, hs, he]
        simp [List.filter_cons, hp, hs, he, publishDynamicCapacity, ih]
      · have hp : isAcceptedPlaceholder r = true := by simp [isAcceptedPlaceholder, hs, he]
        simp [List.filter_cons, hp, hs, he, publishDynamicCapacity, ih]
    · have hp : isAcceptedPlaceholder r = false := by simp [isAcceptedPlaceholder, hs]
      simp [List.filter_cons, hp, hs, publishDynamicCapacity, ih]

theorem enterprise_filter (rows : List KafkaStreamingUnitCountPerCluster) :
    calculateAvailableAndMadCapacityForEnterpriseClusters
        (rows.filter (fun r => !isAcceptedPlaceholder r)) =
      calculateAvailableAndMadCapacityForEnterpriseClusters rows := by
  induction rows with
  | nil => rfl
  | cons r rest ih =>
    by_cases hs : r.Status = ClusterAccepted
    · by_cases he : r.ClusterType = EnterpriseDataPlaneClusterType
      · have hp : isAcceptedPlaceholder r = false := by simp [isAcceptedPlaceholder, hs, he]
        simp [List.filter_cons, hp, hs, he, calculateAvailableAndMadCapacityForEnterpriseClusters, ih]
      · have hp : isAcceptedPlaceholder r = true := by simp [isAcceptedPlaceholder, hs, he]
        simp [List.filter_cons, hp, hs, he, calculateAvailableAndMadCapacityForEnterpriseClusters, ih]
    · have hp : isAcceptedPlaceholder r = false := by simp [isAcceptedPlaceholder, hs]
      simp [List.filter_cons, hp, hs, calculateAvailableAndMadCapacityForEnterpriseClusters, ih]

/-- C9, amended: under auto scaling (manual scaling being off) a row whose status is the
accepted placeholder and whose cluster is not an enterprise cluster is skipped for the
available capacity gauge and for the maximum capacity gauge alike: what
`updateClusterStatusCapacityMetrics` publishes and returns is what it publishes and returns
for the snapshot without these rows. -/
theorem accepted_rows_skipped (k : KafkaManager) (rows : List KafkaStreamingUnitCountPerCluster)
    (husage : k.clusterService.FindStreamingUnitCountByClusterAndInstanceType = .ok rows)
    (hauto : k.dataplaneClusterConfig.IsDataPlaneAutoScalingEnabled = true)
    (hmanual : k.dataplaneClusterConfig.IsDataPlaneManualScalingEnabled = false) :
    updateClusterStatusCapacityMetrics k =
        publishCapacityMetrics k (rows.filter (fun r => !isAcceptedPlaceholder r)) ∧
      ∀ (r : KafkaStreamingUnitCountPerCluster) (rest : List KafkaStreamingUnitCountPerCluster),
        isAcceptedPlaceholder r = true →
        publishDynamicCapacity k (r :: rest) = publishDynamicCapacity k rest := by
  constructor
  · unfold updateClusterStatusCapacityMetrics
    rw [husage]
    simp only
    unfold publishCapacityMetrics
    simp [hauto, hmanual, publishUsedCapacity_filter, publishDynamicCapacity_filter,
      enterprise_filter]
  · intro r rest hr
    unfold isAcceptedPlaceholder at hr
    simp only [Bool.and_eq_true, decide_eq_true_eq, Bool.not_eq_true', decide_eq_false_iff_not]
      at hr
    conv_lhs => unfold publishDynamicCapacity
    simp [hr.1]

/-- Under auto scaling an accepted row next to a ready row: the gauges are those of the
snapshot holding the ready row alone. -/
theorem accepted_rows_skipped_scenario :
    (scenarioManager (fun _ _ _ => .ok none) [] true false
        [acceptedRow "c1" "standard" 4 10,
          scenarioRow "c2" "standard" 2 10]).clusterService.FindStreamingUnitCountByClusterAndInstanceType =
        .ok [acceptedRow "c1" "standard" 4 10, scenarioRow "c2" "standard" 2 10] ∧
      updateClusterStatusCapacityMetrics
          (scenarioManager (fun _ _ _ => .ok none) [] true false
            [acceptedRow "c1" "standard" 4 10, scenarioRow "c2" "standard" 2 10]) =
        publishCapacityMetrics
          (scenarioManager (fun _ _ _ => .ok none) [] true false
            [acceptedRow "c1" "standard" 4 10, scenarioRow "c2" "standard" 2 10])
          [scenarioRow "c2" "standard" 2 10] :=
  ⟨rfl,
    (accepted_rows_skipped _ [acceptedRow "c1" "standard" 4 10, scenarioRow "c2" "standard" 2 10]
      rfl rfl rfl).1.trans (by decide)⟩

/-- C9 fails as stated: under auto scaling a snapshot holding one accepted row of a managed
cluster publishes nothing at all, so no maximum capacity gauge either. -/
theorem accepted_row_max_gauge_missing :
    updateClusterStatusCapacityMetrics
        (scenarioManager (fun _ _ _ => .ok none) [] true false
          [acceptedRow "c1" "standard" 4 10]) = ([], none) ∧
      updateClusterStatusCapacityMaxMetric
          { Region := "us-east-1"
            InstanceType := "standard"
            ClusterId := "c1"
            Count := 6
            CloudProvider := "aws"
            MaxUnits := 10
            Status := ""
            ClusterType := "" } ∉
        (updateClusterStatusCapacityMetrics
          (scenarioManager (fun _ _ _ => .ok none) [] true false
            [acceptedRow "c1" "standard" 4 10])).1 := by
  decide

/-! ## Expiry reconciliation -/

/-- C10, amended: `updateExpiresAtBasedOnQuotaEntitlement` issues exactly one `expires_at`
update, setting it to NULL, when the entitlement is active and `ExpiresAt` is set; exactly
one update, setting it to now plus the `GracePeriodDays` of the billing model, when the
entitlement is not active, `ExpiresAt` is not set and the billing model of the instance is
found; no update, returning the lookup error, when the billing model is not found; and no
update, returning no error, in the two remaining cases.  The error returned after an update
is the answer of the update. -/
theorem updateExpiresAt_cases (k : KafkaManager) (kafka : KafkaRequest) :
    (kafka.ExpiresAt.Valid = true →
        updateExpiresAtBasedOnQuotaEntitlement k kafka true =
          ([.Updates kafka [("expires_at", { Time := zeroTime, Valid := false })]],
            k.kafkaService.Updates kafka
              [("expires_at", { Time := zeroTime, Valid := false })])) ∧
      (kafka.ExpiresAt.Valid = false →
        ∀ billingModel,
          k.kafkaConfig.GetBillingModelByID kafka.InstanceType kafka.ActualKafkaBillingModel =
            .ok billingModel →
          updateExpiresAtBasedOnQuotaEntitlement k kafka false =
            ([.Updates kafka
                [("expires_at",
                  { Time := k.clock.AddDate k.clock.Now 0 0 billingModel.GracePeriodDays,
                    Valid := true })]],
              k.kafkaService.Updates kafka
                [("expires_at",
                  { Time := k.clock.AddDate k.clock.Now 0 0 billingModel.GracePeriodDays,
                    Valid := true })])) ∧
      (kafka.ExpiresAt.Valid = false →
        ∀ err,
          k.kafkaConfig.GetBillingModelByID kafka.InstanceType kafka.ActualKafkaBillingModel =
            .error err →
          updateExpiresAtBasedOnQuotaEntitlement k kafka false = ([], some err)) ∧
      (kafka.ExpiresAt.Valid = false →
        updateExpiresAtBasedOnQuotaEntitlement k kafka true = ([], none)) ∧
      (kafka.ExpiresAt.Valid = true →
        updateExpiresAtBasedOnQuotaEntitlement k kafka false = ([], none)) := by
  refine ⟨?_, ?_, ?_, ?_, ?_⟩
  · intro hv
    simp [updateExpiresAtBasedOnQuotaEntitlement, updateKafkaExpirationDate, hv]
  · intro hv billingModel hb
    simp [updateExpiresAtBasedOnQuotaEntitlement, updateKafkaExpirationDate, hv, hb]
  · intro hv err hb
    simp [updateExpiresAtBasedOnQuotaEntitlement, hv, hb]
  · intro hv
    simp [updateExpiresAtBasedOnQuotaEntitlement, hv]
  · intro hv
    simp [updateExpiresAtBasedOnQuotaEntitlement, hv]

/-- The scenario of C10: an instance without expiry date whose entitlement is inactive, with
a grace period of seven days, is updated to now plus seven days; the same instance holding
that date, with the entitlement active again, is cleared to NULL. -/
theorem updateExpiresAt_scenario :
    scenarioKafka.ExpiresAt.Valid = false ∧
      (scenarioManager (fun _ _ _ => .ok none) [] true false []).kafkaConfig.GetBillingModelByID
          scenarioKafka.InstanceType scenarioKafka.ActualKafkaBillingModel =
        .ok { GracePeriodDays := 7 } ∧
      updateExpiresAtBasedOnQuotaEntitlement
          (scenarioManager (fun _ _ _ => .ok none) [] true false []) scenarioKafka false =
        ([.Updates scenarioKafka [("expires_at", { Time := 1700604800, Valid := true })]],
          none) ∧
      updateExpiresAtBasedOnQuotaEntitlement
          (scenarioManager (fun _ _ _ => .ok none) [] true false [])
          { scenarioKafka with ExpiresAt := { Time := 1700604800, Valid := true } } true =
        ([.Updates { scenarioKafka with ExpiresAt := { Time := 1700604800, Valid := true } }
            [("expires_at", { Time := zeroTime, Valid := false })]], none) :=
  ⟨rfl, rfl,
    ((updateExpiresAt_cases (scenarioManager (fun _ _ _ => .ok none) [] true false [])
      scenarioKafka).2.1 rfl { GracePeriodDays := 7 } rfl).trans (by decide),
    ((updateExpiresAt_cases (scenarioManager (fun _ _ _ => .ok none) [] true false [])
      { scenarioKafka with ExpiresAt := { Time := 1700604800, Valid := true } }).1
      rfl).trans (by decide)⟩

/-- C10 fails as stated: for an instance without expiry date whose entitlement is inactive
and whose billing model is not found, no update is issued and the lookup error is
returned. -/
theorem updateExpiresAt_billingModel_missing :
    scenarioKafka.ExpiresAt.Valid = false ∧
      updateExpiresAtBasedOnQuotaEntitlement
          { scenarioManager (fun _ _ _ => .ok none) [] true false [] with
            kafkaConfig :=
              { GetBillingModelByID := fun _ _ => .error "billing model not found"
                GetKafkaInstanceSize := fun _ _ => .ok { LifespanSeconds := none }
                QuotaType := "ams" } }
          scenarioKafka false =
        ([], some "billing model not found") := by
  decide

/-! ## Lifecycle reconciler: the status gauges -/

theorem sum_indicator_of_nodup (x : String) (l : List String) (h : l.Nodup) :
    (l.map (fun s => if x = s then (1 : Int) else 0)).sum = if x ∈ l then 1 else 0 := by
  induction l with
  | nil => simp
  | cons a l ih =>
    have hn := List.nodup_cons.mp h
    rw [List.map_cons, List.sum_cons, ih hn.2]
    by_cases hx : x = a
    · subst hx
      simp [hn.1]
    · simp [hx]

theorem updateKafkaRequestsCurrentStatusInfo_eq (kafka : KafkaRequest) :
    updateKafkaRequestsCurrentStatusInfo kafka = specStatusGauges kafka := by
  unfold updateKafkaRequestsCurrentStatusInfo specStatusGauges
  apply List.map_congr_left
  intro s _
  by_cases hs : kafka.Status = s
  · simp [hs]
  · simp [hs]

theorem filter_isCurrentStatusInfo_publish (l : List Metric)
    (h : ∀ m ∈ l, ∀ s i c v, m ≠ .KafkaRequestsCurrentStatusInfo s i c v) :
    (l.map Effect.publish).filter Effect.isCurrentStatusInfo = [] := by
  rw [List.filter_eq_nil_iff]
  intro e he
  obtain ⟨m, hm, rfl⟩ := List.mem_map.mp he
  cases m <;> simp [Effect.isCurrentStatusInfo]
  exact h _ hm _ _ _ _ rfl

theorem filter_isCurrentStatusInfo_call (l : List ServiceCall) :
    (l.map Effect.call).filter Effect.isCurrentStatusInfo = [] := by
  rw [List.filter_eq_nil_iff]
  intro e he
  obtain ⟨m, _, rfl⟩ := List.mem_map.mp he
  simp [Effect.isCurrentStatusInfo]

theorem isCapacity_publishUsedCapacity (rows : List KafkaStreamingUnitCountPerCluster) :
    ∀ m ∈ publishUsedCapacity rows, m.isCapacity = true := by
  induction rows with
  | nil => simp [publishUsedCapacity]
  | cons r rows ih =>
    intro m hm
    unfold publishUsedCapacity at hm
    split_ifs at hm
    · rcases List.mem_cons.mp hm with h | h
      · subst h; rfl
      · exact ih m h
    · exact ih m hm

theorem isCapacity_publishDynamicCapacity (k : KafkaManager)
    (rows : List KafkaStreamingUnitCountPerCluster) :
    ∀ m ∈ (publishDynamicCapacity k rows).1, m.isCapacity = true := by
  induction rows with
  | nil => simp [publishDynamicCapacity]
  | cons r rows ih =>
    intro m hm
    unfold publishDynamicCapacity at hm
    split_ifs at hm
    · cases hc : calculateAvailableAndMaxCapacityForDynamicScaling k r with
      | error err => simp [hc] at hm
      | ok row =>
        simp only [hc, List.mem_cons] at hm
        rcases hm with h | h | h
        · subst h; rfl
        · subst h; rfl
        · exact ih m h
    · exact ih m hm

theorem isCapacity_publishCapacity (skip : Bool) (rows : List KafkaStreamingUnitCountPerCluster) :
    ∀ m ∈ publishCapacity skip rows, m.isCapacity = true := by
  induction rows with
  | nil => simp [publishCapacity]
  | cons r rows ih =>
    intro m hm
    unfold publishCapacity at hm
    split_ifs at hm
    · exact ih m hm
    · rcases List.mem_cons.mp hm with h | hm
      · subst h; rfl
      · rcases List.mem_cons.mp hm with h | hm
        · subst h; rfl
        · exact ih m hm

theorem isCapacity_publishCapacityMetrics (k : KafkaManager)
    (rows : List KafkaStreamingUnitCountPerCluster) :
    ∀ m ∈ (publishCapacityMetrics k rows).1, m.isCapacity = true := by
  intro m hm
  unfold publishCapacityMetrics at hm
  have hu := isCapacity_publishUsedCapacity rows
  have hd : ∀ m ∈ (if k.dataplaneClusterConfig.IsDataPlaneAutoScalingEnabled then
      publishDynamicCapacity k rows else ([], none)).1, m.isCapacity = true := by
    split_ifs
    · exact isCapacity_publishDynamicCapacity k rows
    · simp
  revert hm
  simp only []
  split
  · intro hm
    rcases List.mem_append.mp hm with h | h
    · exact hu m h
    · exact hd m h
  · split
    · intro hm
      rcases List.mem_append.mp hm with h | h
      · exact hu m h
      · exact hd m h
    · rename_i published hp
      intro hm
      have hpub : ∀ m ∈ published, m.isCapacity = true := by
        split_ifs at hp
        · split at hp
          · cases hp
          · cases hp
            exact isCapacity_publishCapacity true _
        · cases hp
          simp
      rcases List.mem_append.mp hm with h | h
      · rcases List.mem_append.mp h with h | h
        · rcases List.mem_append.mp h with h | h
          · exact hu m h
          · exact hd m h
        · exact hpub m h
      · exact isCapacity_publishCapacity false _ m h

theorem isCapacity_updateClusterStatusCapacityMetrics (k : KafkaManager) :
    ∀ m ∈ (updateClusterStatusCapacityMetrics k).1, m.isCapacity = true := by
  intro m hm
  unfold updateClusterStatusCapacityMetrics at hm
  split at hm
  · simp at hm
  · exact isCapacity_publishCapacityMetrics k _ m hm

theorem filter_isCurrentStatusInfo_setKafkaStatusCountMetric (k : KafkaManager) :
    (setKafkaStatusCountMetric k).1.filter Effect.isCurrentStatusInfo = [] := by
  unfold setKafkaStatusCountMetric
  split
  · simp [Effect.isCurrentStatusInfo]
  · rw [List.filter_eq_nil_iff]
    intro e he
    rcases List.mem_cons.mp he with h | h
    · subst h
      simp [Effect.isCurrentStatusInfo]
    · obtain ⟨c, _, rfl⟩ := List.mem_map.mp h
      simp [Effect.isCurrentStatusInfo]

theorem filter_isCurrentStatusInfo_statusInfo (kafkas : List KafkaRequest) :
    (kafkas.flatMap (fun kafka =>
        (updateKafkaRequestsCurrentStatusInfo kafka).map Effect.publish)).filter
        Effect.isCurrentStatusInfo =
      kafkas.flatMap (fun kafka => (specStatusGauges kafka).map Effect.publish) := by
  simp only [updateKafkaRequestsCurrentStatusInfo_eq]
  rw [List.filter_eq_self]
  intro e he
  obtain ⟨kafka, _, he⟩ := List.mem_flatMap.mp he
  obtain ⟨m, hm, rfl⟩ := List.mem_map.mp he
  unfold specStatusGauges at hm
  obtain ⟨s, _, rfl⟩ := List.mem_map.mp hm
  rfl

/-- C20: the status gauges a pass publishes are, for every instance `ListAll` answers with
and in the order of the list, one gauge for each of the ten tracked statuses (`deleted` is
not one of them), with the labels of the instance and the value `1` for its own status
and `0` for every other tracked status; the values of the gauges of an instance add up to
`1` when its status is tracked and to `0` otherwise. -/
theorem status_presence_gauges (k : KafkaManager) :
    (Reconcile k).1.filter Effect.isCurrentStatusInfo =
        k.kafkaService.ListAll.1.flatMap
          (fun kafka => (specStatusGauges kafka).map Effect.publish) ∧
      (∀ kafka : KafkaRequest,
        updateKafkaRequestsCurrentStatusInfo kafka = specStatusGauges kafka ∧
        ((specStatusGauges kafka).map Metric.value).sum =
          (if kafka.Status ∈ kafkaMetricsStatuses then 1 else 0)) ∧
      kafkaMetricsStatuses =
        ["accepted", "preparing", "provisioning", "ready", "deprovision", "deleting",
          "failed", "suspended", "suspending", "resuming"] ∧
      kafkaMetricsStatuses.Nodup ∧ "deleted" ∉ kafkaMetricsStatuses := by
  refine ⟨?_, ?_, by decide, by decide, by decide⟩
  · unfold Reconcile
    simp only [List.filter_append, List.filter_cons, Effect.isCurrentStatusInfo,
      filter_isCurrentStatusInfo_call, filter_isCurrentStatusInfo_setKafkaStatusCountMetric,
      filter_isCurrentStatusInfo_statusInfo, List.filter_nil, List.append_nil]
    rw [filter_isCurrentStatusInfo_publish]
    · simp
    · intro m hm s i c v h
      have := isCapacity_updateClusterStatusCapacityMetrics k m hm
      rw [h] at this
      simp [Metric.isCapacity] at this
  · intro kafka
    constructor
    · exact updateKafkaRequestsCurrentStatusInfo_eq kafka
    · have h := sum_indicator_of_nodup kafka.Status kafkaMetricsStatuses (by decide)
      rw [← h]
      unfold specStatusGauges
      rw [List.map_map]
      rfl

/-! ## Billing model backfill -/

theorem migrateEmptyBillingModel_updated (k : KafkaManager) (ams : AMSQuotaService)
    (kafka : KafkaRequest) :
    (migrateEmptyBillingModel k ams kafka).1.filterMap ServiceCall.updated? =
      (specBackfilled ams kafka).toList := by
  unfold migrateEmptyBillingModel specBackfilled
  by_cases hb : kafka.ActualKafkaBillingModel = ""
  · simp only [hb, ne_eq, not_true_eq_false, if_false, if_true]
    cases hs : ams.GetSubscriptionByID kafka.SubscriptionId with
    | error err => simp [ServiceCall.updated?]
    | ok found =>
      cases found with
      | none => simp [ServiceCall.updated?]
      | some bm => simp [ServiceCall.updated?]
  · simp [hb]

theorem migrateEmptyBillingModel_subscription (k : KafkaManager) (ams : AMSQuotaService)
    (kafka : KafkaRequest) :
    (migrateEmptyBillingModel k ams kafka).1.filterMap ServiceCall.subscription? =
      if kafka.ActualKafkaBillingModel = "" then [kafka.SubscriptionId] else [] := by
  unfold migrateEmptyBillingModel
  by_cases hb : kafka.ActualKafkaBillingModel = ""
  · simp only [hb, ne_eq, not_true_eq_false, if_false, if_true]
    cases hs : ams.GetSubscriptionByID kafka.SubscriptionId with
    | error err => simp [ServiceCall.subscription?]
    | ok found =>
      cases found with
      | none => simp [ServiceCall.subscription?]
      | some bm => simp [ServiceCall.subscription?]
  · simp [hb]

theorem migrateEmptyBillingModels_updated (k : KafkaManager) (ams : AMSQuotaService)
    (kafkas : List KafkaRequest) :
    (migrateEmptyBillingModels k ams kafkas).calls.filterMap ServiceCall.updated? =
      kafkas.filterMap (specBackfilled ams) := by
  induction kafkas with
  | nil => simp [migrateEmptyBillingModels]
  | cons kafka rest ih =>
    simp only [migrateEmptyBillingModels, List.filterMap_append, ih,
      migrateEmptyBillingModel_updated, List.filterMap_cons]
    cases specBackfilled ams kafka <;> simp

theorem migrateEmptyBillingModels_subscription (k : KafkaManager) (ams : AMSQuotaService)
    (kafkas : List KafkaRequest) :
    (migrateEmptyBillingModels k ams kafkas).calls.filterMap ServiceCall.subscription? =
      (kafkas.filter (fun kafka => kafka.ActualKafkaBillingModel = "")).map
        (fun kafka => kafka.SubscriptionId) := by
  induction kafkas with
  | nil => simp [migrateEmptyBillingModels]
  | cons kafka rest ih =>
    simp only [migrateEmptyBillingModels, List.filterMap_append, ih,
      migrateEmptyBillingModel_subscription, List.filter_cons]
    by_cases hb : kafka.ActualKafkaBillingModel = "" <;> simp [hb]

/-- C19: when the quota service has subscription lookup, `tempMigrateEmptyBillingModels`
looks up the subscription of the instances whose billing model tag is empty, no other, and
issues `Update` for those of them whose subscription is found, no other, each with both
tags set to the billing model of its subscription and the rest of the record as it was;
when the quota service has no subscription lookup, it returns no error and issues no call
beyond `GetQuotaService`, whatever the list; when no quota service is obtained, it returns
that error and issues no further call. -/
theorem backfill_updates (k : KafkaManager) (kafkas : List KafkaRequest) :
    (∀ quotaService ams,
        k.quotaServiceFactory.GetQuotaService k.kafkaConfig.QuotaType = .ok quotaService →
        quotaService.AMSQuotaService = some ams →
        (tempMigrateEmptyBillingModels k kafkas).calls.filterMap ServiceCall.updated? =
            kafkas.filterMap (specBackfilled ams) ∧
          (tempMigrateEmptyBillingModels k kafkas).calls.filterMap ServiceCall.subscription? =
            (kafkas.filter (fun kafka => kafka.ActualKafkaBillingModel = "")).map
              (fun kafka => kafka.SubscriptionId)) ∧
      (∀ quotaService,
        k.quotaServiceFactory.GetQuotaService k.kafkaConfig.QuotaType = .ok quotaService →
        quotaService.AMSQuotaService = none →
        (tempMigrateEmptyBillingModels k kafkas).svcErrors = [] ∧
          (tempMigrateEmptyBillingModels k kafkas).calls =
            [.GetQuotaService k.kafkaConfig.QuotaType] ∧
          (tempMigrateEmptyBillingModels k kafkas).kafkas = kafkas) ∧
      (∀ factoryErr,
        k.quotaServiceFactory.GetQuotaService k.kafkaConfig.QuotaType = .error factoryErr →
        (tempMigrateEmptyBillingModels k kafkas).svcErrors =
            [wrap factoryErr "unable to get the quota service"] ∧
          (tempMigrateEmptyBillingModels k kafkas).calls =
            [.GetQuotaService k.kafkaConfig.QuotaType] ∧
          (tempMigrateEmptyBillingModels k kafkas).kafkas = kafkas) := by
  refine ⟨?_, ?_, ?_⟩
  · intro quotaService ams hq ha
    simp only [tempMigrateEmptyBillingModels, hq, ha, List.filterMap_cons,
      ServiceCall.updated?, ServiceCall.subscription?]
    exact ⟨migrateEmptyBillingModels_updated k ams kafkas,
      migrateEmptyBillingModels_subscription k ams kafkas⟩
  · intro quotaService hq ha
    simp [tempMigrateEmptyBillingModels, hq, ha]
  · intro factoryErr hq
    simp [tempMigrateEmptyBillingModels, hq]

/-- The scenario of C19: of three instances the one with an empty billing model tag is
looked up and, its subscription being found, persisted with both tags set to `marketplace`;
the same list, handed to a manager whose quota service has no subscription lookup, leads to
no lookup, no `Update` and no error. -/
theorem backfill_updates_scenario :
    (tempMigrateEmptyBillingModels (lifecycleManager []) scenarioKafkas).calls.filterMap
          ServiceCall.updated? =
        [scenarioInstance "kafka-1" "org-1" "sub-1" "marketplace" noExpiry] ∧
      (tempMigrateEmptyBillingModels (lifecycleManager []) scenarioKafkas).calls.filterMap
          ServiceCall.subscription? = ["sub-1"] ∧
      (tempMigrateEmptyBillingModels
          (scenarioManager (fun _ _ _ => .ok none) [] true false []) scenarioKafkas).svcErrors =
        [] ∧
      (tempMigrateEmptyBillingModels
          (scenarioManager (fun _ _ _ => .ok none) [] true false []) scenarioKafkas).calls =
        [.GetQuotaService "ams"] :=
  ⟨((backfill_updates (lifecycleManager []) scenarioKafkas).1 _ scenarioAMS rfl rfl).1.trans
      (by decide),
    ((backfill_updates (lifecycleManager []) scenarioKafkas).1 _ scenarioAMS rfl rfl).2.trans
      (by decide),
    ((backfill_updates (scenarioManager (fun _ _ _ => .ok none) [] true false [])
      scenarioKafkas).2.1 _ rfl rfl).1,
    ((backfill_updates (scenarioManager (fun _ _ _ => .ok none) [] true false [])
      scenarioKafkas).2.1 _ rfl rfl).2.1⟩

/-! ## Lifecycle reconciler: the calls of a pass -/

theorem callsOf_append (a b : List Effect) : callsOf (a ++ b) = callsOf a ++ callsOf b := by
  simp [callsOf, List.filterMap_append]

theorem callsOf_map_call (l : List ServiceCall) : callsOf (l.map Effect.call) = l := by
  induction l with
  | nil => rfl
  | cons c l ih =>
    simp only [callsOf, List.map_cons, List.filterMap_cons, Effect.call?] at ih ⊢
    rw [ih]

theorem callsOf_map_publish (l : List Metric) : callsOf (l.map Effect.publish) = [] := by
  induction l with
  | nil => rfl
  | cons c l ih =>
    simp only [callsOf, List.map_cons, List.filterMap_cons, Effect.call?] at ih ⊢
    rw [ih]

theorem callsOf_statusInfo (kafkas : List KafkaRequest) :
    callsOf (kafkas.flatMap (fun kafka =>
      (updateKafkaRequestsCurrentStatusInfo kafka).map Effect.publish)) = [] := by
  induction kafkas with
  | nil => rfl
  | cons kafka rest ih =>
    rw [List.flatMap_cons, callsOf_append, ih, callsOf_map_publish]
    rfl

theorem callsOf_setKafkaStatusCountMetric (k : KafkaManager) :
    callsOf (setKafkaStatusCountMetric k).1 = [.CountByStatus kafkaMetricsStatuses] := by
  unfold setKafkaStatusCountMetric
  split
  · rfl
  · rename_i counters _
    have h := callsOf_map_publish
      (counters.map (fun c => Metric.KafkaRequestsStatusCount c.Status c.Count))
    rw [List.map_map] at h
    simp only [callsOf, List.filterMap_cons, Effect.call?] at h ⊢
    rw [← h]
    rfl

/-- The calls of the deny list step of `Reconcile`. -/
theorem deniedCalls_eq (k : KafkaManager) :
    (if k.accessControlListConfig.EnableDenyList then
        reconcileDeniedKafkaOwners k k.accessControlListConfig.DenyList
      else ([], none)).1 =
      if k.accessControlListConfig.EnableDenyList = true ∧
          k.accessControlListConfig.DenyList ≠ [] then
        [.DeprovisionKafkaForUsers k.accessControlListConfig.DenyList]
      else [] := by
  unfold reconcileDeniedKafkaOwners
  cases k.accessControlListConfig.EnableDenyList
  · simp
  · cases hd : k.accessControlListConfig.DenyList with
    | nil => simp
    | cons a l => simp

theorem callsOf_Reconcile (k : KafkaManager) :
    callsOf (Reconcile k).1 =
      [.ListAll, .CountByStatus kafkaMetricsStatuses,
          .FindStreamingUnitCountByClusterAndInstanceType] ++
        (if k.accessControlListConfig.EnableDenyList = true ∧
            k.accessControlListConfig.DenyList ≠ [] then
          [.DeprovisionKafkaForUsers k.accessControlListConfig.DenyList]
        else []) ++
        (tempMigrateEmptyBillingModels k k.kafkaService.ListAll.1).calls ++
        (reconcileKafkaExpiresAt k (backfilledKafkas k)).1 ++
        (suspendAllInGracePeriod k (backfilledKafkas k)).1 ++ [.DeprovisionExpiredKafkas] := by
  have hd := deniedCalls_eq k
  have h1 := callsOf_statusInfo k.kafkaService.ListAll.1
  have h2 := callsOf_setKafkaStatusCountMetric k
  have h3 := callsOf_map_publish (updateClusterStatusCapacityMetrics k).1
  have h4 : ∀ l : List ServiceCall, List.filterMap Effect.call? (l.map Effect.call) = l :=
    callsOf_map_call
  simp only [callsOf] at h1 h2 h3
  simp only [Reconcile, backfilledKafkas, callsOf, List.filterMap_append, List.filterMap_cons,
    List.cons_append, List.nil_append, Effect.call?, h1, h2, h3, h4, List.filterMap_nil,
    List.append_assoc]
  cases he : k.accessControlListConfig.EnableDenyList
  · simp
  · simp only [he, if_true] at hd
    simp only [if_true, hd]

theorem migrateEmptyBillingModel_backfilled (k : KafkaManager) (ams : AMSQuotaService)
    (kafka : KafkaRequest) : Backfilled kafka (migrateEmptyBillingModel k ams kafka).2.2 := by
  unfold migrateEmptyBillingModel Backfilled
  by_cases hb : kafka.ActualKafkaBillingModel = ""
  · simp only [hb, ne_eq, not_true_eq_false, if_false]
    cases hs : ams.GetSubscriptionByID kafka.SubscriptionId with
    | error err => exact Or.inl rfl
    | ok found =>
      cases found with
      | none => exact Or.inl rfl
      | some bm => exact Or.inr ⟨trivial, bm, rfl⟩
  · simp [hb]

theorem migrateEmptyBillingModels_backfilled (k : KafkaManager) (ams : AMSQuotaService)
    (kafkas : List KafkaRequest) :
    List.Forall₂ Backfilled kafkas (migrateEmptyBillingModels k ams kafkas).kafkas := by
  induction kafkas with
  | nil => exact List.Forall₂.nil
  | cons kafka rest ih =>
    exact List.Forall₂.cons (migrateEmptyBillingModel_backfilled k ams kafka) ih

theorem forall₂_backfilled_self (kafkas : List KafkaRequest) :
    List.Forall₂ Backfilled kafkas kafkas := by
  induction kafkas with
  | nil => exact List.Forall₂.nil
  | cons kafka rest ih => exact List.Forall₂.cons (Or.inl rfl) ih

theorem tempMigrateEmptyBillingModels_backfilled (k : KafkaManager)
    (kafkas : List KafkaRequest) :
    List.Forall₂ Backfilled kafkas (tempMigrateEmptyBillingModels k kafkas).kafkas := by
  unfold tempMigrateEmptyBillingModels
  split
  · exact forall₂_backfilled_self kafkas
  · split
    · exact forall₂_backfilled_self kafkas
    · exact migrateEmptyBillingModels_backfilled k _ kafkas

/-- What the backfill leaves of an instance keeps its identifier, cluster, organisation,
subscription, instance type, size, status and expiry date. -/
theorem Backfilled.frame (fetched migrated : KafkaRequest) (h : Backfilled fetched migrated) :
    migrated.ID = fetched.ID ∧ migrated.ClusterID = fetched.ClusterID ∧
      migrated.OrganisationId = fetched.OrganisationId ∧
      migrated.SubscriptionId = fetched.SubscriptionId ∧
      migrated.InstanceType = fetched.InstanceType ∧ migrated.SizeId = fetched.SizeId ∧
      migrated.Status = fetched.Status ∧ migrated.ExpiresAt = fetched.ExpiresAt := by
  rcases h with h | ⟨_, bm, h⟩
  · subst h
    simp
  · subst h
    simp

theorem mem_of_forall₂_backfilled (fetched migrated : List KafkaRequest)
    (h : List.Forall₂ Backfilled fetched migrated) :
    ∀ kafka ∈ migrated, ∃ original ∈ fetched, Backfilled original kafka := by
  induction h with
  | nil => simp
  | cons hb _ ih =>
    intro kafka hk
    rcases List.mem_cons.mp hk with h | h
    · subst h
      exact ⟨_, List.mem_cons_self _ _, hb⟩
    · obtain ⟨o, ho, hbo⟩ := ih kafka h
      exact ⟨o, List.mem_cons_of_mem _ ho, hbo⟩

theorem mem_calls_migrateEmptyBillingModel (k : KafkaManager) (ams : AMSQuotaService)
    (kafka : KafkaRequest) :
    ∀ c ∈ (migrateEmptyBillingModel k ams kafka).1,
      c = .GetSubscriptionByID kafka.SubscriptionId ∨
        (c = .Update (migrateEmptyBillingModel k ams kafka).2.2) := by
  intro c hc
  unfold migrateEmptyBillingModel at hc ⊢
  by_cases hb : kafka.ActualKafkaBillingModel = ""
  · simp only [hb, ne_eq, not_true_eq_false, if_false] at hc ⊢
    cases hs : ams.GetSubscriptionByID kafka.SubscriptionId with
    | error err => simp [hs] at hc; exact Or.inl hc
    | ok found =>
      cases found with
      | none => simp [hs] at hc; exact Or.inl hc
      | some bm =>
        simp only [hs, List.mem_cons, List.mem_singleton, List.not_mem_nil, or_false] at hc
        rcases hc with h | h
        · exact Or.inl h
        · exact Or.inr h
  · simp [hb] at hc

theorem mem_calls_migrateEmptyBillingModels (k : KafkaManager) (ams : AMSQuotaService)
    (kafkas : List KafkaRequest) :
    ∀ c ∈ (migrateEmptyBillingModels k ams kafkas).calls,
      (∃ kafka ∈ kafkas, c = .GetSubscriptionByID kafka.SubscriptionId) ∨
        (∃ kafka ∈ kafkas, c = .Update (migrateEmptyBillingModel k ams kafka).2.2) := by
  induction kafkas with
  | nil => simp [migrateEmptyBillingModels]
  | cons kafka rest ih =>
    intro c hc
    simp only [migrateEmptyBillingModels, List.mem_append] at hc
    rcases hc with h | h
    · rcases mem_calls_migrateEmptyBillingModel k ams kafka c h with h | h
      · exact Or.inl ⟨kafka, List.mem_cons_self _ _, h⟩
      · exact Or.inr ⟨kafka, List.mem_cons_self _ _, h⟩
    · rcases ih c h with ⟨x, hx, h⟩ | ⟨x, hx, h⟩
      · exact Or.inl ⟨x, List.mem_cons_of_mem _ hx, h⟩
      · exact Or.inr ⟨x, List.mem_cons_of_mem _ hx, h⟩

theorem mem_calls_tempMigrateEmptyBillingModels (k : KafkaManager) (kafkas : List KafkaRequest) :
    ∀ c ∈ (tempMigrateEmptyBillingModels k kafkas).calls,
      c = .GetQuotaService k.kafkaConfig.QuotaType ∨
        (∃ kafka ∈ kafkas, c = .GetSubscriptionByID kafka.SubscriptionId) ∨
        (∃ kafka ∈ kafkas, ∃ migrated, Backfilled kafka migrated ∧ c = .Update migrated) := by
  intro c hc
  unfold tempMigrateEmptyBillingModels at hc
  split at hc
  · simp at hc; exact Or.inl hc
  · split at hc
    · simp at hc; exact Or.inl hc
    · rename_i ams _
      rcases List.mem_cons.mp hc with h | h
      · exact Or.inl h
      · rcases mem_calls_migrateEmptyBillingModels k ams kafkas c h with ⟨x, hx, h⟩ | ⟨x, hx, h⟩
        · exact Or.inr (Or.inl ⟨x, hx, h⟩)
        · exact Or.inr (Or.inr ⟨x, hx, _, migrateEmptyBillingModel_backfilled k ams x, h⟩)

theorem mem_calls_updateExpiresAtBasedOnQuotaEntitlement (k : KafkaManager)
    (kafka : KafkaRequest) (active : Bool) :
    ∀ c ∈ (updateExpiresAtBasedOnQuotaEntitlement k kafka active).1,
      ∃ expiresAt, c = .Updates kafka [("expires_at", expiresAt)] := by
  intro c hc
  unfold updateExpiresAtBasedOnQuotaEntitlement at hc
  split_ifs at hc
  · simp only [updateKafkaExpirationDate, List.mem_singleton] at hc
    exact ⟨_, hc⟩
  · split at hc
    · simp at hc
    · simp only [updateKafkaExpirationDate, List.mem_singleton] at hc
      exact ⟨_, hc⟩
  · simp at hc

theorem mem_calls_reconcileKafkaExpiresAtStep (k : KafkaManager) (cache : List (String × Bool))
    (kafka : KafkaRequest) :
    ∀ c ∈ (reconcileKafkaExpiresAtStep k cache kafka).calls,
      c = .IsQuotaEntitlementActive kafka ∨
        ∃ expiresAt, c = .Updates kafka [("expires_at", expiresAt)] := by
  intro c hc
  unfold reconcileKafkaExpiresAtStep at hc
  split_ifs at hc
  · simp at hc
  · split at hc
    · simp at hc
    · split_ifs at hc
      · simp only at hc
        split at hc
        · exact Or.inr (mem_calls_updateExpiresAtBasedOnQuotaEntitlement k kafka _ c hc)
        · split at hc
          · simp only [List.mem_singleton] at hc
            exact Or.inl hc
          · rcases List.mem_cons.mp hc with h | h
            · exact Or.inl h
            · exact Or.inr (mem_calls_updateExpiresAtBasedOnQuotaEntitlement k kafka _ c h)
      · simp at hc

theorem mem_calls_reconcileKafkaExpiresAtFrom (k : KafkaManager) (kafkas : List KafkaRequest) :
    ∀ (cache : List (String × Bool)), ∀ c ∈ (reconcileKafkaExpiresAtFrom k cache kafkas).1,
      ∃ kafka ∈ kafkas, c = .IsQuotaEntitlementActive kafka ∨
        ∃ expiresAt, c = .Updates kafka [("expires_at", expiresAt)] := by
  induction kafkas with
  | nil => simp [reconcileKafkaExpiresAtFrom]
  | cons kafka rest ih =>
    intro cache c hc
    simp only [reconcileKafkaExpiresAtFrom, List.mem_append] at hc
    rcases hc with h | h
    · exact ⟨kafka, List.mem_cons_self _ _, mem_calls_reconcileKafkaExpiresAtStep k cache kafka c h⟩
    · obtain ⟨x, hx, h⟩ := ih _ c h
      exact ⟨x, List.mem_cons_of_mem _ hx, h⟩

theorem suspendInGracePeriod_calls (k : KafkaManager) (kafka : KafkaRequest) :
    (suspendInGracePeriod k kafka).1 =
      if (k.declarations.CanBeAutomaticallySuspended kafka &&
          !(k.declarations.IsExpired kafka).1 &&
          match k.kafkaConfig.GetBillingModelByID kafka.InstanceType
              kafka.ActualKafkaBillingModel with
          | .ok bm =>
            (k.declarations.IsExpired kafka).2.LessThanOrEqual (float64OfInt bm.GracePeriodDays)
          | .error _ => false) = true then
        [.UpdateStatus kafka.ID KafkaRequestStatusSuspending]
      else [] := by
  unfold suspendInGracePeriod
  cases hc : k.declarations.CanBeAutomaticallySuspended kafka
  · simp
  · cases he : (k.declarations.IsExpired kafka).1
    · cases hb : k.kafkaConfig.GetBillingModelByID kafka.InstanceType
          kafka.ActualKafkaBillingModel with
      | error err => simp
      | ok bm =>
        cases hl : (k.declarations.IsExpired kafka).2.LessThanOrEqual
            (float64OfInt bm.GracePeriodDays)
        · simp [hl]
        · simp [hl]
    · simp

theorem suspendInGracePeriod_calls_spec (k : KafkaManager) (kafka : KafkaRequest)
    (hgrace : ∀ instanceType billingModel bm,
      k.kafkaConfig.GetBillingModelByID instanceType billingModel = .ok bm →
        -9007199254740992 ≤ bm.GracePeriodDays ∧ bm.GracePeriodDays ≤ 9007199254740992) :
    (suspendInGracePeriod k kafka).1 =
      if specEntersGracePeriod k kafka = true then
        [.UpdateStatus kafka.ID KafkaRequestStatusSuspending]
      else [] := by
  rw [suspendInGracePeriod_calls]
  unfold specEntersGracePeriod
  cases hb : k.kafkaConfig.GetBillingModelByID kafka.InstanceType
      kafka.ActualKafkaBillingModel with
  | error err => rfl
  | ok bm =>
    have hg := hgrace _ _ _ hb
    simp only [float64OfInt_of_abs_le _ hg.1 hg.2]

theorem suspendAllInGracePeriod_calls (k : KafkaManager) (kafkas : List KafkaRequest)
    (hgrace : ∀ instanceType billingModel bm,
      k.kafkaConfig.GetBillingModelByID instanceType billingModel = .ok bm →
        -9007199254740992 ≤ bm.GracePeriodDays ∧ bm.GracePeriodDays ≤ 9007199254740992) :
    (suspendAllInGracePeriod k kafkas).1 =
      (kafkas.filter (specEntersGracePeriod k)).map
        (fun kafka => .UpdateStatus kafka.ID KafkaRequestStatusSuspending) := by
  induction kafkas with
  | nil => rfl
  | cons kafka rest ih =>
    simp only [suspendAllInGracePeriod, ih, suspendInGracePeriod_calls_spec k kafka hgrace,
      List.filter_cons]
    cases specEntersGracePeriod k kafka <;> simp

theorem mem_calls_suspendAllInGracePeriod (k : KafkaManager) (kafkas : List KafkaRequest) :
    ∀ c ∈ (suspendAllInGracePeriod k kafkas).1,
      ∃ kafka ∈ kafkas, c = .UpdateStatus kafka.ID KafkaRequestStatusSuspending := by
  induction kafkas with
  | nil => simp [suspendAllInGracePeriod]
  | cons kafka rest ih =>
    intro c hc
    simp only [suspendAllInGracePeriod, List.mem_append] at hc
    rcases hc with h | h
    · rw [suspendInGracePeriod_calls] at h
      split_ifs at h
      · exact ⟨kafka, List.mem_cons_self _ _, List.mem_singleton.mp h⟩
      · simp at h
    · obtain ⟨x, hx, h⟩ := ih c h
      exact ⟨x, List.mem_cons_of_mem _ hx, h⟩

theorem filterMap_eq_nil_of_forall {α β : Type} (f : α → Option β) (l : List α)
    (h : ∀ a ∈ l, f a = none) : l.filterMap f = [] := by
  induction l with
  | nil => rfl
  | cons a l ih =>
    rw [List.filterMap_cons, h a (List.mem_cons_self _ _)]
    exact ih (fun b hb => h b (List.mem_cons_of_mem _ hb))

theorem statusUpdate_tempMigrateEmptyBillingModels (k : KafkaManager)
    (kafkas : List KafkaRequest) :
    (tempMigrateEmptyBillingModels k kafkas).calls.filterMap ServiceCall.statusUpdate? = [] := by
  apply filterMap_eq_nil_of_forall
  intro c hc
  rcases mem_calls_tempMigrateEmptyBillingModels k kafkas c hc with
    h | ⟨_, _, h⟩ | ⟨_, _, _, _, h⟩ <;> subst h <;> rfl

theorem statusUpdate_reconcileKafkaExpiresAt (k : KafkaManager) (kafkas : List KafkaRequest) :
    (reconcileKafkaExpiresAt k kafkas).1.filterMap ServiceCall.statusUpdate? = [] := by
  apply filterMap_eq_nil_of_forall
  intro c hc
  obtain ⟨_, _, h | ⟨_, h⟩⟩ := mem_calls_reconcileKafkaExpiresAtFrom k kafkas [] c hc <;>
    subst h <;> rfl

/-- C12: when the grace periods of the catalogue are at most `2^53` days in absolute value,
so that their conversion to `float64` is exact, the status updates a pass requests are, in
the order of the list of instances, one request of the status suspending for every instance
that can be suspended automatically, is not expired, has its billing model found for
its instance type and billing model tag, and has a remaining lifespan of at most the grace
period of that billing model, and no other request; the instances are those `ListAll`
answered with, each as the backfill of the same pass left it in memory. -/
theorem suspending_requested (k : KafkaManager)
    (hgrace : ∀ instanceType billingModel bm,
      k.kafkaConfig.GetBillingModelByID instanceType billingModel = .ok bm →
        -9007199254740992 ≤ bm.GracePeriodDays ∧ bm.GracePeriodDays ≤ 9007199254740992) :
    (callsOf (Reconcile k).1).filterMap ServiceCall.statusUpdate? =
        ((backfilledKafkas k).filter (specEntersGracePeriod k)).map
          (fun kafka => (kafka.ID, KafkaRequestStatusSuspending)) ∧
      List.Forall₂ Backfilled k.kafkaService.ListAll.1 (backfilledKafkas k) ∧
      (∀ id status, .call (.UpdateStatus id status) ∈ (Reconcile k).1 ↔
        status = "suspending" ∧
          ∃ kafka ∈ backfilledKafkas k, kafka.ID = id ∧ specEntersGracePeriod k kafka = true) := by
  have hcalls : (callsOf (Reconcile k).1).filterMap ServiceCall.statusUpdate? =
      ((backfilledKafkas k).filter (specEntersGracePeriod k)).map
        (fun kafka => (kafka.ID, KafkaRequestStatusSuspending)) := by
    rw [callsOf_Reconcile]
    simp only [List.filterMap_append, statusUpdate_tempMigrateEmptyBillingModels,
      statusUpdate_reconcileKafkaExpiresAt, suspendAllInGracePeriod_calls k _ hgrace,
      List.filterMap_cons, List.filterMap_nil, ServiceCall.statusUpdate?, List.nil_append,
      List.append_nil]
    have hd : (if k.accessControlListConfig.EnableDenyList = true ∧
          k.accessControlListConfig.DenyList ≠ [] then
        [ServiceCall.DeprovisionKafkaForUsers k.accessControlListConfig.DenyList]
      else []).filterMap ServiceCall.statusUpdate? = [] := by
      split_ifs <;> rfl
    rw [hd, List.filterMap_map]
    simp only [List.nil_append]
    rw [← List.filterMap_eq_map]
    rfl
  refine ⟨hcalls, tempMigrateEmptyBillingModels_backfilled k _, ?_⟩
  intro id status
  constructor
  · intro hmem
    have h1 : ServiceCall.UpdateStatus id status ∈ callsOf (Reconcile k).1 := by
      unfold callsOf
      exact List.mem_filterMap.mpr ⟨_, hmem, rfl⟩
    have h2 : (id, status) ∈ (callsOf (Reconcile k).1).filterMap ServiceCall.statusUpdate? :=
      List.mem_filterMap.mpr ⟨_, h1, rfl⟩
    rw [hcalls] at h2
    obtain ⟨kafka, hk, he⟩ := List.mem_map.mp h2
    have hk2 := List.mem_filter.mp hk
    simp only [Prod.mk.injEq] at he
    exact ⟨he.2.symm, kafka, hk2.1, he.1, hk2.2⟩
  · rintro ⟨hs, kafka, hk, hid, hspec⟩
    have h2 : (id, status) ∈ (callsOf (Reconcile k).1).filterMap ServiceCall.statusUpdate? := by
      rw [hcalls]
      exact List.mem_map.mpr ⟨kafka, List.mem_filter.mpr ⟨hk, hspec⟩, by rw [hid, hs]; rfl⟩
    obtain ⟨c, hc, hcs⟩ := List.mem_filterMap.mp h2
    unfold callsOf at hc
    obtain ⟨e, he, hec⟩ := List.mem_filterMap.mp hc
    cases e with
    | publish m => simp [Effect.call?] at hec
    | call c2 =>
      simp only [Effect.call?, Option.some.injEq] at hec
      subst hec
      cases c2 <;> simp [ServiceCall.statusUpdate?] at hcs
      obtain ⟨h3, h4⟩ := hcs
      rw [h3, h4] at he
      exact he

/-- The scenario of C12: of three instances that can be suspended, the one whose expiry date
is three days away, within the grace period of seven days, is the one whose suspension the
pass requests. -/
theorem suspending_requested_scenario :
    (callsOf (Reconcile (lifecycleManager scenarioKafkas)).1).filterMap
        ServiceCall.statusUpdate? = [("kafka-3", "suspending")] :=
  ((suspending_requested (lifecycleManager scenarioKafkas)
    (fun _ _ bm h => by cases h; constructor <;> decide)).1).trans (by decide)

/-! ## Lifecycle reconciler: the writes of a pass -/

theorem mem_callsOf_Reconcile (k : KafkaManager) (c : ServiceCall)
    (hc : .call c ∈ (Reconcile k).1) :
    c = .ListAll ∨ c = .CountByStatus kafkaMetricsStatuses ∨
      c = .FindStreamingUnitCountByClusterAndInstanceType ∨
      c = .DeprovisionKafkaForUsers k.accessControlListConfig.DenyList ∨
      c ∈ (tempMigrateEmptyBillingModels k k.kafkaService.ListAll.1).calls ∨
      c ∈ (reconcileKafkaExpiresAt k (backfilledKafkas k)).1 ∨
      c ∈ (suspendAllInGracePeriod k (backfilledKafkas k)).1 ∨ c = .DeprovisionExpiredKafkas := by
  have h1 : c ∈ callsOf (Reconcile k).1 := by
    unfold callsOf
    exact List.mem_filterMap.mpr ⟨_, hc, rfl⟩
  rw [callsOf_Reconcile] at h1
  rcases List.mem_append.mp h1 with h | h
  · rcases List.mem_append.mp h with h | h
    · rcases List.mem_append.mp h with h | h
      · rcases List.mem_append.mp h with h | h
        · rcases List.mem_append.mp h with h | h
          · simp only [List.mem_cons, List.mem_singleton, List.not_mem_nil, or_false] at h
            rcases h with h | h | h
            · exact Or.inl h
            · exact Or.inr (Or.inl h)
            · exact Or.inr (Or.inr (Or.inl h))
          · split_ifs at h
            · exact Or.inr (Or.inr (Or.inr (Or.inl (List.mem_singleton.mp h))))
            · simp at h
        · exact Or.inr (Or.inr (Or.inr (Or.inr (Or.inl h))))
      · exact Or.inr (Or.inr (Or.inr (Or.inr (Or.inr (Or.inl h)))))
    · exact Or.inr (Or.inr (Or.inr (Or.inr (Or.inr (Or.inr (Or.inl h))))))
  · exact Or.inr (Or.inr (Or.inr (Or.inr (Or.inr (Or.inr (Or.inr (List.mem_singleton.mp h)))))))

/-- C17: every call of a pass that writes to an instance is a status update to suspending
for an instance of the list, an `Update` of a record that is an instance of the list with
nothing changed but its two billing model tags, or an `Updates` whose field map holds the
single key `expires_at`, for such a record; the records handed over keep the cluster,
the instance type and the size of the instance that `ListAll` answered with. -/
theorem reconcile_writes (k : KafkaManager) (c : ServiceCall)
    (hc : .call c ∈ (Reconcile k).1) :
    (∀ id status, c = .UpdateStatus id status →
        status = "suspending" ∧ ∃ kafka ∈ k.kafkaService.ListAll.1, kafka.ID = id) ∧
      (∀ record, c = .Update record →
        ∃ kafka ∈ k.kafkaService.ListAll.1, Backfilled kafka record ∧
          record.ClusterID = kafka.ClusterID ∧ record.InstanceType = kafka.InstanceType ∧
          record.SizeId = kafka.SizeId ∧ record.Status = kafka.Status ∧
          record.ExpiresAt = kafka.ExpiresAt) ∧
      (∀ record fields, c = .Updates record fields →
        (∃ expiresAt, fields = [("expires_at", expiresAt)]) ∧
          ∃ kafka ∈ k.kafkaService.ListAll.1, Backfilled kafka record ∧
            record.ClusterID = kafka.ClusterID ∧ record.InstanceType = kafka.InstanceType ∧
            record.SizeId = kafka.SizeId) := by
  have hb := mem_of_forall₂_backfilled _ _
    (tempMigrateEmptyBillingModels_backfilled k k.kafkaService.ListAll.1)
  rcases mem_callsOf_Reconcile k c hc with h | h | h | h | h | h | h | h
  · subst h
    refine ⟨?_, ?_, ?_⟩ <;> intros <;> simp_all
  · subst h
    refine ⟨?_, ?_, ?_⟩ <;> intros <;> simp_all
  · subst h
    refine ⟨?_, ?_, ?_⟩ <;> intros <;> simp_all
  · subst h
    refine ⟨?_, ?_, ?_⟩ <;> intros <;> simp_all
  · rcases mem_calls_tempMigrateEmptyBillingModels k _ c h with
      h | ⟨_, _, h⟩ | ⟨kafka, hk, migrated, hm, h⟩
    · subst h
      refine ⟨?_, ?_, ?_⟩ <;> intros <;> simp_all
    · subst h
      refine ⟨?_, ?_, ?_⟩ <;> intros <;> simp_all
    · subst h
      refine ⟨?_, ?_, ?_⟩
      · intro id status he
        cases he
      · intro record he
        cases he
        have hf := Backfilled.frame kafka migrated hm
        exact ⟨kafka, hk, hm, hf.2.1, hf.2.2.2.2.1, hf.2.2.2.2.2.1, hf.2.2.2.2.2.2.1,
          hf.2.2.2.2.2.2.2⟩
      · intro record fields he
        cases he
  · obtain ⟨migrated, hm, h⟩ := mem_calls_reconcileKafkaExpiresAtFrom k _ [] c h
    rcases h with h | ⟨expiresAt, h⟩
    · subst h
      refine ⟨?_, ?_, ?_⟩ <;> intros <;> simp_all
    · subst h
      refine ⟨?_, ?_, ?_⟩
      · intro id status he
        cases he
      · intro record he
        cases he
      · intro record fields he
        cases he
        obtain ⟨kafka, hk, hbk⟩ := hb migrated hm
        have hf := Backfilled.frame kafka migrated hbk
        exact ⟨⟨expiresAt, rfl⟩, kafka, hk, hbk, hf.2.1, hf.2.2.2.2.1, hf.2.2.2.2.2.1⟩
  · obtain ⟨migrated, hm, h⟩ := mem_calls_suspendAllInGracePeriod k _ c h
    subst h
    refine ⟨?_, ?_, ?_⟩
    · intro id status he
      cases he
      obtain ⟨kafka, hk, hbk⟩ := hb migrated hm
      exact ⟨rfl, kafka, hk, (Backfilled.frame kafka migrated hbk).1.symm⟩
    · intro record he
      cases he
    · intro record fields he
      cases he
  · subst h
    refine ⟨?_, ?_, ?_⟩ <;> intros <;> simp_all

/-- The scenario of C17: the pass over the three instances requests the suspension of
`kafka-3`, an instance of the list, and persists `kafka-1` with its billing model tags set
and nothing else changed. -/
theorem reconcile_writes_scenario :
    Effect.call (.UpdateStatus "kafka-3" "suspending") ∈
        (Reconcile (lifecycleManager scenarioKafkas)).1 ∧
      (∃ kafka ∈ scenarioKafkas, kafka.ID = "kafka-3") ∧
      Effect.call (.Update (scenarioInstance "kafka-1" "org-1" "sub-1" "marketplace" noExpiry)) ∈
        (Reconcile (lifecycleManager scenarioKafkas)).1 ∧
      ∃ kafka ∈ scenarioKafkas,
        Backfilled kafka (scenarioInstance "kafka-1" "org-1" "sub-1" "marketplace" noExpiry) :=
  ⟨by decide,
    ((reconcile_writes (lifecycleManager scenarioKafkas) _
      (by decide : Effect.call (.UpdateStatus "kafka-3" "suspending") ∈ _)).1 _ _ rfl).2,
    by decide,
    (((reconcile_writes (lifecycleManager scenarioKafkas) _
      (by decide : Effect.call (.Update
        (scenarioInstance "kafka-1" "org-1" "sub-1" "marketplace" noExpiry)) ∈ _)).2.1 _
        rfl)).imp (fun _ h => ⟨h.1, h.2.1⟩)⟩

/-! ## Lifecycle reconciler: no step ends the pass -/

theorem head_calls_tempMigrateEmptyBillingModels (k : KafkaManager) (kafkas : List KafkaRequest) :
    ServiceCall.GetQuotaService k.kafkaConfig.QuotaType ∈
      (tempMigrateEmptyBillingModels k kafkas).calls := by
  unfold tempMigrateEmptyBillingModels
  split
  · simp
  · split <;> simp

theorem deprovisionExpired_not_mem_steps (k : KafkaManager) :
    ServiceCall.DeprovisionExpiredKafkas ∉
        (tempMigrateEmptyBillingModels k k.kafkaService.ListAll.1).calls ∧
      ServiceCall.DeprovisionExpiredKafkas ∉ (reconcileKafkaExpiresAt k (backfilledKafkas k)).1 ∧
      ServiceCall.DeprovisionExpiredKafkas ∉
        (suspendAllInGracePeriod k (backfilledKafkas k)).1 := by
  refine ⟨?_, ?_, ?_⟩
  · intro h
    rcases mem_calls_tempMigrateEmptyBillingModels k _ _ h with
      h | ⟨_, _, h⟩ | ⟨_, _, _, _, h⟩ <;> cases h
  · intro h
    obtain ⟨_, _, h | ⟨_, h⟩⟩ := mem_calls_reconcileKafkaExpiresAtFrom k _ [] _ h <;> cases h
  · intro h
    obtain ⟨_, _, h⟩ := mem_calls_suspendAllInGracePeriod k _ _ h
    cases h

/-- C13: whatever the collaborators answer, the calls of a pass are, in order, `ListAll`,
`CountByStatus`, the read of the usage snapshot, the deprovisioning of the denied owners
when the deny list is enabled and not empty, the calls of the backfill, which start with
`GetQuotaService`, the calls of the expiry reconciliation over all instances, the calls of
the suspension loop over all instances, and `DeprovisionExpiredKafkas`, which is the last
effect of the pass and is invoked once. -/
theorem reconcile_never_aborts (k : KafkaManager) :
    callsOf (Reconcile k).1 =
        [.ListAll, .CountByStatus kafkaMetricsStatuses,
            .FindStreamingUnitCountByClusterAndInstanceType] ++
          (if k.accessControlListConfig.EnableDenyList = true ∧
              k.accessControlListConfig.DenyList ≠ [] then
            [.DeprovisionKafkaForUsers k.accessControlListConfig.DenyList]
          else []) ++
          (tempMigrateEmptyBillingModels k k.kafkaService.ListAll.1).calls ++
          (reconcileKafkaExpiresAt k (backfilledKafkas k)).1 ++
          (suspendAllInGracePeriod k (backfilledKafkas k)).1 ++ [.DeprovisionExpiredKafkas] ∧
      List.Sublist
        [.ListAll, .CountByStatus kafkaMetricsStatuses,
          .FindStreamingUnitCountByClusterAndInstanceType,
          .GetQuotaService k.kafkaConfig.QuotaType, .DeprovisionExpiredKafkas]
        (callsOf (Reconcile k).1) ∧
      (Reconcile k).1.getLast? = some (.call .DeprovisionExpiredKafkas) ∧
      (callsOf (Reconcile k).1).count .DeprovisionExpiredKafkas = 1 := by
  refine ⟨callsOf_Reconcile k, ?_, ?_, ?_⟩
  · rw [callsOf_Reconcile]
    have h1 : List.Sublist [ServiceCall.GetQuotaService k.kafkaConfig.QuotaType]
        (tempMigrateEmptyBillingModels k k.kafkaService.ListAll.1).calls :=
      List.singleton_sublist.mpr (head_calls_tempMigrateEmptyBillingModels k _)
    have h2 := ((((List.Sublist.refl [ServiceCall.ListAll,
      ServiceCall.CountByStatus kafkaMetricsStatuses,
      ServiceCall.FindStreamingUnitCountByClusterAndInstanceType]).append
        (List.nil_sublist (if k.accessControlListConfig.EnableDenyList = true ∧
              k.accessControlListConfig.DenyList ≠ [] then
            [ServiceCall.DeprovisionKafkaForUsers k.accessControlListConfig.DenyList]
          else []))).append h1).append
        (List.nil_sublist (reconcileKafkaExpiresAt k (backfilledKafkas k)).1)).append
        (List.nil_sublist (suspendAllInGracePeriod k (backfilledKafkas k)).1)
    exact h2.append (List.Sublist.refl [ServiceCall.DeprovisionExpiredKafkas])
  · unfold Reconcile
    simp only [← List.cons_append]
    rw [List.getLast?_append]
    rfl
  · rw [callsOf_Reconcile]
    obtain ⟨h1, h2, h3⟩ := deprovisionExpired_not_mem_steps k
    simp only [List.count_append, List.count_eq_zero_of_not_mem h1,
      List.count_eq_zero_of_not_mem h2, List.count_eq_zero_of_not_mem h3]
    split_ifs <;> simp [kafkaMetricsStatuses]

/-! ## Lifecycle reconciler: the errors of a pass -/

theorem errors_Reconcile (k : KafkaManager) :
    (Reconcile k).2 =
      (match k.kafkaService.ListAll.2 with
        | some err => [ReconcileError.error err]
        | none => []) ++
        (setKafkaStatusCountMetric k).2.map ReconcileError.error ++
        (match (updateClusterStatusCapacityMetrics k).2 with
          | some capacityError => [ReconcileError.error capacityError]
          | none => []) ++
        (if k.accessControlListConfig.EnableDenyList = true then
          match (reconcileDeniedKafkaOwners k k.accessControlListConfig.DenyList).2 with
          | some err =>
            [ReconcileError.error (wrap err ("failed to deprovision kafka for denied owners " ++
              sliceString k.accessControlListConfig.DenyList))]
          | none => []
        else []) ++
        (if (tempMigrateEmptyBillingModels k k.kafkaService.ListAll.1).svcErrors ≠ [] then
          [ReconcileError.wrapErrorList
            (tempMigrateEmptyBillingModels k k.kafkaService.ListAll.1).svcErrors
            "failed to reconcile billing models for kafka instances"]
        else []) ++
        (if (reconcileKafkaExpiresAt k (backfilledKafkas k)).2 ≠ [] then
          [ReconcileError.wrapErrorList (reconcileKafkaExpiresAt k (backfilledKafkas k)).2
            "failed to update expires_at for kafka instances"]
        else []) ++
        (suspendAllInGracePeriod k (backfilledKafkas k)).2 ++
        (match k.kafkaService.DeprovisionExpiredKafkas with
          | some err =>
            [ReconcileError.error (wrap err "failed to deprovision expired Kafka instances")]
          | none => []) := by
  unfold Reconcile backfilledKafkas
  cases k.accessControlListConfig.EnableDenyList <;> simp

theorem mem_errors_suspendAllInGracePeriod (k : KafkaManager) (kafkas : List KafkaRequest) :
    ∀ kafka ∈ kafkas, ∀ e ∈ (suspendInGracePeriod k kafka).2,
      e ∈ (suspendAllInGracePeriod k kafkas).2 := by
  induction kafkas with
  | nil => simp
  | cons x rest ih =>
    intro kafka hk e he
    simp only [suspendAllInGracePeriod, List.mem_append]
    rcases List.mem_cons.mp hk with h | h
    · subst h
      exact Or.inl he
    · exact Or.inr (ih kafka h e he)

/-- C16: the list of errors a pass returns is empty exactly when `ListAll` and
`CountByStatus` answer without error, the capacity step returns no error, the
deprovisioning of the denied owners, where enabled, returns none, the backfill and the
expiry reconciliation return empty error lists, no suspension appends an error and
`DeprovisionExpiredKafkas` answers without error; and whenever one of these steps reports an
error the list holds an error for that step: the error itself for `ListAll` and for the
capacity step, the error wrapped with the message of the step for `CountByStatus`, the deny
list and the deprovisioning of expired instances, the whole error list of the step wrapped
with its message for the backfill and the expiry reconciliation, and every single error of
the suspension loop. -/
theorem reconcile_errors (k : KafkaManager) :
    ((Reconcile k).2 = [] ↔
        k.kafkaService.ListAll.2 = none ∧
        (∃ counters, k.kafkaService.CountByStatus kafkaMetricsStatuses = .ok counters) ∧
        (updateClusterStatusCapacityMetrics k).2 = none ∧
        (k.accessControlListConfig.EnableDenyList = true →
          (reconcileDeniedKafkaOwners k k.accessControlListConfig.DenyList).2 = none) ∧
        (tempMigrateEmptyBillingModels k k.kafkaService.ListAll.1).svcErrors = [] ∧
        (reconcileKafkaExpiresAt k (backfilledKafkas k)).2 = [] ∧
        (suspendAllInGracePeriod k (backfilledKafkas k)).2 = [] ∧
        k.kafkaService.DeprovisionExpiredKafkas = none) ∧
      (∀ err, k.kafkaService.ListAll.2 = some err → .error err ∈ (Reconcile k).2) ∧
      (∀ err, k.kafkaService.CountByStatus kafkaMetricsStatuses = .error err →
        .error (wrap err "failed to count Kafkas by status") ∈ (Reconcile k).2) ∧
      (∀ err, (updateClusterStatusCapacityMetrics k).2 = some err →
        .error err ∈ (Reconcile k).2) ∧
      (∀ err, k.accessControlListConfig.EnableDenyList = true →
        k.accessControlListConfig.DenyList ≠ [] →
        k.kafkaService.DeprovisionKafkaForUsers k.accessControlListConfig.DenyList = some err →
        .error (wrap err ("failed to deprovision kafka for denied owners " ++
          sliceString k.accessControlListConfig.DenyList)) ∈ (Reconcile k).2) ∧
      ((tempMigrateEmptyBillingModels k k.kafkaService.ListAll.1).svcErrors ≠ [] →
        .wrapErrorList (tempMigrateEmptyBillingModels k k.kafkaService.ListAll.1).svcErrors
          "failed to reconcile billing models for kafka instances" ∈ (Reconcile k).2) ∧
      ((reconcileKafkaExpiresAt k (backfilledKafkas k)).2 ≠ [] →
        .wrapErrorList (reconcileKafkaExpiresAt k (backfilledKafkas k)).2
          "failed to update expires_at for kafka instances" ∈ (Reconcile k).2) ∧
      (∀ kafka ∈ backfilledKafkas k, ∀ e ∈ (suspendInGracePeriod k kafka).2,
        e ∈ (Reconcile k).2) ∧
      (∀ err, k.kafkaService.DeprovisionExpiredKafkas = some err →
        .error (wrap err "failed to deprovision expired Kafka instances") ∈
          (Reconcile k).2) := by
  rw [errors_Reconcile]
  refine ⟨?_, ?_, ?_, ?_, ?_, ?_, ?_, ?_, ?_⟩
  · simp only [List.append_eq_nil, List.map_eq_nil_iff]
    have h1 : (match k.kafkaService.ListAll.2 with
        | some err => [ReconcileError.error err]
        | none => []) = [] ↔ k.kafkaService.ListAll.2 = none := by
      cases k.kafkaService.ListAll.2 <;> simp
    have h2 : (setKafkaStatusCountMetric k).2 = [] ↔
        ∃ counters, k.kafkaService.CountByStatus kafkaMetricsStatuses = .ok counters := by
      unfold setKafkaStatusCountMetric
      cases k.kafkaService.CountByStatus kafkaMetricsStatuses <;> simp
    have h3 : (match (updateClusterStatusCapacityMetrics k).2 with
        | some capacityError => [ReconcileError.error capacityError]
        | none => []) = [] ↔ (updateClusterStatusCapacityMetrics k).2 = none := by
      cases (updateClusterStatusCapacityMetrics k).2 <;> simp
    have h4 : (if k.accessControlListConfig.EnableDenyList = true then
          match (reconcileDeniedKafkaOwners k k.accessControlListConfig.DenyList).2 with
          | some err =>
            [ReconcileError.error (wrap err ("failed to deprovision kafka for denied owners " ++
              sliceString k.accessControlListConfig.DenyList))]
          | none => []
        else []) = [] ↔ (k.accessControlListConfig.EnableDenyList = true →
          (reconcileDeniedKafkaOwners k k.accessControlListConfig.DenyList).2 = none) := by
      cases k.accessControlListConfig.EnableDenyList
      · simp
      · cases (reconcileDeniedKafkaOwners k k.accessControlListConfig.DenyList).2 <;> simp
    have h5 : (match k.kafkaService.DeprovisionExpiredKafkas with
        | some err =>
          [ReconcileError.error (wrap err "failed to deprovision expired Kafka instances")]
        | none => []) = [] ↔ k.kafkaService.DeprovisionExpiredKafkas = none := by
      cases k.kafkaService.DeprovisionExpiredKafkas <;> simp
    rw [h1, h2, h3, h4, h5]
    simp only [ite_eq_right_iff, ne_eq, List.cons_ne_nil, imp_false, not_not]
    tauto
  · intro err h
    simp [h]
  · intro err h
    simp [setKafkaStatusCountMetric, h]
  · intro err h
    simp [h]
  · intro err he hd h
    have : (reconcileDeniedKafkaOwners k k.accessControlListConfig.DenyList).2 = some err := by
      unfold reconcileDeniedKafkaOwners
      cases hl : k.accessControlListConfig.DenyList with
      | nil => exact absurd hl hd
      | cons a l =>
        rw [hl] at h
        simp [h]
    simp [he, this]
  · intro h
    simp [h]
  · intro h
    simp [h]
  · intro kafka hk e he
    have := mem_errors_suspendAllInGracePeriod k _ kafka hk e he
    simp [this]
  · intro err h
    simp [h]

/-- The scenarios of C16: a pass all of whose calls succeed returns no error; a pass in
which `ListAll` answers with an error, the status update is refused and the deprovisioning
of the expired instances fails returns these three errors. -/
theorem reconcile_errors_scenario :
    (Reconcile (lifecycleManager scenarioKafkas)).2 = [] ∧
      ReconcileError.error "list failed" ∈ (Reconcile (failingManager scenarioKafkas)).2 ∧
      ReconcileError.error "failed to suspend expired Kafka instances: update refused" ∈
        (Reconcile (failingManager scenarioKafkas)).2 ∧
      ReconcileError.error
          "failed to deprovision expired Kafka instances: deprovisioning failed" ∈
        (Reconcile (failingManager scenarioKafkas)).2 :=
  ⟨(reconcile_errors (lifecycleManager scenarioKafkas)).1.mpr
      ⟨rfl, ⟨[], rfl⟩, by decide, by decide, by decide, by decide, by decide, rfl⟩,
    (reconcile_errors (failingManager scenarioKafkas)).2.1 _ rfl,
    (reconcile_errors (failingManager scenarioKafkas)).2.2.2.2.2.2.2.1
      (scenarioInstance "kafka-3" "org-2" "sub-9" "standard" { Time := 1700259200, Valid := true })
      (by decide) _ (by decide),
    (reconcile_errors (failingManager scenarioKafkas)).2.2.2.2.2.2.2.2 _ rfl⟩

/-! ## Metrics emission: a failed regional limit lookup -/

theorem publishDynamicCapacity_append_error (k : KafkaManager)
    (pre post : List KafkaStreamingUnitCountPerCluster) (r : KafkaStreamingUnitCountPerCluster)
    (err : String) (hpre : (publishDynamicCapacity k pre).2 = none)
    (hs : r.Status ≠ ClusterAccepted) (ht : r.ClusterType ≠ EnterpriseDataPlaneClusterType)
    (hr : calculateAvailableAndMaxCapacityForDynamicScaling k r = .error err) :
    publishDynamicCapacity k (pre ++ r :: post) = ((publishDynamicCapacity k pre).1, some err) := by
  induction pre with
  | nil =>
    simp only [List.nil_append]
    unfold publishDynamicCapacity
    simp [hs, ht, hr]
  | cons x pre ih =>
    rw [List.cons_append]
    unfold publishDynamicCapacity at hpre ⊢
    split_ifs at hpre ⊢
    · cases hx : calculateAvailableAndMaxCapacityForDynamicScaling k x with
      | error e => simp [hx] at hpre
      | ok row =>
        simp only [hx] at hpre ⊢
        rw [ih hpre]
    · exact ih hpre

theorem calculateDynamic_error_of_lookup (k : KafkaManager)
    (r : KafkaStreamingUnitCountPerCluster) (e : String)
    (h : k.cloudProviders.GetInstanceLimit r.Region r.CloudProvider r.InstanceType = .error e) :
    calculateAvailableAndMaxCapacityForDynamicScaling k r =
      .error ("failed to get instance limit for " ++ r.Region ++ " on " ++ r.CloudProvider ++
        " and instance type " ++ r.InstanceType ++ ": " ++ e) := by
  unfold calculateAvailableAndMaxCapacityForDynamicScaling getRegionInstanceTypeLimit
  simp [h]

/-- C15, amended: under auto scaling, when the regional limit lookup fails for a usage row
that is neither accepted nor of an enterprise cluster, and no lookup failed for the rows
before it, `updateClusterStatusCapacityMetrics` publishes the used gauges of the snapshot
and the available and maximum gauges of the rows before that row, publishes nothing for
that row, for the rows after it, for the manual clusters or for the enterprise rows, and
returns the error of the lookup. -/
theorem capacity_step_ends_at_lookup_failure (k : KafkaManager)
    (pre post : List KafkaStreamingUnitCountPerCluster) (r : KafkaStreamingUnitCountPerCluster)
    (e : String)
    (hfind : k.clusterService.FindStreamingUnitCountByClusterAndInstanceType =
      .ok (pre ++ r :: post))
    (hauto : k.dataplaneClusterConfig.IsDataPlaneAutoScalingEnabled = true)
    (hpre : (publishDynamicCapacity k pre).2 = none)
    (hs : r.Status ≠ ClusterAccepted) (ht : r.ClusterType ≠ EnterpriseDataPlaneClusterType)
    (hr : k.cloudProviders.GetInstanceLimit r.Region r.CloudProvider r.InstanceType =
      .error e) :
    updateClusterStatusCapacityMetrics k =
      (publishUsedCapacity (pre ++ r :: post) ++ (publishDynamicCapacity k pre).1,
        some ("failed to get instance limit for " ++ r.Region ++ " on " ++ r.CloudProvider ++
          " and instance type " ++ r.InstanceType ++ ": " ++ e)) := by
  unfold updateClusterStatusCapacityMetrics publishCapacityMetrics
  simp only [hfind, hauto, if_true]
  rw [publishDynamicCapacity_append_error k pre post r _ hpre hs ht
    (calculateDynamic_error_of_lookup k r e hr)]

/-- The scenario of C15, amended: the lookup fails for the second of three rows, so the
used gauges of the three rows and the available and maximum gauges of the first row are
published, nothing else. -/
theorem capacity_step_ends_at_lookup_failure_scenario :
    updateClusterStatusCapacityMetrics
        (unknownRegionManager
          [scenarioRow "c2" "standard" 2 10,
            { scenarioRow "c1" "standard" 1 10 with Region := "eu-west-1" },
            scenarioRow "c4" "standard" 3 10]) =
      ([.ClusterStatusCapacityUsedCount "aws" "us-east-1" "standard" "c2" 2,
          .ClusterStatusCapacityUsedCount "aws" "eu-west-1" "standard" "c1" 1,
          .ClusterStatusCapacityUsedCount "aws" "us-east-1" "standard" "c4" 3,
          .ClusterStatusCapacityAvailableCount "aws" "us-east-1" "standard" "c2" 8,
          .ClusterStatusCapacityMaxCount "aws" "us-east-1" "standard" "c2" 10],
        some ("failed to get instance limit for eu-west-1 on aws and instance type standard" ++
          ": unknown region")) :=
  (capacity_step_ends_at_lookup_failure
    (unknownRegionManager
      [scenarioRow "c2" "standard" 2 10,
        { scenarioRow "c1" "standard" 1 10 with Region := "eu-west-1" },
        scenarioRow "c4" "standard" 3 10])
    [scenarioRow "c2" "standard" 2 10] [scenarioRow "c4" "standard" 3 10]
    { scenarioRow "c1" "standard" 1 10 with Region := "eu-west-1" } "unknown region"
    rfl rfl (by decide) (by decide) (by decide) rfl).trans (by decide)

/-- C15 fails as stated: under auto scaling, with a snapshot whose first row belongs to a
region the lookup fails for, the step publishes the three used gauges and returns the
error; the available and maximum gauges of the second row and of the enterprise row are
not published. -/
theorem capacity_gauges_missing_after_lookup_failure :
    updateClusterStatusCapacityMetrics (unknownRegionManager unknownRegionUsage) =
        ([.ClusterStatusCapacityUsedCount "aws" "eu-west-1" "standard" "c1" 1,
            .ClusterStatusCapacityUsedCount "aws" "us-east-1" "standard" "c2" 2,
            .ClusterStatusCapacityUsedCount "aws" "us-east-1" "standard" "c3" 1],
          some ("failed to get instance limit for eu-west-1 on aws and instance type " ++
            "standard: unknown region")) ∧
      Metric.ClusterStatusCapacityAvailableCount "aws" "us-east-1" "standard" "c2" 8 ∉
        (updateClusterStatusCapacityMetrics (unknownRegionManager unknownRegionUsage)).1 ∧
      Metric.ClusterStatusCapacityMaxCount "aws" "us-east-1" "standard" "c2" 10 ∉
        (updateClusterStatusCapacityMetrics (unknownRegionManager unknownRegionUsage)).1 ∧
      Metric.ClusterStatusCapacityAvailableCount "aws" "us-east-1" "standard" "c3" 4 ∉
        (updateClusterStatusCapacityMetrics (unknownRegionManager unknownRegionUsage)).1 ∧
      Metric.ClusterStatusCapacityMaxCount "aws" "us-east-1" "standard" "c3" 5 ∉
        (updateClusterStatusCapacityMetrics (unknownRegionManager unknownRegionUsage)).1 := by
  decide

/-! ## Expiry reconciliation: the entitlement cache -/

/-- C18 at the failing input: the instances `kafka-a`, of organisation
`13640203-marketplace` with billing model `aws`, and `kafka-b`, of organisation `13640203`
with billing model `marketplace-aws`, differ in both and share the cache key
`13640203-marketplace-aws`.  Reconciled after `kafka-a`, whose entitlement is active,
`kafka-b` triggers no lookup and keeps its missing expiry date; reconciled alone, its
entitlement is looked up, found inactive, and its expiry date is set. -/
theorem entitlement_cache_key_collision :
    reconcileKafkaExpiresAt collidingManager
          [scenarioInstance "kafka-a" "13640203-marketplace" "sub-8" "aws" noExpiry,
            scenarioInstance "kafka-b" "13640203" "sub-9" "marketplace-aws" noExpiry] =
        ([.IsQuotaEntitlementActive
            (scenarioInstance "kafka-a" "13640203-marketplace" "sub-8" "aws" noExpiry)],
          []) ∧
      reconcileKafkaExpiresAt collidingManager
          [scenarioInstance "kafka-b" "13640203" "sub-9" "marketplace-aws" noExpiry] =
        ([.IsQuotaEntitlementActive
            (scenarioInstance "kafka-b" "13640203" "sub-9" "marketplace-aws" noExpiry),
            .Updates (scenarioInstance "kafka-b" "13640203" "sub-9" "marketplace-aws" noExpiry)
              [("expires_at", { Time := 1700604800, Valid := true })]],
          []) := by
  decide

/-! ## Expiry reconciliation: idempotence -/

theorem applyCall_frame (kafka : KafkaRequest) (c : ServiceCall) :
    applyCall kafka c = { kafka with ExpiresAt := (applyCall kafka c).ExpiresAt } := by
  unfold applyCall
  split
  · split_ifs
    · split <;> rfl
    · rfl
  · rfl

theorem applyUpdates_frame (calls : List ServiceCall) (kafka : KafkaRequest) :
    applyUpdates calls kafka =
      { kafka with ExpiresAt := (applyUpdates calls kafka).ExpiresAt } := by
  unfold applyUpdates
  induction calls generalizing kafka with
  | nil => rfl
  | cons c calls ih =>
    simp only [List.foldl_cons]
    rw [ih (applyCall kafka c)]
    rw [applyCall_frame kafka c]

theorem applyUpdates_append (a b : List ServiceCall) (kafka : KafkaRequest) :
    applyUpdates (a ++ b) kafka = applyUpdates b (applyUpdates a kafka) := by
  simp [applyUpdates, List.foldl_append]

theorem applyUpdates_of_no_update (calls : List ServiceCall) (kafka : KafkaRequest)
    (h : ∀ target fields, ServiceCall.Updates target fields ∈ calls → target.ID ≠ kafka.ID) :
    applyUpdates calls kafka = kafka := by
  unfold applyUpdates
  induction calls with
  | nil => rfl
  | cons c calls ih =>
    simp only [List.foldl_cons]
    have hc : applyCall kafka c = kafka := by
      unfold applyCall
      split
      · rename_i target fields
        rw [if_neg (h target fields (List.mem_cons_self _ _))]
      · rfl
    rw [hc]
    exact ih (fun t f hm => h t f (List.mem_cons_of_mem _ hm))

/-- Once the update that `updateExpiresAtBasedOnQuotaEntitlement` issues for an instance has
been applied to it, the same entitlement status asks for no further update. -/
theorem updateExpiresAt_settled (k : KafkaManager) (kafka : KafkaRequest) (active : Bool) :
    (updateExpiresAtBasedOnQuotaEntitlement k
      (applyUpdates (updateExpiresAtBasedOnQuotaEntitlement k kafka active).1 kafka)
      active).1 = [] := by
  cases active
  · cases hv : kafka.ExpiresAt.Valid
    · cases hb : k.kafkaConfig.GetBillingModelByID kafka.InstanceType
          kafka.ActualKafkaBillingModel with
      | error err =>
        simp [updateExpiresAtBasedOnQuotaEntitlement, hv, hb, applyUpdates]
      | ok bm =>
        simp [updateExpiresAtBasedOnQuotaEntitlement, updateKafkaExpirationDate, hv, hb,
          applyUpdates, applyCall, List.lookup]
    · simp [updateExpiresAtBasedOnQuotaEntitlement, hv, applyUpdates]
  · cases hv : kafka.ExpiresAt.Valid
    · simp [updateExpiresAtBasedOnQuotaEntitlement, hv, applyUpdates]
    · simp [updateExpiresAtBasedOnQuotaEntitlement, updateKafkaExpirationDate, hv,
        applyUpdates, applyCall, List.lookup]

theorem filter_isUpdates_updateExpiresAt (k : KafkaManager) (kafka : KafkaRequest)
    (active : Bool) :
    (updateExpiresAtBasedOnQuotaEntitlement k kafka active).1.filter ServiceCall.isUpdates =
      (updateExpiresAtBasedOnQuotaEntitlement k kafka active).1 := by
  rw [List.filter_eq_self]
  intro c hc
  obtain ⟨_, h⟩ := mem_calls_updateExpiresAtBasedOnQuotaEntitlement k kafka active c hc
  subst h
  rfl

/-- The partial updates of one turn of the loop are those the resolved entitlement status
asks for. -/
theorem filter_isUpdates_step (k : KafkaManager) (cache : List (String × Bool))
    (kafka : KafkaRequest) :
    (reconcileKafkaExpiresAtStep k cache kafka).calls.filter ServiceCall.isUpdates =
      match resolvedEntitlement k cache kafka with
      | some active => (updateExpiresAtBasedOnQuotaEntitlement k kafka active).1
      | none => [] := by
  unfold reconcileKafkaExpiresAtStep resolvedEntitlement
  by_cases hd : kafka.Status ∈ k.declarations.GetDeletingStatuses
  · simp [hd]
  · simp only [hd, if_false]
    cases hsz : k.kafkaConfig.GetKafkaInstanceSize kafka.InstanceType kafka.SizeId with
    | error err => simp
    | ok instanceSize =>
      by_cases hl : instanceSize.LifespanSeconds = none
      · simp only [hl, if_true]
        cases hc : List.lookup (kafka.OrganisationId ++ "-" ++ kafka.ActualKafkaBillingModel)
            cache with
        | some active =>
          simp only []
          exact filter_isUpdates_updateExpiresAt k kafka active
        | none =>
          simp only []
          cases hq : k.kafkaService.IsQuotaEntitlementActive kafka with
          | error err => simp [ServiceCall.isUpdates]
          | ok isActive =>
            simp only [List.filter_cons, ServiceCall.isUpdates]
            exact filter_isUpdates_updateExpiresAt k kafka isActive
      · simp [hl]

theorem resolvedEntitlement_congr (k : KafkaManager) (cache : List (String × Bool))
    (kafka : KafkaRequest) (expiresAt : NullTime)
    (hent : k.kafkaService.IsQuotaEntitlementActive { kafka with ExpiresAt := expiresAt } =
      k.kafkaService.IsQuotaEntitlementActive kafka) :
    resolvedEntitlement k cache { kafka with ExpiresAt := expiresAt } =
      resolvedEntitlement k cache kafka := by
  unfold resolvedEntitlement
  simp only [hent]

theorem step_cache_congr (k : KafkaManager) (cache : List (String × Bool))
    (kafka : KafkaRequest) (expiresAt : NullTime)
    (hent : k.kafkaService.IsQuotaEntitlementActive { kafka with ExpiresAt := expiresAt } =
      k.kafkaService.IsQuotaEntitlementActive kafka) :
    (reconcileKafkaExpiresAtStep k cache { kafka with ExpiresAt := expiresAt }).cache =
      (reconcileKafkaExpiresAtStep k cache kafka).cache := by
  unfold reconcileKafkaExpiresAtStep
  simp only [hent]
  by_cases hd : kafka.Status ∈ k.declarations.GetDeletingStatuses
  · simp [hd]
  · simp only [hd, if_false]
    cases hsz : k.kafkaConfig.GetKafkaInstanceSize kafka.InstanceType kafka.SizeId with
    | error err => rfl
    | ok instanceSize =>
      by_cases hl : instanceSize.LifespanSeconds = none
      · simp only [hl, if_true]
        cases hc : List.lookup (kafka.OrganisationId ++ "-" ++ kafka.ActualKafkaBillingModel)
            cache with
        | some active => rfl
        | none =>
          simp only []
          cases hq : k.kafkaService.IsQuotaEntitlementActive kafka with
          | error err => rfl
          | ok isActive => rfl
      · simp [hl]

theorem applyUpdates_filter (calls : List ServiceCall) (kafka : KafkaRequest) :
    applyUpdates (calls.filter ServiceCall.isUpdates) kafka = applyUpdates calls kafka := by
  unfold applyUpdates
  induction calls generalizing kafka with
  | nil => rfl
  | cons c calls ih =>
    rw [List.filter_cons]
    cases hc : c.isUpdates
    · have : applyCall kafka c = kafka := by
        cases c <;> simp [ServiceCall.isUpdates] at hc <;> rfl
      simp only [List.foldl_cons, Bool.false_eq_true, if_false, this]
      exact ih kafka
    · simp only [List.foldl_cons, if_true]
      exact ih _

/-- The instance a turn of the loop leaves once its update has been applied. -/
theorem step_settled (k : KafkaManager) (cache : List (String × Bool)) (kafka : KafkaRequest)
    (hent : ∀ expiresAt,
      k.kafkaService.IsQuotaEntitlementActive { kafka with ExpiresAt := expiresAt } =
        k.kafkaService.IsQuotaEntitlementActive kafka) :
    (reconcileKafkaExpiresAtStep k cache
        (applyUpdates (reconcileKafkaExpiresAtStep k cache kafka).calls kafka)).calls.filter
        ServiceCall.isUpdates = [] ∧
      (reconcileKafkaExpiresAtStep k cache
        (applyUpdates (reconcileKafkaExpiresAtStep k cache kafka).calls kafka)).cache =
        (reconcileKafkaExpiresAtStep k cache kafka).cache := by
  have hf := applyUpdates_frame (reconcileKafkaExpiresAtStep k cache kafka).calls kafka
  constructor
  · rw [filter_isUpdates_step, hf, resolvedEntitlement_congr k cache kafka _ (hent _), ← hf]
    cases hr : resolvedEntitlement k cache kafka with
    | none => rfl
    | some active =>
      simp only []
      have hu : applyUpdates (reconcileKafkaExpiresAtStep k cache kafka).calls kafka =
          applyUpdates (updateExpiresAtBasedOnQuotaEntitlement k kafka active).1 kafka := by
        have h1 := filter_isUpdates_step k cache kafka
        rw [hr] at h1
        simp only [] at h1
        rw [← h1, applyUpdates_filter]
      rw [hu]
      exact updateExpiresAt_settled k kafka active
  · rw [hf, step_cache_congr k cache kafka _ (hent _)]

theorem applyUpdates_ID (calls : List ServiceCall) (kafka : KafkaRequest) :
    (applyUpdates calls kafka).ID = kafka.ID := by
  rw [applyUpdates_frame]

theorem reconcileKafkaExpiresAtFrom_settled (k : KafkaManager)
    (hent : ∀ kafka expiresAt,
      k.kafkaService.IsQuotaEntitlementActive { kafka with ExpiresAt := expiresAt } =
        k.kafkaService.IsQuotaEntitlementActive kafka)
    (kafkas : List KafkaRequest) (hids : (kafkas.map (fun kafka => kafka.ID)).Nodup) :
    ∀ cache : List (String × Bool),
      (reconcileKafkaExpiresAtFrom k cache
        (kafkas.map (applyUpdates (reconcileKafkaExpiresAtFrom k cache kafkas).1))).1.filter
        ServiceCall.isUpdates = [] := by
  induction kafkas with
  | nil => intro cache; rfl
  | cons x rest ih =>
    intro cache
    rw [List.map_cons, List.nodup_cons] at hids
    obtain ⟨hx, hrest⟩ := hids
    have hx2 : ∀ y ∈ rest, y.ID ≠ x.ID := by
      intro y hy h
      exact hx (List.mem_map.mpr ⟨y, hy, h⟩)
    simp only [reconcileKafkaExpiresAtFrom, List.map_cons]
    have h1 : applyUpdates ((reconcileKafkaExpiresAtStep k cache x).calls ++
          (reconcileKafkaExpiresAtFrom k (reconcileKafkaExpiresAtStep k cache x).cache rest).1) x =
        applyUpdates (reconcileKafkaExpiresAtStep k cache x).calls x := by
      rw [applyUpdates_append]
      apply applyUpdates_of_no_update
      intro target fields hm
      obtain ⟨y, hy, h⟩ := mem_calls_reconcileKafkaExpiresAtFrom k rest _ _ hm
      rcases h with h | ⟨_, h⟩
      · cases h
      · cases h
        rw [applyUpdates_ID]
        exact hx2 _ hy
    have h2 : rest.map (applyUpdates ((reconcileKafkaExpiresAtStep k cache x).calls ++
          (reconcileKafkaExpiresAtFrom k (reconcileKafkaExpiresAtStep k cache x).cache rest).1)) =
        rest.map (applyUpdates
          (reconcileKafkaExpiresAtFrom k (reconcileKafkaExpiresAtStep k cache x).cache rest).1) := by
      apply List.map_congr_left
      intro y hy
      rw [applyUpdates_append]
      congr 1
      apply applyUpdates_of_no_update
      intro target fields hm
      rcases mem_calls_reconcileKafkaExpiresAtStep k cache x _ hm with h | ⟨_, h⟩
      · cases h
      · cases h
        exact fun h => hx2 y hy h.symm
    rw [h1, h2]
    obtain ⟨h3, h4⟩ := step_settled k cache x (hent x)
    rw [List.filter_append, h3, h4, ih hrest]
    rfl

/-- C11: for instances with pairwise distinct identifiers and an entitlement lookup whose
answer for an instance does not depend on its expiry date, once `reconcileKafkaExpiresAt`
has run and the `expires_at` updates it issued have been applied to the instances, a second
run over the instances issues no `expires_at` update. -/
theorem expiry_reconciliation_idempotent (k : KafkaManager) (kafkas : List KafkaRequest)
    (hids : (kafkas.map (fun kafka => kafka.ID)).Nodup)
    (hent : ∀ kafka expiresAt,
      k.kafkaService.IsQuotaEntitlementActive { kafka with ExpiresAt := expiresAt } =
        k.kafkaService.IsQuotaEntitlementActive kafka) :
    (reconcileKafkaExpiresAt k
      (kafkas.map (applyUpdates (reconcileKafkaExpiresAt k kafkas).1))).1.filter
      ServiceCall.isUpdates = [] :=
  reconcileKafkaExpiresAtFrom_settled k hent kafkas hids []

/-- The scenario of C11: the first run clears the expiry date of the instance whose
entitlement is active and sets that of the instance whose entitlement is not; the second
run, over the instances so updated, issues no update. -/
theorem expiry_reconciliation_idempotent_scenario :
    (reconcileKafkaExpiresAt (lifecycleManager []) expiringKafkas).1.filter
          ServiceCall.isUpdates =
        [.Updates
            (scenarioInstance "kafka-1" "org-1" "sub-1" "standard"
              { Time := 1700259200, Valid := true })
            [("expires_at", noExpiry)],
          .Updates (scenarioInstance "kafka-2" "org-2" "sub-9" "standard" noExpiry)
            [("expires_at", { Time := 1700604800, Valid := true })]] ∧
      expiringKafkas.map
          (applyUpdates (reconcileKafkaExpiresAt (lifecycleManager []) expiringKafkas).1) =
        [scenarioInstance "kafka-1" "org-1" "sub-1" "standard" noExpiry,
          scenarioInstance "kafka-2" "org-2" "sub-9" "standard"
            { Time := 1700604800, Valid := true }] ∧
      (reconcileKafkaExpiresAt (lifecycleManager [])
        (expiringKafkas.map
          (applyUpdates (reconcileKafkaExpiresAt (lifecycleManager []) expiringKafkas).1))).1.filter
        ServiceCall.isUpdates = [] :=
  ⟨by decide, by decide,
    expiry_reconciliation_idempotent (lifecycleManager []) expiringKafkas (by decide)
      (fun _ _ => rfl)⟩

/-! ## Lifecycle reconciler: one instance failing -/

theorem migrateEmptyBillingModels_append (k : KafkaManager) (ams : AMSQuotaService)
    (a b : List KafkaRequest) :
    (migrateEmptyBillingModels k ams (a ++ b)).calls =
        (migrateEmptyBillingModels k ams a).calls ++ (migrateEmptyBillingModels k ams b).calls ∧
      (migrateEmptyBillingModels k ams (a ++ b)).svcErrors =
        (migrateEmptyBillingModels k ams a).svcErrors ++
          (migrateEmptyBillingModels k ams b).svcErrors := by
  induction a with
  | nil => simp [migrateEmptyBillingModels]
  | cons x a ih =>
    simp [migrateEmptyBillingModels, ih.1, ih.2, List.append_assoc]

theorem suspendAllInGracePeriod_append (k : KafkaManager) (a b : List KafkaRequest) :
    (suspendAllInGracePeriod k (a ++ b)).1 =
        (suspendAllInGracePeriod k a).1 ++ (suspendAllInGracePeriod k b).1 ∧
      (suspendAllInGracePeriod k (a ++ b)).2 =
        (suspendAllInGracePeriod k a).2 ++ (suspendAllInGracePeriod k b).2 := by
  induction a with
  | nil => simp [suspendAllInGracePeriod]
  | cons x a ih =>
    simp [suspendAllInGracePeriod, ih.1, ih.2, List.append_assoc]

theorem reconcileKafkaExpiresAtFrom_append (k : KafkaManager) (a b : List KafkaRequest) :
    ∀ cache : List (String × Bool),
      (reconcileKafkaExpiresAtFrom k cache (a ++ b)).1 =
          (reconcileKafkaExpiresAtFrom k cache a).1 ++
            (reconcileKafkaExpiresAtFrom k (cacheAfter k cache a) b).1 ∧
        (reconcileKafkaExpiresAtFrom k cache (a ++ b)).2 =
          (reconcileKafkaExpiresAtFrom k cache a).2 ++
            (reconcileKafkaExpiresAtFrom k (cacheAfter k cache a) b).2 := by
  induction a with
  | nil => intro cache; simp [reconcileKafkaExpiresAtFrom, cacheAfter]
  | cons x a ih =>
    intro cache
    simp [reconcileKafkaExpiresAtFrom, cacheAfter,
      (ih (reconcileKafkaExpiresAtStep k cache x).cache).1,
      (ih (reconcileKafkaExpiresAtStep k cache x).cache).2, List.append_assoc]

theorem step_cache_eq_spec (k : KafkaManager) (cache : List (String × Bool))
    (kafka : KafkaRequest) :
    (reconcileKafkaExpiresAtStep k cache kafka).cache = specCacheAfter k cache kafka := by
  unfold reconcileKafkaExpiresAtStep specCacheAfter resolvedEntitlement
  by_cases hd : kafka.Status ∈ k.declarations.GetDeletingStatuses
  · simp only [hd, if_true]
    split <;> rfl
  · simp only [hd, if_false]
    cases hsz : k.kafkaConfig.GetKafkaInstanceSize kafka.InstanceType kafka.SizeId with
    | error err =>
      simp only []
      split <;> rfl
    | ok instanceSize =>
      by_cases hl : instanceSize.LifespanSeconds = none
      · simp only [hl, if_true]
        cases hc : List.lookup (kafka.OrganisationId ++ "-" ++ kafka.ActualKafkaBillingModel)
            cache with
        | some active => rfl
        | none =>
          simp only []
          cases hq : k.kafkaService.IsQuotaEntitlementActive kafka with
          | error err => rfl
          | ok isActive => rfl
      · simp only [hl, if_false]
        split <;> rfl

theorem specCacheAfter_of_failure (k : KafkaManager) (cache : List (String × Bool))
    (kafka : KafkaRequest)
    (h : (∃ err, k.kafkaConfig.GetKafkaInstanceSize kafka.InstanceType kafka.SizeId =
        .error err) ∨
      ∃ err, k.kafkaService.IsQuotaEntitlementActive kafka = .error err) :
    specCacheAfter k cache kafka = cache := by
  unfold specCacheAfter resolvedEntitlement
  cases hc : List.lookup (kafka.OrganisationId ++ "-" ++ kafka.ActualKafkaBillingModel)
      cache with
  | some active => rfl
  | none =>
    simp only []
    by_cases hd : kafka.Status ∈ k.declarations.GetDeletingStatuses
    · simp [hd]
    · simp only [hd, if_false]
      rcases h with ⟨err, h⟩ | ⟨err, h⟩
      · simp [h]
      · simp only [h]
        cases hsz : k.kafkaConfig.GetKafkaInstanceSize kafka.InstanceType kafka.SizeId with
        | error e => rfl
        | ok instanceSize =>
          by_cases hl : instanceSize.LifespanSeconds = none
          · simp [hl]
          · simp [hl]

/-- C14, amended: in the backfill and in the suspension loop the calls made for a list of
instances are those made for the instances before any one of them, those made for that
instance, and those made for the instances after it, each as if the others were not there,
so a failure of that instance changes no call made for another.  In the expiry
reconciliation every instance is processed too, from the entitlement cache as the
instances before it left it: an instance whose instance size lookup or entitlement lookup
fails leaves the cache as it found it, so the instances after it are processed as if it
were absent; an instance whose entitlement has been resolved leaves its status in the
cache whatever becomes of its update, so the instances after it are processed as if its
update had succeeded. -/
theorem failure_leaves_other_instances (k : KafkaManager) (ams : AMSQuotaService)
    (pre post : List KafkaRequest) (x : KafkaRequest) :
    ((migrateEmptyBillingModels k ams (pre ++ x :: post)).calls =
          (migrateEmptyBillingModels k ams pre).calls ++ (migrateEmptyBillingModel k ams x).1 ++
            (migrateEmptyBillingModels k ams post).calls ∧
        (migrateEmptyBillingModels k ams (pre ++ post)).calls =
          (migrateEmptyBillingModels k ams pre).calls ++
            (migrateEmptyBillingModels k ams post).calls) ∧
      ((suspendAllInGracePeriod k (pre ++ x :: post)).1 =
          (suspendAllInGracePeriod k pre).1 ++ (suspendInGracePeriod k x).1 ++
            (suspendAllInGracePeriod k post).1 ∧
        (suspendAllInGracePeriod k (pre ++ post)).1 =
          (suspendAllInGracePeriod k pre).1 ++ (suspendAllInGracePeriod k post).1) ∧
      ((reconcileKafkaExpiresAt k (pre ++ x :: post)).1 =
          (reconcileKafkaExpiresAt k pre).1 ++
            (reconcileKafkaExpiresAtStep k (cacheAfter k [] pre) x).calls ++
            (reconcileKafkaExpiresAtFrom k (specCacheAfter k (cacheAfter k [] pre) x) post).1 ∧
        (reconcileKafkaExpiresAt k (pre ++ post)).1 =
          (reconcileKafkaExpiresAt k pre).1 ++
            (reconcileKafkaExpiresAtFrom k (cacheAfter k [] pre) post).1) ∧
      (((∃ err, k.kafkaConfig.GetKafkaInstanceSize x.InstanceType x.SizeId = .error err) ∨
          ∃ err, k.kafkaService.IsQuotaEntitlementActive x = .error err) →
        (reconcileKafkaExpiresAt k (pre ++ x :: post)).1 =
          (reconcileKafkaExpiresAt k pre).1 ++
            (reconcileKafkaExpiresAtStep k (cacheAfter k [] pre) x).calls ++
            (reconcileKafkaExpiresAtFrom k (cacheAfter k [] pre) post).1) := by
  have h3 : (reconcileKafkaExpiresAt k (pre ++ x :: post)).1 =
      (reconcileKafkaExpiresAt k pre).1 ++
        (reconcileKafkaExpiresAtStep k (cacheAfter k [] pre) x).calls ++
        (reconcileKafkaExpiresAtFrom k (specCacheAfter k (cacheAfter k [] pre) x) post).1 := by
    unfold reconcileKafkaExpiresAt
    rw [(reconcileKafkaExpiresAtFrom_append k pre (x :: post) []).1]
    simp only [reconcileKafkaExpiresAtFrom, step_cache_eq_spec, List.append_assoc]
  refine ⟨⟨?_, (migrateEmptyBillingModels_append k ams pre post).1⟩,
    ⟨?_, (suspendAllInGracePeriod_append k pre post).1⟩,
    ⟨h3, (reconcileKafkaExpiresAtFrom_append k pre post []).1⟩, ?_⟩
  · rw [(migrateEmptyBillingModels_append k ams pre (x :: post)).1]
    simp only [migrateEmptyBillingModels, List.append_assoc]
  · rw [(suspendAllInGracePeriod_append k pre (x :: post)).1]
    simp only [suspendAllInGracePeriod, List.append_assoc]
  · intro hfail
    rw [h3, specCacheAfter_of_failure k _ x hfail]

/-- The scenario of C14, amended: the entitlement lookup of `kafka-a` fails, and `kafka-b`,
which shares its organisation and billing model, is processed as if `kafka-a` were absent:
its entitlement is looked up and its expiry date is set. -/
theorem failure_leaves_other_instances_scenario :
    (reconcileKafkaExpiresAt (interferenceManager (.error "lookup failed") none)
          interferingKafkas).1 =
        (reconcileKafkaExpiresAtStep (interferenceManager (.error "lookup failed") none) []
            (scenarioInstance "kafka-a" "org-3" "sub-9" "standard"
              { Time := 1700259200, Valid := true })).calls ++
          (reconcileKafkaExpiresAt (interferenceManager (.error "lookup failed") none)
            [scenarioInstance "kafka-b" "org-3" "sub-9" "standard" noExpiry]).1 ∧
      (reconcileKafkaExpiresAt (interferenceManager (.error "lookup failed") none)
          [scenarioInstance "kafka-b" "org-3" "sub-9" "standard" noExpiry]).1 =
        [.IsQuotaEntitlementActive
            (scenarioInstance "kafka-b" "org-3" "sub-9" "standard" noExpiry),
          .Updates (scenarioInstance "kafka-b" "org-3" "sub-9" "standard" noExpiry)
            [("expires_at", { Time := 1700604800, Valid := true })]] :=
  ⟨(failure_leaves_other_instances (interferenceManager (.error "lookup failed") none)
      scenarioAMS [] [scenarioInstance "kafka-b" "org-3" "sub-9" "standard" noExpiry]
      (scenarioInstance "kafka-a" "org-3" "sub-9" "standard"
        { Time := 1700259200, Valid := true })).2.2.2 (Or.inr ⟨"lookup failed", rfl⟩),
    by decide⟩

/-- C14 fails as stated: `kafka-a` and `kafka-b` share organisation and billing model.
When the entitlement lookup of `kafka-a` fails, the calls made for `kafka-b` are a lookup
and an update, whereas none is made for it when that lookup succeeds; when the update of
`kafka-a` fails, no call is made for `kafka-b`, whereas a lookup and an update are made for
it when `kafka-a` is absent. -/
theorem failure_changes_calls_of_other_instance :
    callsFor "kafka-b"
          (reconcileKafkaExpiresAt (interferenceManager (.error "lookup failed") none)
            interferingKafkas).1 =
        [.IsQuotaEntitlementActive
            (scenarioInstance "kafka-b" "org-3" "sub-9" "standard" noExpiry),
          .Updates (scenarioInstance "kafka-b" "org-3" "sub-9" "standard" noExpiry)
            [("expires_at", { Time := 1700604800, Valid := true })]] ∧
      callsFor "kafka-b"
          (reconcileKafkaExpiresAt (interferenceManager (.ok true) none) interferingKafkas).1 =
        [] ∧
      (reconcileKafkaExpiresAt (interferenceManager (.ok true) (some "update failed"))
          interferingKafkas).2 ≠ [] ∧
      callsFor "kafka-b"
          (reconcileKafkaExpiresAt (interferenceManager (.ok true) (some "update failed"))
            interferingKafkas).1 = [] ∧
      callsFor "kafka-b"
          (reconcileKafkaExpiresAt (interferenceManager (.ok true) (some "update failed"))
            [scenarioInstance "kafka-b" "org-3" "sub-9" "standard" noExpiry]).1 =
        [.IsQuotaEntitlementActive
            (scenarioInstance "kafka-b" "org-3" "sub-9" "standard" noExpiry),
          .Updates (scenarioInstance "kafka-b" "org-3" "sub-9" "standard" noExpiry)
            [("expires_at", { Time := 1700604800, Valid := true })]] := by
  decide

/-! ## Lifecycle reconciler: the deny list -/

theorem deniedUsers_steps (k : KafkaManager) :
    (tempMigrateEmptyBillingModels k k.kafkaService.ListAll.1).calls.filterMap
          ServiceCall.deniedUsers? = [] ∧
      (reconcileKafkaExpiresAt k (backfilledKafkas k)).1.filterMap ServiceCall.deniedUsers? =
        [] ∧
      (suspendAllInGracePeriod k (backfilledKafkas k)).1.filterMap ServiceCall.deniedUsers? =
        [] := by
  refine ⟨?_, ?_, ?_⟩
  · apply filterMap_eq_nil_of_forall
    intro c hc
    rcases mem_calls_tempMigrateEmptyBillingModels k _ c hc with
      h | ⟨_, _, h⟩ | ⟨_, _, _, _, h⟩ <;> subst h <;> rfl
  · apply filterMap_eq_nil_of_forall
    intro c hc
    obtain ⟨_, _, h | ⟨_, h⟩⟩ := mem_calls_reconcileKafkaExpiresAtFrom k _ [] c hc <;>
      subst h <;> rfl
  · apply filterMap_eq_nil_of_forall
    intro c hc
    obtain ⟨_, _, h⟩ := mem_calls_suspendAllInGracePeriod k _ c hc
    subst h
    rfl

/-- C21: the requests of a pass to deprovision the instances of denied owners are one
request, with the whole deny list, when the deny list is enabled and not empty, and none
otherwise; when the deny list is disabled or empty the errors of the pass are those of its
other steps, none being added. -/
theorem deny_list_deprovisioning (k : KafkaManager) :
    (callsOf (Reconcile k).1).filterMap ServiceCall.deniedUsers? =
        (if k.accessControlListConfig.EnableDenyList = true ∧
            k.accessControlListConfig.DenyList ≠ [] then
          [k.accessControlListConfig.DenyList]
        else []) ∧
      (¬ (k.accessControlListConfig.EnableDenyList = true ∧
            k.accessControlListConfig.DenyList ≠ []) →
        (Reconcile k).2 =
          (match k.kafkaService.ListAll.2 with
            | some err => [ReconcileError.error err]
            | none => []) ++
            (setKafkaStatusCountMetric k).2.map ReconcileError.error ++
            (match (updateClusterStatusCapacityMetrics k).2 with
              | some capacityError => [ReconcileError.error capacityError]
              | none => []) ++
            (if (tempMigrateEmptyBillingModels k k.kafkaService.ListAll.1).svcErrors ≠ [] then
              [ReconcileError.wrapErrorList
                (tempMigrateEmptyBillingModels k k.kafkaService.ListAll.1).svcErrors
                "failed to reconcile billing models for kafka instances"]
            else []) ++
            (if (reconcileKafkaExpiresAt k (backfilledKafkas k)).2 ≠ [] then
              [ReconcileError.wrapErrorList (reconcileKafkaExpiresAt k (backfilledKafkas k)).2
                "failed to update expires_at for kafka instances"]
            else []) ++
            (suspendAllInGracePeriod k (backfilledKafkas k)).2 ++
            (match k.kafkaService.DeprovisionExpiredKafkas with
              | some err =>
                [ReconcileError.error (wrap err "failed to deprovision expired Kafka instances")]
              | none => [])) := by
  constructor
  · rw [callsOf_Reconcile]
    obtain ⟨h1, h2, h3⟩ := deniedUsers_steps k
    simp only [List.filterMap_append, h1, h2, h3, List.filterMap_cons, List.filterMap_nil,
      ServiceCall.deniedUsers?, List.nil_append, List.append_nil]
    split_ifs <;> rfl
  · intro h
    rw [errors_Reconcile]
    have hd : (if k.accessControlListConfig.EnableDenyList = true then
          match (reconcileDeniedKafkaOwners k k.accessControlListConfig.DenyList).2 with
          | some err =>
            [ReconcileError.error (wrap err ("failed to deprovision kafka for denied owners " ++
              sliceString k.accessControlListConfig.DenyList))]
          | none => []
        else []) = [] := by
      cases he : k.accessControlListConfig.EnableDenyList
      · simp
      · have hl : k.accessControlListConfig.DenyList = [] := by
          by_contra hne
          exact h ⟨he, hne⟩
        simp [reconcileDeniedKafkaOwners, hl]
    rw [hd, List.append_nil]

/-- The scenarios of C21: with the deny list enabled and two denied owners one request is
made for the two; with the deny list disabled, or enabled and empty, no request is made and
the pass returns no error, although a request would fail. -/
theorem deny_list_deprovisioning_scenario :
    (callsOf (Reconcile (denyListManager true ["owner-1", "owner-2"])).1).filterMap
          ServiceCall.deniedUsers? = [["owner-1", "owner-2"]] ∧
      (callsOf (Reconcile (denyListManager false ["owner-1"])).1).filterMap
          ServiceCall.deniedUsers? = [] ∧
      (Reconcile (denyListManager false ["owner-1"])).2 = [] ∧
      (Reconcile (denyListManager true [])).2 = [] :=
  ⟨(deny_list_deprovisioning (denyListManager true ["owner-1", "owner-2"])).1.trans (by decide),
    (deny_list_deprovisioning (denyListManager false ["owner-1"])).1.trans (by decide),
    ((deny_list_deprovisioning (denyListManager false ["owner-1"])).2 (by decide)).trans
      (by decide),
    ((deny_list_deprovisioning (denyListManager true [])).2 (by decide)).trans (by decide)⟩

/-! ## The manual calculator: the rows returned -/

/-- C28: when every regional limit lookup succeeds, the manual calculator returns, whatever
the usage snapshot, one row for every schedulable cluster of the fleet and every non-empty
entry of its comma-separated list of supported instance types, in the order of the
configuration, each with the region, the cloud provider and the identifier of the cluster
and that entry as instance type; clusters that are not schedulable contribute no row. -/
theorem manual_rows_per_cluster_and_type (k : KafkaManager)
    (rows : List KafkaStreamingUnitCountPerCluster)
    (hall : LookupsSucceed k k.dataplaneClusterConfig.GetManualClusters) :
    ∃ result,
      calculateCapacityByRegionAndInstanceTypeForManualClusters k rows = .ok result ∧
        result.map (fun row => (row.Region, row.CloudProvider, row.ClusterId, row.InstanceType)) =
          (k.dataplaneClusterConfig.GetManualClusters.filter (fun c => c.Schedulable)).flatMap
            (fun c =>
              ((stringsSplitComma c.SupportedInstanceType).filter (fun t => t ≠ "")).map
                (fun t => (c.Region, c.CloudProvider, c.ClusterId, t))) := by
  refine ⟨_, calculateCapacity_eq_manualRows k rows hall, ?_⟩
  unfold manualRows supportedInstanceTypes
  rw [List.map_flatMap]
  congr 1
  funext c
  rw [List.map_map]
  rfl

/-- The scenario of C28: of three clusters the one that is not schedulable contributes no
row, the empty entry of a list contributes none, and the usage rows, one of them of an
unknown cluster, add none. -/
theorem manual_rows_per_cluster_and_type_scenario :
    ∃ result,
      calculateCapacityByRegionAndInstanceTypeForManualClusters threeClusterManager
          [scenarioRow "c1" "standard" 2 0, scenarioRow "c9" "standard" 1 0] = .ok result ∧
        result.map (fun row => (row.Region, row.CloudProvider, row.ClusterId, row.InstanceType)) =
          [("us-east-1", "aws", "c1", "standard"), ("us-east-1", "aws", "c1", "developer"),
            ("us-east-1", "aws", "c3", "standard")] :=
  (manual_rows_per_cluster_and_type threeClusterManager
    [scenarioRow "c1" "standard" 2 0, scenarioRow "c9" "standard" 1 0]
    (lookupsSucceed_of_ok _ _ (fun _ _ _ => none) rfl)).imp
    (fun _ h => ⟨h.1, h.2.trans (by decide)⟩)

/-! ## Capacity accountant: available capacity and effective maximum -/

theorem specMaxAvailable_bounds (localCeiling : Int) (limit : Option Int)
    (h0 : 0 ≤ localCeiling) (hl : ∀ l, limit = some l → 0 ≤ l) :
    0 ≤ specMaxAvailable localCeiling limit ∧
      specMaxAvailable localCeiling limit ≤ localCeiling ∧
      ∀ l, limit = some l → specMaxAvailable localCeiling limit ≤ l := by
  cases limit with
  | none => simp [specMaxAvailable, h0]
  | some l =>
    have := hl l rfl
    simp only [specMaxAvailable, Option.some.injEq, forall_eq']
    exact ⟨le_min h0 this, min_le_left _ _, min_le_right _ _⟩

theorem dynamicScaling_bounds (k : KafkaManager) (r : KafkaStreamingUnitCountPerCluster)
    (limit : Option Int)
    (hlookup : k.cloudProviders.GetInstanceLimit r.Region r.CloudProvider r.InstanceType =
      .ok limit)
    (hrow : r.WellFormed) (hl : ∀ l, limit = some l → 0 ≤ l) :
    ∃ row, calculateAvailableAndMaxCapacityForDynamicScaling k r = .ok row ∧
      0 ≤ row.Count ∧ row.Count ≤ row.MaxUnits ∧ row.MaxUnits ≤ r.MaxUnits ∧
      ∀ l, limit = some l → row.MaxUnits ≤ l := by
  obtain ⟨hc0, hc1, hm0, hm1⟩ := hrow
  obtain ⟨h0, h1, h2⟩ := specMaxAvailable_bounds r.MaxUnits limit hm0 hl
  have hfit := dynamicScaling_of_fits k r limit hlookup
    (by unfold IsInt32 minInt32 maxInt32 at *; omega)
    (by unfold IsInt32 minInt32 maxInt32 at *; omega)
    (by unfold maxInt32 at *; omega)
  refine ⟨_, hfit, ?_, ?_, h1, h2⟩
  · exact le_max_left _ _
  · simp only
    exact max_le h0 (by omega)

theorem specManualRow_bounds (rows : List KafkaStreamingUnitCountPerCluster) (c : ManualCluster)
    (t : String) (limit : Option Int) (h0 : 0 ≤ c.KafkaInstanceLimit)
    (hl : ∀ l, limit = some l → 0 ≤ l)
    (hrows : ∀ r ∈ rows, r.ClusterId = c.ClusterId → 0 ≤ r.Count) :
    0 ≤ (specManualRow rows c t limit).Count ∧
      (specManualRow rows c t limit).Count ≤ (specManualRow rows c t limit).MaxUnits ∧
      (specManualRow rows c t limit).MaxUnits ≤ c.KafkaInstanceLimit ∧
      ∀ l, limit = some l → (specManualRow rows c t limit).MaxUnits ≤ l := by
  obtain ⟨h1, h2, h3⟩ := specMaxAvailable_bounds c.KafkaInstanceLimit limit h0 hl
  have hu := specTypeUsed_nonneg rows c.ClusterId t hrows
  refine ⟨?_, ?_, h2, h3⟩
  · exact le_max_left _ _
  · simp only [specManualRow, specAvailableByType]
    exact max_le h1 (le_trans (min_le_left _ _) (by omega))

/-- C29, amended: for a usage row with a non-negative `int32` count and ceiling and a
regional limit that is absent or non-negative, the row the dynamic calculator returns has
`0 <= Count <= MaxUnits`, with `MaxUnits` at most the ceiling of the row and at most the
regional limit; and when the usage counts of every schedulable cluster are non-negative and
add up to at most `2^31 - 1`, its limit is a non-negative `int32` and the regional limits of
its types are absent or non-negative, every row the manual calculator returns has
`0 <= Count <= MaxUnits`, with `MaxUnits` at most the limit of its cluster and at most the
regional limit of its type. -/
theorem available_at_most_maximum (k : KafkaManager) :
    (∀ (r : KafkaStreamingUnitCountPerCluster) (limit : Option Int),
        k.cloudProviders.GetInstanceLimit r.Region r.CloudProvider r.InstanceType = .ok limit →
        r.WellFormed → (∀ l, limit = some l → 0 ≤ l) →
        ∃ row, calculateAvailableAndMaxCapacityForDynamicScaling k r = .ok row ∧
          0 ≤ row.Count ∧ row.Count ≤ row.MaxUnits ∧ row.MaxUnits ≤ r.MaxUnits ∧
          ∀ l, limit = some l → row.MaxUnits ≤ l) ∧
      ∀ rows : List KafkaStreamingUnitCountPerCluster,
        LookupsSucceed k k.dataplaneClusterConfig.GetManualClusters →
        (∀ c ∈ k.dataplaneClusterConfig.GetManualClusters, c.Schedulable = true →
          NoOverflow rows c.ClusterId ∧ 0 ≤ c.KafkaInstanceLimit ∧
            c.KafkaInstanceLimit ≤ maxInt32 ∧
            ∀ t ∈ supportedInstanceTypes c, ∀ l,
              regionalLimit k c.Region c.CloudProvider t = some l → 0 ≤ l) →
        ∃ result, calculateCapacityByRegionAndInstanceTypeForManualClusters k rows =
            .ok result ∧
          ∀ row ∈ result, 0 ≤ row.Count ∧ row.Count ≤ row.MaxUnits ∧
            ∃ c ∈ k.dataplaneClusterConfig.GetManualClusters,
              c.Schedulable = true ∧ row.ClusterId = c.ClusterId ∧
                row.MaxUnits ≤ c.KafkaInstanceLimit ∧
                ∀ l, regionalLimit k c.Region c.CloudProvider row.InstanceType = some l →
                  row.MaxUnits ≤ l := by
  refine ⟨fun r limit hlookup hrow hl => dynamicScaling_bounds k r limit hlookup hrow hl, ?_⟩
  intro rows hall hfleet
  refine ⟨_, calculateCapacity_eq_manualRows k rows hall, ?_⟩
  intro row hrow
  obtain ⟨c, hc, hs, t, ht, hrow⟩ := (mem_manualRows k rows _ row).mp hrow
  obtain ⟨hsum, h0, h1, hl⟩ := hfleet c hc hs
  obtain ⟨hb0, hb1, hb2⟩ := specMaxAvailable_bounds c.KafkaInstanceLimit
    (regionalLimit k c.Region c.CloudProvider t) h0 (hl t ht)
  have hspec := manualClusterCapacity_eq_spec k rows c t
    (regionalLimit k c.Region c.CloudProvider t)
    (by unfold IsInt32 minInt32 maxInt32 at *; omega) hsum
  rw [hspec] at hrow
  obtain ⟨g0, g1, g2, g3⟩ := specManualRow_bounds rows c t
    (regionalLimit k c.Region c.CloudProvider t) h0 (hl t ht) hsum.1
  subst hrow
  exact ⟨g0, g1, c, hc, hs, rfl, g2, g3⟩

/-- The scenario of C29, amended: a cluster of limit `5` with regional limit `3` for
standard and a usage of two standard and one premium instance has a row with `Count = 1`
and `MaxUnits = 3`. -/
theorem available_at_most_maximum_scenario :
    ∃ result,
      calculateCapacityByRegionAndInstanceTypeForManualClusters scenarioManualManager
          scenarioManualUsage = .ok result ∧
        ∀ row ∈ result, 0 ≤ row.Count ∧ row.Count ≤ row.MaxUnits ∧
          ∃ c ∈ scenarioManualManager.dataplaneClusterConfig.GetManualClusters,
            c.Schedulable = true ∧ row.ClusterId = c.ClusterId ∧
              row.MaxUnits ≤ c.KafkaInstanceLimit ∧
              ∀ l, regionalLimit scenarioManualManager c.Region c.CloudProvider
                  row.InstanceType = some l → row.MaxUnits ≤ l :=
  (available_at_most_maximum scenarioManualManager).2 scenarioManualUsage
    (lookupsSucceed_of_ok _ _ (fun _ _ t => if t = "standard" then some 3 else none) rfl)
    (by
      intro c hc _
      have hc1 : c = scenarioCluster "c1" 5 "standard" := by
        simpa [scenarioManualManager, scenarioManager] using hc
      subst hc1
      refine ⟨by decide, by decide, by decide, ?_⟩
      intro t ht l hl
      have ht1 : t = "standard" := by
        have : t ∈ ["standard"] := ht
        simpa using this
      subst ht1
      have : l = 3 := by
        have h3 : regionalLimit scenarioManualManager "us-east-1" "aws" "standard" = some 3 := rfl
        have h4 : regionalLimit scenarioManualManager "us-east-1" "aws" "standard" = some l := hl
        rw [h3] at h4
        exact (Option.some.inj h4).symm
      omega)

/-- C29 fails as stated: three usage rows of standard instances with the counts `2^30`,
`2^30` and `2^31 - 1`, each a non-negative `int32`, add up to `-1` in the `int32` sums of
the manual calculator, so a cluster with limit `5` and regional limit `5` gets a row with
`Count = 6` above `MaxUnits = 5`. -/
theorem available_exceeds_maximum :
    calculateCapacityByRegionAndInstanceTypeForManualClusters boundedManager wrappingUsage =
      .ok [{ Region := "us-east-1"
             InstanceType := "standard"
             ClusterId := "c1"
             Count := 6
             CloudProvider := "aws"
             MaxUnits := 5
             Status := ""
             ClusterType := "" }] := by
  decide

/-! ## Capacity accountant: available capacity against usage -/

theorem specUsed_mono (rows raised : List KafkaStreamingUnitCountPerCluster)
    (h : List.Forall₂ Raised rows raised) (c t : String) :
    specTotalUsed rows c ≤ specTotalUsed raised c ∧
      specTypeUsed rows c t ≤ specTypeUsed raised c t := by
  induction h with
  | nil => exact ⟨le_refl _, le_refl _⟩
  | @cons r r' rest rest' hr _ ih =>
    obtain ⟨heq, hle⟩ := hr
    have hid : r'.ClusterId = r.ClusterId := by rw [heq]
    have hty : r'.InstanceType = r.InstanceType := by rw [heq]
    rw [specTotalUsed_cons, specTotalUsed_cons, specTypeUsed_cons, specTypeUsed_cons, hid, hty]
    constructor
    · split_ifs <;> omega
    · split_ifs <;> omega

theorem raised_nonneg (rows raised : List KafkaStreamingUnitCountPerCluster)
    (h : List.Forall₂ Raised rows raised) (c : String)
    (h0 : ∀ r ∈ rows, r.ClusterId = c → 0 ≤ r.Count) :
    ∀ r ∈ raised, r.ClusterId = c → 0 ≤ r.Count := by
  induction h with
  | nil => simp
  | @cons r r' rest rest' hr _ ih =>
    intro x hx hc
    rcases List.mem_cons.mp hx with hx | hx
    · subst hx
      have hid : x.ClusterId = r.ClusterId := by rw [hr.1]
      have := h0 r (List.mem_cons_self _ _) (by rw [← hid]; exact hc)
      exact le_trans this hr.2
    · exact ih (fun y hy => h0 y (List.mem_cons_of_mem _ hy)) x hx hc

theorem specManualRow_notGrown (rows raised : List KafkaStreamingUnitCountPerCluster)
    (h : List.Forall₂ Raised rows raised) (c : ManualCluster) (t : String)
    (limit : Option Int) :
    NotGrown (specManualRow rows c t limit) (specManualRow raised c t limit) := by
  obtain ⟨h1, h2⟩ := specUsed_mono rows raised h c.ClusterId t
  refine ⟨?_, rfl, rfl, rfl, rfl, rfl⟩
  simp only [specManualRow, specAvailableByType]
  exact max_le_max (le_refl _) (min_le_min (by omega) (by omega))

theorem forall₂_map_of_forall {α β : Type} (R : β → β → Prop) (f g : α → β) (l : List α)
    (h : ∀ a ∈ l, R (f a) (g a)) : List.Forall₂ R (l.map f) (l.map g) := by
  induction l with
  | nil => exact List.Forall₂.nil
  | cons a l ih =>
    exact List.Forall₂.cons (h a (List.mem_cons_self _ _))
      (ih (fun b hb => h b (List.mem_cons_of_mem _ hb)))

theorem forall₂_append {β : Type} (R : β → β → Prop) (a b c d : List β)
    (h1 : List.Forall₂ R a b) (h2 : List.Forall₂ R c d) :
    List.Forall₂ R (a ++ c) (b ++ d) := by
  induction h1 with
  | nil => exact h2
  | cons hr _ ih => exact List.Forall₂.cons hr ih

theorem forall₂_flatMap_of_forall {α β : Type} (R : β → β → Prop) (f g : α → List β)
    (l : List α) (h : ∀ a ∈ l, List.Forall₂ R (f a) (g a)) :
    List.Forall₂ R (l.flatMap f) (l.flatMap g) := by
  induction l with
  | nil => exact List.Forall₂.nil
  | cons a l ih =>
    rw [List.flatMap_cons, List.flatMap_cons]
    exact forall₂_append R _ _ _ _ (h a (List.mem_cons_self _ _))
      (ih (fun b hb => h b (List.mem_cons_of_mem _ hb)))

theorem manualRows_notGrown (k : KafkaManager)
    (rows raised : List KafkaStreamingUnitCountPerCluster)
    (h : List.Forall₂ Raised rows raised) (clusters : List ManualCluster)
    (hfleet : ∀ c ∈ clusters, c.Schedulable = true →
      (∀ r ∈ rows, r.ClusterId = c.ClusterId → 0 ≤ r.Count) ∧
        specTotalUsed raised c.ClusterId ≤ maxInt32 ∧
        ∀ t ∈ supportedInstanceTypes c,
          IsInt32 (specMaxAvailable c.KafkaInstanceLimit
            (regionalLimit k c.Region c.CloudProvider t))) :
    List.Forall₂ NotGrown (manualRows k rows clusters) (manualRows k raised clusters) := by
  unfold manualRows
  apply forall₂_flatMap_of_forall
  intro c hc
  obtain ⟨hc1, hc2⟩ := List.mem_filter.mp hc
  have hs : c.Schedulable = true := by simpa using hc2
  obtain ⟨h0, hsum, hfit⟩ := hfleet c hc1 hs
  apply forall₂_map_of_forall
  intro t ht
  have hmono := specUsed_mono rows raised h c.ClusterId t
  have hn1 : NoOverflow rows c.ClusterId := ⟨h0, le_trans hmono.1 hsum⟩
  have hn2 : NoOverflow raised c.ClusterId := ⟨raised_nonneg rows raised h _ h0, hsum⟩
  rw [manualClusterCapacity_eq_spec k rows c t _ (hfit t ht) hn1,
    manualClusterCapacity_eq_spec k raised c t _ (hfit t ht) hn2]
  exact specManualRow_notGrown rows raised h c t _

/-- The row of the dynamic calculator for a regional limit below the range of `int32`: no
capacity is available, whatever the usage. -/
theorem dynamicScaling_of_low_limit (k : KafkaManager) (r : KafkaStreamingUnitCountPerCluster)
    (l : Int)
    (hlookup : k.cloudProviders.GetInstanceLimit r.Region r.CloudProvider r.InstanceType =
      .ok (some l))
    (hrow : r.WellFormed) (hl : l < minInt32) :
    calculateAvailableAndMaxCapacityForDynamicScaling k r =
      .ok { Region := r.Region
            InstanceType := r.InstanceType
            ClusterId := r.ClusterId
            Count := 0
            CloudProvider := r.CloudProvider
            MaxUnits := int32OfFloat64 k.arch (float64OfInt l)
            Status := ""
            ClusterType := "" } := by
  obtain ⟨hc0, hc1, hm0, hm1⟩ := hrow
  unfold minInt32 at hl
  unfold maxInt32 at hc1 hm1
  have hfl : float64OfInt l ≤ -2147483649 :=
    float64OfInt_le_of_le _ l (by omega) (by omega) (by omega)
  have hm : float64OfInt r.MaxUnits = r.MaxUnits :=
    float64OfInt_of_abs_le _ (by omega) (by omega)
  have hc : float64OfInt r.Count = r.Count :=
    float64OfInt_of_abs_le _ (by omega) (by omega)
  have hmin : min r.MaxUnits (float64OfInt l) = float64OfInt l := min_eq_right (by omega)
  have hsub : float64Sub (float64OfInt l) r.Count ≤ -2147483649 := by
    unfold float64Sub
    exact float64OfInt_le_of_le _ _ (by omega) (by omega) (by omega)
  have hav : max 0 (float64Sub (float64OfInt l) r.Count) = 0 := max_eq_left (by omega)
  unfold calculateAvailableAndMaxCapacityForDynamicScaling getRegionInstanceTypeLimit
  rw [hlookup]
  simp only [Option.getD_some, hm, hc, hmin, hav, int32OfFloat64_of_isInt32 _ 0 (by decide)]

theorem dynamicScaling_notGrown (k : KafkaManager) (r : KafkaStreamingUnitCountPerCluster)
    (count : Int) (limit : Option Int)
    (hlookup : k.cloudProviders.GetInstanceLimit r.Region r.CloudProvider r.InstanceType =
      .ok limit)
    (hrow : r.WellFormed) (hraise : r.Count ≤ count) (hcount : count ≤ maxInt32) :
    ∃ row later,
      calculateAvailableAndMaxCapacityForDynamicScaling k r = .ok row ∧
        calculateAvailableAndMaxCapacityForDynamicScaling k { r with Count := count } =
          .ok later ∧
        NotGrown row later := by
  by_cases hlow : ∃ l, limit = some l ∧ l < minInt32
  · obtain ⟨l, rfl, hl⟩ := hlow
    have hraised : ({ r with Count := count } : KafkaStreamingUnitCountPerCluster).WellFormed :=
      ⟨le_trans hrow.1 hraise, hcount, hrow.2.2.1, hrow.2.2.2⟩
    exact ⟨_, _, dynamicScaling_of_low_limit k r l hlookup hrow hl,
      dynamicScaling_of_low_limit k { r with Count := count } l hlookup hraised hl,
      le_refl _, rfl, rfl, rfl, rfl, rfl⟩
  have hlimit : ∀ l, limit = some l → minInt32 ≤ l := by
    intro l hl
    by_contra hlt
    exact hlow ⟨l, hl, lt_of_not_le hlt⟩
  obtain ⟨hc0, hc1, hm0, hm1⟩ := hrow
  have hmax : IsInt32 (specMaxAvailable r.MaxUnits limit) := by
    cases limit with
    | none =>
      unfold IsInt32 minInt32 maxInt32 at *
      simp only [specMaxAvailable]
      omega
    | some l =>
      have := hlimit l rfl
      unfold IsInt32 minInt32 maxInt32 at *
      simp only [specMaxAvailable]
      exact ⟨le_min (by omega) this, le_trans (min_le_left _ _) hm1⟩
  have h1 := dynamicScaling_of_fits k r limit hlookup
    (by unfold IsInt32 minInt32 maxInt32 at *; omega) hmax
    (by unfold IsInt32 minInt32 maxInt32 at *; omega)
  have h2 := dynamicScaling_of_fits k { r with Count := count } limit hlookup
    (by unfold IsInt32 minInt32 maxInt32 at *; simp only; omega) hmax
    (by unfold IsInt32 minInt32 maxInt32 at *; simp only; omega)
  refine ⟨_, _, h1, h2, ?_, rfl, rfl, rfl, rfl, rfl⟩
  simp only
  exact max_le_max (le_refl _) (by omega)

/-- C30, amended: with the fleet and the regional limits fixed, and the effective maximum
of every supported type of every schedulable cluster within `int32`, raising the counts of
usage rows that are non-negative, up to sums of at most `2^31 - 1` for every schedulable
cluster, leaves the rows of the manual calculator in place with the same `MaxUnits` and a
`Count` that has not grown; and raising the count of a well-formed usage row, within
`int32`, leaves the `MaxUnits` the dynamic calculator returns for it as it was and its
`Count` not grown. -/
theorem available_antitone_in_usage (k : KafkaManager) :
    (∀ rows raised : List KafkaStreamingUnitCountPerCluster,
        List.Forall₂ Raised rows raised →
        LookupsSucceed k k.dataplaneClusterConfig.GetManualClusters →
        (∀ c ∈ k.dataplaneClusterConfig.GetManualClusters, c.Schedulable = true →
          (∀ r ∈ rows, r.ClusterId = c.ClusterId → 0 ≤ r.Count) ∧
            specTotalUsed raised c.ClusterId ≤ maxInt32 ∧
            ∀ t ∈ supportedInstanceTypes c,
              IsInt32 (specMaxAvailable c.KafkaInstanceLimit
                (regionalLimit k c.Region c.CloudProvider t))) →
        ∃ result later,
          calculateCapacityByRegionAndInstanceTypeForManualClusters k rows = .ok result ∧
            calculateCapacityByRegionAndInstanceTypeForManualClusters k raised = .ok later ∧
            List.Forall₂ NotGrown result later) ∧
      ∀ (r : KafkaStreamingUnitCountPerCluster) (count : Int) (limit : Option Int),
        k.cloudProviders.GetInstanceLimit r.Region r.CloudProvider r.InstanceType = .ok limit →
        r.WellFormed → r.Count ≤ count → count ≤ maxInt32 →
        ∃ row later,
          calculateAvailableAndMaxCapacityForDynamicScaling k r = .ok row ∧
            calculateAvailableAndMaxCapacityForDynamicScaling k { r with Count := count } =
              .ok later ∧
            NotGrown row later :=
  ⟨fun rows raised h hall hfleet =>
      ⟨_, _, calculateCapacity_eq_manualRows k rows hall,
        calculateCapacity_eq_manualRows k raised hall,
        manualRows_notGrown k rows raised h _ hfleet⟩,
    fun r count limit hlookup hrow hraise hcount =>
      dynamicScaling_notGrown k r count limit hlookup hrow hraise hcount⟩

/-- The scenario of C30, amended: with the cluster of limit `5` and regional limit `3` for
standard, raising the usage from two standard and one premium instance to three standard
and one premium leaves one row whose `Count` has not grown; under dynamic scaling a row
with `MaxUnits = 10` and regional limit `20`, raised from three instances to six, keeps its
`MaxUnits` and its `Count` does not grow. -/
theorem available_antitone_in_usage_scenario :
    (∃ result later,
        calculateCapacityByRegionAndInstanceTypeForManualClusters scenarioManualManager
            scenarioManualUsage = .ok result ∧
          calculateCapacityByRegionAndInstanceTypeForManualClusters scenarioManualManager
              [scenarioRow "c1" "standard" 3 0, scenarioRow "c1" "premium" 1 0] = .ok later ∧
          List.Forall₂ NotGrown result later) ∧
      ∃ row later,
        calculateAvailableAndMaxCapacityForDynamicScaling
            (scenarioManager (fun _ _ _ => .ok (some 20)) [] true false [])
            (scenarioRow "c1" "standard" 3 10) = .ok row ∧
          calculateAvailableAndMaxCapacityForDynamicScaling
              (scenarioManager (fun _ _ _ => .ok (some 20)) [] true false [])
              { scenarioRow "c1" "standard" 3 10 with Count := 6 } = .ok later ∧
          NotGrown row later :=
  ⟨(available_antitone_in_usage scenarioManualManager).1 scenarioManualUsage
      [scenarioRow "c1" "standard" 3 0, scenarioRow "c1" "premium" 1 0]
      (List.Forall₂.cons ⟨rfl, by decide⟩
        (List.Forall₂.cons ⟨rfl, by decide⟩ List.Forall₂.nil))
      (lookupsSucceed_of_ok _ _ (fun _ _ t => if t = "standard" then some 3 else none) rfl)
      (by
        intro c hc _
        have hc1 : c = scenarioCluster "c1" 5 "standard" := by
          simpa [scenarioManualManager, scenarioManager] using hc
        subst hc1
        refine ⟨by decide, by decide, ?_⟩
        intro t ht
        have ht1 : t = "standard" := by
          have : t ∈ ["standard"] := ht
          simpa using this
        subst ht1
        decide),
    (available_antitone_in_usage
      (scenarioManager (fun _ _ _ => .ok (some 20)) [] true false [])).2
      (scenarioRow "c1" "standard" 3 10) 6 (some 20) rfl (by decide) (by decide) (by decide)⟩

/-- C30 fails as stated: on amd64 a cluster whose limit is `2^31 + 5`, without regional
limit, has a row with `Count = -2^31` when it has no instance, the conversion to `int32`
being out of range, and a row with `Count = 2^31 - 5` when ten instances are in use: the
count of the usage row was raised and the available capacity grew. -/
theorem available_grows_with_usage :
    calculateCapacityByRegionAndInstanceTypeForManualClusters
          (unboundedManager 2147483653 "standard") [scenarioRow "c1" "standard" 0 0] =
        .ok [{ Region := "us-east-1"
               InstanceType := "standard"
               ClusterId := "c1"
               Count := -2147483648
               CloudProvider := "aws"
               MaxUnits := -2147483648
               Status := ""
               ClusterType := "" }] ∧
      calculateCapacityByRegionAndInstanceTypeForManualClusters
          (unboundedManager 2147483653 "standard") [scenarioRow "c1" "standard" 10 0] =
        .ok [{ Region := "us-east-1"
               InstanceType := "standard"
               ClusterId := "c1"
               Count := 2147483643
               CloudProvider := "aws"
               MaxUnits := -2147483648
               Status := ""
               ClusterType := "" }] := by
  decide

/-! ## Cluster fleet model -/

theorem findByID_none_iff (fleet : List ManualCluster) (clusterId : String) :
    (NewClusterConfig fleet).FindByID clusterId = none ↔
      clusterId ∉ fleet.map (fun c => c.ClusterId) := by
  unfold ClusterConfig.FindByID NewClusterConfig
  simp only [List.find?_eq_none, List.mem_map, not_exists, not_and, decide_eq_true_eq]

theorem findByID_some_iff (fleet : List ManualCluster)
    (hids : (fleet.map (fun c => c.ClusterId)).Nodup) (clusterId : String) (c : ManualCluster) :
    (NewClusterConfig fleet).FindByID clusterId = some c ↔
      c ∈ fleet ∧ c.ClusterId = clusterId := by
  unfold ClusterConfig.FindByID NewClusterConfig
  simp only
  induction fleet with
  | nil => simp
  | cons x rest ih =>
    rw [List.map_cons, List.nodup_cons] at hids
    obtain ⟨hx, hrest⟩ := hids
    rw [List.find?_cons]
    by_cases hxc : x.ClusterId = clusterId
    · simp only [hxc, decide_True, Option.some.injEq, List.mem_cons]
      constructor
      · intro h
        exact ⟨Or.inl h.symm, by rw [← h]; exact hxc⟩
      · rintro ⟨h | h, hc⟩
        · exact h.symm
        · exfalso
          apply hx
          exact List.mem_map.mpr ⟨c, h, by rw [hc, hxc]⟩
    · simp only [hxc, decide_False, List.mem_cons]
      rw [ih hrest]
      constructor
      · rintro ⟨h, hc⟩
        exact ⟨Or.inr h, hc⟩
      · rintro ⟨h | h, hc⟩
        · exfalso
          apply hxc
          rw [← h]
          exact hc
        · exact ⟨h, hc⟩

/-- C22: for a fleet of clusters with pairwise distinct identifiers,
`IsNumberOfKafkaWithinClusterLimit` is true exactly when the identifier is absent from the
fleet or the count is at most the `KafkaInstanceLimit` of the cluster with that identifier;
for an identifier absent from the fleet it is true for every count. -/
theorem within_cluster_limit (fleet : List ManualCluster)
    (hids : (fleet.map (fun c => c.ClusterId)).Nodup) (clusterId : String) (count : Int) :
    ((NewClusterConfig fleet).IsNumberOfKafkaWithinClusterLimit clusterId count = true ↔
        clusterId ∉ fleet.map (fun c => c.ClusterId) ∨
          ∃ c ∈ fleet, c.ClusterId = clusterId ∧ count ≤ c.KafkaInstanceLimit) ∧
      (clusterId ∉ fleet.map (fun c => c.ClusterId) →
        ∀ n, (NewClusterConfig fleet).IsNumberOfKafkaWithinClusterLimit clusterId n = true) := by
  constructor
  · unfold ClusterConfig.IsNumberOfKafkaWithinClusterLimit
    cases hf : (NewClusterConfig fleet).FindByID clusterId with
    | none =>
      simp only [true_iff]
      exact Or.inl ((findByID_none_iff fleet clusterId).mp hf)
    | some c =>
      obtain ⟨hc, hid⟩ := (findByID_some_iff fleet hids clusterId c).mp hf
      simp only [decide_eq_true_eq]
      constructor
      · intro h
        exact Or.inr ⟨c, hc, hid, h⟩
      · rintro (h | ⟨c2, hc2, hid2, h⟩)
        · exact absurd (List.mem_map.mpr ⟨c, hc, hid⟩) h
        · have : (NewClusterConfig fleet).FindByID clusterId = some c2 :=
            (findByID_some_iff fleet hids clusterId c2).mpr ⟨hc2, hid2⟩
          rw [hf] at this
          cases this
          exact h
  · intro h n
    unfold ClusterConfig.IsNumberOfKafkaWithinClusterLimit
    rw [(findByID_none_iff fleet clusterId).mpr h]

/-- The test table of C22: with `test01` configured with limit `3`, a count of `3` on
`test01` is within the limit, a count of `4` is not, and a count of `3` on `test02`, which
is not configured, is. -/
theorem within_cluster_limit_tests :
    (NewClusterConfig [testCluster "test01" 3 false]).IsNumberOfKafkaWithinClusterLimit
          "test01" 3 = true ∧
      (NewClusterConfig [testCluster "test01" 3 false]).IsNumberOfKafkaWithinClusterLimit
          "test01" 4 = false ∧
      (NewClusterConfig [testCluster "test01" 3 false]).IsNumberOfKafkaWithinClusterLimit
          "test02" 3 = true :=
  ⟨((within_cluster_limit [testCluster "test01" 3 false] (by decide) "test01" 3).1).mpr
      (Or.inr ⟨_, List.mem_singleton.mpr rfl, rfl, by decide⟩),
    by decide,
    (within_cluster_limit [testCluster "test01" 3 false] (by decide) "test02" 3).2
      (by decide) 3⟩

/-- C23: for a fleet of clusters with pairwise distinct identifiers, `IsClusterSchedulable`
is true exactly when the identifier is absent from the fleet or the cluster with that
identifier is schedulable. -/
theorem cluster_schedulable (fleet : List ManualCluster)
    (hids : (fleet.map (fun c => c.ClusterId)).Nodup) (clusterId : String) :
    (NewClusterConfig fleet).IsClusterSchedulable clusterId = true ↔
      clusterId ∉ fleet.map (fun c => c.ClusterId) ∨
        ∃ c ∈ fleet, c.ClusterId = clusterId ∧ c.Schedulable = true := by
  unfold ClusterConfig.IsClusterSchedulable
  cases hf : (NewClusterConfig fleet).FindByID clusterId with
  | none =>
    simp only [true_iff]
    exact Or.inl ((findByID_none_iff fleet clusterId).mp hf)
  | some c =>
    obtain ⟨hc, hid⟩ := (findByID_some_iff fleet hids clusterId c).mp hf
    simp only
    constructor
    · intro h
      exact Or.inr ⟨c, hc, hid, h⟩
    · rintro (h | ⟨c2, hc2, hid2, h⟩)
      · exact absurd (List.mem_map.mpr ⟨c, hc, hid⟩) h
      · have : (NewClusterConfig fleet).FindByID clusterId = some c2 :=
          (findByID_some_iff fleet hids clusterId c2).mpr ⟨hc2, hid2⟩
        rw [hf] at this
        cases this
        exact h

/-- The test table of C23: a schedulable `test01` is schedulable, `test02`, which is not
configured, is schedulable, and a `test01` that is not schedulable is not. -/
theorem cluster_schedulable_tests :
    (NewClusterConfig [testCluster "test01" 0 true]).IsClusterSchedulable "test01" = true ∧
      (NewClusterConfig [testCluster "test01" 0 true]).IsClusterSchedulable "test02" = true ∧
      (NewClusterConfig [testCluster "test01" 0 false]).IsClusterSchedulable "test01" = false :=
  ⟨(cluster_schedulable [testCluster "test01" 0 true] (by decide) "test01").mpr
      (Or.inr ⟨_, List.mem_singleton.mpr rfl, rfl, rfl⟩),
    (cluster_schedulable [testCluster "test01" 0 true] (by decide) "test02").mpr
      (Or.inl (by decide)),
    by decide⟩

/-- C24: `MissingClusters` returns the configured descriptors whose identifier is not a key
of the map of persisted clusters, unchanged and in the order of the configuration, and
`ExcessClusters` returns the keys of the map that are not the identifier of a configured
descriptor, each once when the keys are distinct; both results are empty when the
configured identifiers and the keys are the same. -/
theorem missing_and_excess_clusters (fleet : List ManualCluster)
    (clusterMap : List (String × api.Cluster)) :
    (NewClusterConfig fleet).MissingClusters clusterMap =
        fleet.filter (fun c => c.ClusterId ∉ clusterMap.map Prod.fst) ∧
      (∀ c, c ∈ (NewClusterConfig fleet).MissingClusters clusterMap ↔
        c ∈ fleet ∧ c.ClusterId ∉ clusterMap.map Prod.fst) ∧
      List.Sublist ((NewClusterConfig fleet).MissingClusters clusterMap) fleet ∧
      (∀ clusterId, clusterId ∈ (NewClusterConfig fleet).ExcessClusters clusterMap ↔
        clusterId ∈ clusterMap.map Prod.fst ∧
          clusterId ∉ fleet.map (fun c => c.ClusterId)) ∧
      ((clusterMap.map Prod.fst).Nodup →
        ((NewClusterConfig fleet).ExcessClusters clusterMap).Nodup) ∧
      ((∀ clusterId, clusterId ∈ fleet.map (fun c => c.ClusterId) ↔
          clusterId ∈ clusterMap.map Prod.fst) →
        (NewClusterConfig fleet).MissingClusters clusterMap = [] ∧
          (NewClusterConfig fleet).ExcessClusters clusterMap = []) := by
  refine ⟨rfl, ?_, ?_, ?_, ?_, ?_⟩
  · intro c
    simp [ClusterConfig.MissingClusters, NewClusterConfig]
  · exact List.filter_sublist _
  · intro clusterId
    simp [ClusterConfig.ExcessClusters, NewClusterConfig]
  · intro h
    exact h.filter _
  · intro h
    constructor
    · unfold ClusterConfig.MissingClusters NewClusterConfig
      rw [List.filter_eq_nil_iff]
      intro c hc
      have := (h c.ClusterId).mp (List.mem_map.mpr ⟨c, hc, rfl⟩)
      simpa using this
    · unfold ClusterConfig.ExcessClusters NewClusterConfig
      rw [List.filter_eq_nil_iff]
      intro clusterId hc
      have := (h clusterId).mpr hc
      simpa using this

/-- The test tables of C24: with `test02` configured and `test01` persisted, `test02` is
missing and `test01` is in excess; with the same cluster configured and persisted, none is
missing and none is in excess. -/
theorem missing_and_excess_clusters_tests :
    (NewClusterConfig [testMissingCluster]).MissingClusters [("test01", { ClusterID := "test01" })] =
        [testMissingCluster] ∧
      (NewClusterConfig [testMissingCluster]).MissingClusters
          [("test02", { ClusterID := "test02" })] = [] ∧
      (NewClusterConfig [testCluster "test02" 0 false]).ExcessClusters
          [("test01", { ClusterID := "test01" })] = ["test01"] ∧
      (NewClusterConfig [testCluster "test01" 0 false]).ExcessClusters
          [("test01", { ClusterID := "test01" })] = [] :=
  ⟨by decide,
    ((missing_and_excess_clusters [testMissingCluster]
      [("test02", { ClusterID := "test02" })]).2.2.2.2.2 (fun _ => Iff.rfl)).1,
    by decide,
    ((missing_and_excess_clusters [testCluster "test01" 0 false]
      [("test01", { ClusterID := "test01" })]).2.2.2.2.2 (fun _ => Iff.rfl)).2⟩

/-! ## Loading a cluster descriptor -/

/-- The load succeeds exactly when the status and the provider kind are recognised or left
out, the identifier is not empty and a descriptor of the standalone kind has a DNS name and
a name. -/
theorem unmarshalYAML_ok_iff (enums : ClusterEnumerations) (input : ManualClusterYAML) :
    (UnmarshalYAML enums input).2 = none ↔
      recognised enums.statuses input.status = true ∧
        recognised enums.providerTypes input.provider_type = true ∧
        input.cluster_id.getD "" ≠ "" ∧
        ¬ (input.provider_type.getD enums.ClusterProviderOCM = enums.ClusterProviderStandalone ∧
          input.cluster_dns.getD "" = "") ∧
        ¬ (input.provider_type.getD enums.ClusterProviderOCM = enums.ClusterProviderStandalone ∧
          input.name.getD "" = "") := by
  unfold UnmarshalYAML
  by_cases h1 : recognised enums.statuses input.status = true
  · by_cases h2 : recognised enums.providerTypes input.provider_type = true
    · by_cases h3 : input.cluster_id.getD "" = ""
      · simp [h1, h2, h3, loadedManualCluster]
      · by_cases h4 : input.provider_type.getD enums.ClusterProviderOCM =
            enums.ClusterProviderStandalone ∧ input.cluster_dns.getD "" = ""
        · simp [h1, h2, h3, h4, loadedManualCluster]
        · have h6 : ¬ (loadedManualCluster enums input).ClusterId = "" := h3
          have h5 : ¬ ((loadedManualCluster enums input).ProviderType =
              enums.ClusterProviderStandalone ∧ (loadedManualCluster enums input).ClusterDNS = "") :=
            h4
          by_cases h7 : input.provider_type.getD enums.ClusterProviderOCM =
              enums.ClusterProviderStandalone ∧ input.name.getD "" = ""
          · have h8 : (loadedManualCluster enums input).ProviderType =
                enums.ClusterProviderStandalone ∧ (loadedManualCluster enums input).Name = "" :=
              h7
            simp only [h1, h2, Bool.true_eq_false, if_false, if_neg h6, if_neg h5, if_pos h8]
            simp [h7]
          · have h8 : ¬ ((loadedManualCluster enums input).ProviderType =
                enums.ClusterProviderStandalone ∧ (loadedManualCluster enums input).Name = "") :=
              h7
            simp only [h1, h2, Bool.true_eq_false, if_false, if_neg h6, if_neg h5, if_neg h8]
            simp [h3, h4, h7]
    · simp only [Bool.not_eq_true] at h2
      simp [h1, h2]
  · simp only [Bool.not_eq_true] at h1
    simp [h1]

/-- C25, amended: loading a descriptor returns an error whenever the identifier is left out
or empty, whenever the provider kind is standalone and the DNS name is left out or empty,
whenever the status is not a recognised one and whenever the provider kind is not a
recognised one; a descriptor of the standalone kind with an identifier, a DNS name, a name
and, if any, a recognised status loads without error. -/
theorem load_validation (enums : ClusterEnumerations) (input : ManualClusterYAML) :
    (input.cluster_id.getD "" = "" → (UnmarshalYAML enums input).2 ≠ none) ∧
      (input.provider_type = some enums.ClusterProviderStandalone →
        input.cluster_dns.getD "" = "" → (UnmarshalYAML enums input).2 ≠ none) ∧
      (∀ s, input.status = some s → s ∉ enums.statuses →
        (UnmarshalYAML enums input).2 ≠ none) ∧
      (∀ p, input.provider_type = some p → p ∉ enums.providerTypes →
        (UnmarshalYAML enums input).2 ≠ none) ∧
      (input.provider_type = some enums.ClusterProviderStandalone →
        enums.ClusterProviderStandalone ∈ enums.providerTypes →
        (∀ s, input.status = some s → s ∈ enums.statuses) →
        input.cluster_id.getD "" ≠ "" → input.cluster_dns.getD "" ≠ "" →
        input.name.getD "" ≠ "" →
        (UnmarshalYAML enums input).2 = none) := by
  refine ⟨?_, ?_, ?_, ?_, ?_⟩
  · intro h hok
    exact ((unmarshalYAML_ok_iff enums input).mp hok).2.2.1 h
  · intro hp hd hok
    exact ((unmarshalYAML_ok_iff enums input).mp hok).2.2.2.1 ⟨by simp [hp], hd⟩
  · intro s hs hn hok
    have h := ((unmarshalYAML_ok_iff enums input).mp hok).1
    rw [hs] at h
    exact hn (by simpa [recognised] using h)
  · intro p hp hn hok
    have h := ((unmarshalYAML_ok_iff enums input).mp hok).2.1
    rw [hp] at h
    exact hn (by simpa [recognised] using h)
  · intro hp hmem hs hid hdns hname
    refine (unmarshalYAML_ok_iff enums input).mpr
      ⟨?_, ?_, hid, fun h => hdns h.2, fun h => hname h.2⟩
    · cases hst : input.status with
      | none => rfl
      | some s => simp [recognised, hs s hst]
    · simp [recognised, hp, hmem]

/-- The test table of C25, amended: the inputs without identifier, of the standalone kind
without DNS name, with a status that is not recognised and with a provider kind that is not
recognised fail to load, the first two with the descriptor filled in and the last two with
the receiver untouched; the inputs of the standalone kind with identifier, DNS name and
name, the fourth and the fifth of the table, load without error. -/
theorem load_validation_tests :
    UnmarshalYAML testEnumerations { testYAML with cluster_id := none } =
        ({ testOutput with ClusterId := "" }, some "cluster_id is empty") ∧
      UnmarshalYAML testEnumerations { testYAML with provider_type := some "standalone" } =
        ({ testOutput with ProviderType := "standalone" },
          some "standalone cluster without cluster_dns") ∧
      (UnmarshalYAML testEnumerations
          { testYAML with status := some "not_valid", provider_type := some "aws_eks" }).1 =
        zeroManualCluster ∧
      (UnmarshalYAML testEnumerations
          { testYAML with status := some "not_valid", provider_type := some "aws_eks" }).2 ≠
        none ∧
      (UnmarshalYAML testEnumerations
          { testYAML with status := some "ready", provider_type := some "invalid" }).1 =
        zeroManualCluster ∧
      (UnmarshalYAML testEnumerations
          { testYAML with status := some "ready", provider_type := some "invalid" }).2 ≠
        none ∧
      (UnmarshalYAML testEnumerations
          { testYAML with
            cluster_dns := some "test"
            provider_type := some "standalone"
            supported_instance_type := some "developer" }).2 = none ∧
      (UnmarshalYAML testEnumerations
          { testYAML with
            cluster_dns := some "test"
            provider_type := some "standalone"
            supported_instance_type := some "" }).2 = none :=
  ⟨by decide, by decide, by decide,
    (load_validation testEnumerations
      { testYAML with status := some "not_valid", provider_type := some "aws_eks" }).2.2.1
      "not_valid" rfl (by decide),
    by decide,
    (load_validation testEnumerations
      { testYAML with status := some "ready", provider_type := some "invalid" }).2.2.2.1
      "invalid" rfl (by decide),
    (load_validation testEnumerations
      { testYAML with
        cluster_dns := some "test"
        provider_type := some "standalone"
        supported_instance_type := some "developer" }).2.2.2.2 rfl (by decide)
      (by intro s hs; cases hs) (by decide) (by decide) (by decide),
    (load_validation testEnumerations
      { testYAML with
        cluster_dns := some "test"
        provider_type := some "standalone"
        supported_instance_type := some "" }).2.2.2.2 rfl (by decide)
      (by intro s hs; cases hs) (by decide) (by decide) (by decide)⟩

/-- C25 fails as stated: the sixth input of the test table, a descriptor of the standalone
kind with an identifier and a DNS name, without name and with the status `ready`, does not
load without error, as the table expects; the receiver holds the descriptor as the table
gives it, status `ready` included. -/
theorem load_standalone_without_name :
    testStandaloneYAML.provider_type = some testEnumerations.ClusterProviderStandalone ∧
      testStandaloneYAML.cluster_id.getD "" ≠ "" ∧
      testStandaloneYAML.cluster_dns.getD "" ≠ "" ∧
      UnmarshalYAML testEnumerations testStandaloneYAML =
        ({ ClusterId := "test"
           Region := "east-1"
           CloudProvider := "aws"
           Schedulable := true
           KafkaInstanceLimit := 1
           SupportedInstanceType := "developer"
           Name := ""
           MultiAZ := true
           ClusterDNS := "test"
           Status := "ready"
           ProviderType := "standalone" },
          some "standalone cluster without name") := by
  decide

/-- C26: when the status and the provider kind of the input are recognised or left out, the
descriptor loaded has the status of the input, or provisioning when it is left out, the
provider kind of the input, or the primary managed kind when it is left out, the
supported instance type of the input, or all types when it is left out or empty, and every
other field as the input gives it. -/
theorem load_defaults (enums : ClusterEnumerations) (input : ManualClusterYAML)
    (hstatus : ∀ s, input.status = some s → s ∈ enums.statuses)
    (hprovider : ∀ p, input.provider_type = some p → p ∈ enums.providerTypes) :
    (UnmarshalYAML enums input).1 = loadedManualCluster enums input ∧
      (input.status = none → (UnmarshalYAML enums input).1.Status = enums.ClusterProvisioning) ∧
      (input.provider_type = none →
        (UnmarshalYAML enums input).1.ProviderType = enums.ClusterProviderOCM) ∧
      (input.supported_instance_type = none ∨ input.supported_instance_type = some "" →
        (UnmarshalYAML enums input).1.SupportedInstanceType = enums.AllInstanceTypeSupport) ∧
      (∀ s, input.status = some s → (UnmarshalYAML enums input).1.Status = s) ∧
      (∀ p, input.provider_type = some p → (UnmarshalYAML enums input).1.ProviderType = p) ∧
      (∀ t, input.supported_instance_type = some t → t ≠ "" →
        (UnmarshalYAML enums input).1.SupportedInstanceType = t) ∧
      (∀ v, input.name = some v → (UnmarshalYAML enums input).1.Name = v) ∧
      (∀ v, input.cluster_id = some v → (UnmarshalYAML enums input).1.ClusterId = v) ∧
      (∀ v, input.cloud_provider = some v → (UnmarshalYAML enums input).1.CloudProvider = v) ∧
      (∀ v, input.cluster_dns = some v → (UnmarshalYAML enums input).1.ClusterDNS = v) ∧
      (∀ v, input.region = some v → (UnmarshalYAML enums input).1.Region = v) ∧
      (∀ v, input.multi_az = some v → (UnmarshalYAML enums input).1.MultiAZ = v) ∧
      (∀ v, input.schedulable = some v → (UnmarshalYAML enums input).1.Schedulable = v) ∧
      (∀ v, input.kafka_instance_limit = some v →
        (UnmarshalYAML enums input).1.KafkaInstanceLimit = v) := by
  have h1 : recognised enums.statuses input.status = true := by
    cases hst : input.status with
    | none => rfl
    | some s => simp [recognised, hstatus s hst]
  have h2 : recognised enums.providerTypes input.provider_type = true := by
    cases hp : input.provider_type with
    | none => rfl
    | some p => simp [recognised, hprovider p hp]
  have h : (UnmarshalYAML enums input).1 = loadedManualCluster enums input := by
    unfold UnmarshalYAML
    simp only [h1, h2, Bool.true_eq_false, if_false]
    split_ifs <;> rfl
  rw [h]
  refine ⟨rfl, ?_, ?_, ?_, ?_, ?_, ?_, ?_, ?_, ?_, ?_, ?_, ?_, ?_, ?_⟩
  · intro hs
    simp [loadedManualCluster, hs]
  · intro hs
    simp [loadedManualCluster, hs]
  · rintro (hs | hs) <;> simp [loadedManualCluster, hs]
  · intro s hs
    simp [loadedManualCluster, hs]
  · intro s hs
    simp [loadedManualCluster, hs]
  · intro t hs ht
    simp [loadedManualCluster, hs, ht]
  all_goals
    intro v hv
    simp [loadedManualCluster, hv]

/-- The test table of C26: the input that leaves out status, provider kind and
supported instance type loads with the defaults; the standalone input with an empty
supported instance type loads with all instance types; and the input with status `ready`,
provider kind `aws_eks` and supported instance type `developer` keeps them. -/
theorem load_defaults_tests :
    (UnmarshalYAML testEnumerations testYAML).1 = testOutput ∧
      (UnmarshalYAML testEnumerations
          { testYAML with
            cluster_dns := some "test"
            supported_instance_type := some ""
            provider_type := some "standalone" }).1 =
        { testOutput with ClusterDNS := "test", ProviderType := "standalone" } ∧
      (UnmarshalYAML testEnumerations
          { testYAML with
            status := some "ready"
            provider_type := some "aws_eks"
            supported_instance_type := some "developer" }).1 =
        { testOutput with
          Status := "ready"
          ProviderType := "aws_eks"
          SupportedInstanceType := "developer" } :=
  ⟨((load_defaults testEnumerations testYAML (by intro s hs; cases hs)
      (by intro p hp; cases hp)).1).trans (by decide),
    ((load_defaults testEnumerations
      { testYAML with
        cluster_dns := some "test"
        supported_instance_type := some ""
        provider_type := some "standalone" }
      (by intro s hs; cases hs) (by intro p hp; cases hp; decide)).1).trans (by decide),
    ((load_defaults testEnumerations
      { testYAML with
        status := some "ready"
        provider_type := some "aws_eks"
        supported_instance_type := some "developer" }
      (by intro s hs; cases hs; decide) (by intro p hp; cases hp; decide)).1).trans
      (by decide)⟩

/-! ## Cluster service client: scaling the compute nodes -/

/-- An `int` is what wrapping it around yields. -/
theorem wrapInt64_of_isInt64 (x : Int) (h : IsInt64 x) : wrapInt64 x = x := by
  unfold IsInt64 minInt64 maxInt64 at h
  unfold wrapInt64
  omega

/-- Adding a number to an `int` and subtracting it again, both wrapping around, restores
the `int`. -/
theorem wrapInt64_add_sub (n i : Int) (h : IsInt64 n) :
    wrapInt64 (wrapInt64 (n + i) + -i) = n := by
  unfold IsInt64 minInt64 maxInt64 at h
  unfold wrapInt64
  omega

/-- The requests, the result and the state of `scaleComputeNodes` when reading the cluster
fails. -/
theorem scaleComputeNodes_of_get_error {σ : Type} (c : Connection σ) (clusterID : String)
    (numNodes : Int) (s s1 : σ) (err : String) (h : c.Get clusterID s = (.error err, s1)) :
    scaleComputeNodes c clusterID numNodes s = ([.Get clusterID], .error err, s1) := by
  unfold scaleComputeNodes
  rw [h]

/-- The requests of `scaleComputeNodes` when the cluster is read and the patch is built. -/
theorem scaleComputeNodes_requests {σ : Type} (c : Connection σ) (clusterID : String)
    (numNodes : Int) (s s1 : σ) (cluster : clustersmgmtv1.Cluster)
    (h : c.Get clusterID s = (.ok cluster, s1))
    (hb : c.buildError (wrapInt64 (cluster.Compute + numNodes)) = none) :
    (scaleComputeNodes c clusterID numNodes s).1 =
      [.Get clusterID,
        .Update clusterID { Compute := wrapInt64 (cluster.Compute + numNodes) }] := by
  unfold scaleComputeNodes
  rw [h]
  simp only [Connection.Build, hb]
  cases hu : c.Update clusterID { Compute := wrapInt64 (cluster.Compute + numNodes) } s1 with
  | mk r s2 => cases r <;> rfl

/-- On a cluster service that applies each patch, `scaleComputeNodes` leaves the service
in a state in which the cluster reads as the number of nodes it read plus `numNodes`,
wrapped around. -/
theorem scaleComputeNodes_applied {σ : Type} (c : Connection σ) (clusterID : String)
    (numNodes n : Int) (s : σ) (happ : AppliesPatches c clusterID)
    (h : c.Get clusterID s = (.ok { Compute := n }, s)) :
    c.Get clusterID (scaleComputeNodes c clusterID numNodes s).2.2 =
      (.ok { Compute := wrapInt64 (n + numNodes) },
        (scaleComputeNodes c clusterID numNodes s).2.2) := by
  obtain ⟨hb, _, hu⟩ := happ
  obtain ⟨resp, s2, hu1, hu2⟩ := hu { Compute := wrapInt64 (n + numNodes) } s
  unfold scaleComputeNodes
  rw [h]
  simp only [Connection.Build, hb, hu1]
  exact hu2

/-- C27, amended: if reading the cluster fails, `ScaleUpComputeNodes` and
`ScaleDownComputeNodes` send the read and nothing else and return its error; if the cluster is read and the patch
is built, `ScaleUpComputeNodes` sends after the read one update, whose number of compute
nodes is the current number plus `ClusterNodeScaleIncrement` when that sum is an `int`,
and `ScaleDownComputeNodes` one whose number is the current number minus
`ClusterNodeScaleIncrement` when that difference is an `int`; on a cluster service that
applies each patch, a scale-up followed by a scale-down leaves the cluster with the number
of compute nodes it had. -/
theorem scale_compute_nodes {σ : Type} (c : Connection σ) (ClusterNodeScaleIncrement : Int)
    (clusterID : String) (s : σ) :
    (∀ err s1, c.Get clusterID s = (.error err, s1) →
        ScaleUpComputeNodes c ClusterNodeScaleIncrement clusterID s =
            ([.Get clusterID], .error err, s1) ∧
          ScaleDownComputeNodes c ClusterNodeScaleIncrement clusterID s =
            ([.Get clusterID], .error err, s1)) ∧
      (∀ cluster s1, c.Get clusterID s = (.ok cluster, s1) →
        (IsInt64 (cluster.Compute + ClusterNodeScaleIncrement) →
          c.buildError (cluster.Compute + ClusterNodeScaleIncrement) = none →
          (ScaleUpComputeNodes c ClusterNodeScaleIncrement clusterID s).1 =
            [.Get clusterID,
              .Update clusterID { Compute := cluster.Compute + ClusterNodeScaleIncrement }]) ∧
        (IsInt64 (cluster.Compute - ClusterNodeScaleIncrement) →
          c.buildError (cluster.Compute - ClusterNodeScaleIncrement) = none →
          (ScaleDownComputeNodes c ClusterNodeScaleIncrement clusterID s).1 =
            [.Get clusterID,
              .Update clusterID { Compute := cluster.Compute - ClusterNodeScaleIncrement }])) ∧
      (∀ n, AppliesPatches c clusterID → IsInt64 n →
        c.Get clusterID s = (.ok { Compute := n }, s) →
        c.Get clusterID
            (ScaleDownComputeNodes c ClusterNodeScaleIncrement clusterID
              (ScaleUpComputeNodes c ClusterNodeScaleIncrement clusterID s).2.2).2.2 =
          (.ok { Compute := n },
            (ScaleDownComputeNodes c ClusterNodeScaleIncrement clusterID
              (ScaleUpComputeNodes c ClusterNodeScaleIncrement clusterID s).2.2).2.2)) := by
  refine ⟨?_, ?_, ?_⟩
  · intro err s1 h
    exact ⟨scaleComputeNodes_of_get_error c clusterID _ s s1 err h,
      scaleComputeNodes_of_get_error c clusterID _ s s1 err h⟩
  · intro cluster s1 h
    constructor
    · intro hfit hb
      have hw := wrapInt64_of_isInt64 _ hfit
      have hr := scaleComputeNodes_requests c clusterID ClusterNodeScaleIncrement s s1 cluster h
        (by rw [hw]; exact hb)
      rw [hw] at hr
      exact hr
    · intro hfit hb
      have he : cluster.Compute + -ClusterNodeScaleIncrement =
          cluster.Compute - ClusterNodeScaleIncrement := by ring
      have hw := wrapInt64_of_isInt64 _ hfit
      have hr := scaleComputeNodes_requests c clusterID (-ClusterNodeScaleIncrement) s s1
        cluster h (by rw [he, hw]; exact hb)
      rw [he, hw] at hr
      exact hr
  · intro n happ hn h
    have h1 := scaleComputeNodes_applied c clusterID ClusterNodeScaleIncrement n s happ h
    have h2 := scaleComputeNodes_applied c clusterID (-ClusterNodeScaleIncrement)
      (wrapInt64 (n + ClusterNodeScaleIncrement)) _ happ h1
    rw [wrapInt64_add_sub n ClusterNodeScaleIncrement hn] at h2
    exact h2

/-- The scenario of C27, amended, with an increment of three: on a cluster service that
cannot be read the scale-up sends the read only and returns its error; on a cluster of five
compute nodes the scale-up sends a patch of eight and the scale-down a patch of two, and
the scale-down after the scale-up leaves the cluster with five. -/
theorem scale_compute_nodes_scenario :
    ScaleUpComputeNodes unreadableConnection 3 "test" () =
        ([.Get "test"], .error "cluster not found", ()) ∧
      (ScaleUpComputeNodes patchingConnection 3 "test" 5).1 =
        [.Get "test", .Update "test" { Compute := 8 }] ∧
      (ScaleDownComputeNodes patchingConnection 3 "test" 5).1 =
        [.Get "test", .Update "test" { Compute := 2 }] ∧
      (ScaleDownComputeNodes patchingConnection 3 "test"
        (ScaleUpComputeNodes patchingConnection 3 "test" 5).2.2).2.2 = 5 :=
  ⟨((scale_compute_nodes unreadableConnection 3 "test" ()).1 "cluster not found" () rfl).1,
    ((scale_compute_nodes patchingConnection 3 "test" 5).2.1 { Compute := 5 } 5 rfl).1
      (by decide) rfl,
    ((scale_compute_nodes patchingConnection 3 "test" 5).2.1 { Compute := 5 } 5 rfl).2
      (by decide) rfl,
    congrArg clustersmgmtv1.Cluster.Compute (Except.ok.inj (congrArg Prod.fst
      ((scale_compute_nodes patchingConnection 3 "test" 5).2.2 5
        ⟨fun _ => rfl, fun s => ⟨{ Compute := s }, rfl⟩,
          fun patch _ => ⟨patch, patch.Compute, rfl, rfl⟩⟩
        (by decide) rfl))).symm⟩

/-- C27 fails as stated: on a cluster of 9223372036854775807 compute nodes, the largest
`int`, the scale-up by three sends a patch of -9223372036854775806 compute nodes, which is
not the current number plus three. -/
theorem scale_up_wraps_around :
    IsInt64 9223372036854775807 ∧
      (ScaleUpComputeNodes patchingConnection 3 "test" 9223372036854775807).1 =
        [.Get "test", .Update "test" { Compute := -9223372036854775806 }] ∧
      (-9223372036854775806 : Int) ≠ 9223372036854775807 + 3 := by
  refine ⟨by decide, ?_, by decide⟩
  decide

end KafkaMgrs
